import Mathlib

/-!
# ilixi `Application`: window stack, event routing and cursor tracking

A shallow embedding of `src/ilixi/core/Application.cpp`.

* Pointers to `WindowWidget` objects are modelled by their identity: a non-null pointer
  is a `WindowId`, a nullable pointer is a `WindowPtr` (`none` is `NULL`).
* C++ `int` is a Lean `Int` with every sum, difference and product reduced by `wrap32`;
  a division that has no result (divisor 0, or `INT_MIN / -1`) is a `Fault`.
* Calls into collaborators that are not part of `Application.cpp` (the window's own
  event handler, the engine, the event manager) are recorded, in program order, in the
  `trace` field of the state; what those collaborators answer is read from `Env`.
* Static member functions test `__instance` first; the model describes the run of a
  constructed application, so its state *is* `*__instance` and that test succeeds.
* What the engine delivers is an input of the model: `handleEvents` is given the batch
  of events that `getNextEvent` yields during the call, and `exec` an `EngineRun` with
  the answers of `stopped()` and `cycle()` and the batch of every pass.
* Compile-time switches are the fields of `BuildConfig`.
-/

namespace ilixi

/-! ## Machine integers -/

/-- Smallest value of a 32-bit `int`. -/
def INT_MIN : Int := -2147483648

/-- Largest value of a 32-bit `int`. -/
def INT_MAX : Int := 2147483647

/-- Two's-complement reduction of an integer into the range of a 32-bit `int`. -/
def wrap32 (i : Int) : Int := (i + 2147483648) % 4294967296 - 2147483648

/-- The value is representable as a 32-bit `int`. -/
def isInt32 (i : Int) : Prop := INT_MIN ≤ i ∧ i ≤ INT_MAX

instance (i : Int) : Decidable (isInt32 i) := by unfold isInt32; exact inferInstance

/-! ## Data model -/

/-- Identity (address) of a live `WindowWidget` object: a non-null `WindowWidget*`. -/
abbrev WindowId := Nat

/-- A nullable `WindowWidget*`; `none` is `NULL`. -/
abbrev WindowPtr := Option WindowId

/-- Identity of an `IDirectFBWindow` (a non-null `_dfbWindow`). -/
abbrev DfbWindowId := Nat

/-- DirectFB `DFBPoint`. -/
structure DFBPoint where
  x : Int
  y : Int
deriving DecidableEq, Repr

/-- DirectFB `DFBDimension`, the type of `__screenSize`. -/
structure DFBDimension where
  w : Int
  h : Int
deriving DecidableEq, Repr

/-- The `Size` returned by `PlatformManager::getScreenSize()`. -/
structure Size where
  width : Int
  height : Int
deriving DecidableEq, Repr

/-- The arguments of the `Rectangle(x, y, w, h)` constructor. -/
structure Rectangle where
  x : Int
  y : Int
  w : Int
  h : Int
deriving DecidableEq, Repr

/-- DirectFB `DFBWindowEventType`, restricted to the values `Application.cpp` names. -/
inductive DFBWindowEventType where
  | DWET_NONE
  | DWET_KEYDOWN
  | DWET_KEYUP
  | DWET_BUTTONDOWN
  | DWET_BUTTONUP
  | DWET_MOTION
  | DWET_WHEEL
  | DWET_UPDATE
  | DWET_OTHER (bits : Nat)
deriving DecidableEq, Repr

/-- DirectFB `DFBInputEventType`. -/
inductive DFBInputEventType where
  | DIET_KEYPRESS
  | DIET_KEYRELEASE
  | DIET_BUTTONPRESS
  | DIET_BUTTONRELEASE
  | DIET_AXISMOTION
  | DIET_UNKNOWN
deriving DecidableEq, Repr

/-- DirectFB `DFBInputDeviceAxisIdentifier`. -/
inductive DFBInputDeviceAxisIdentifier where
  | DIAI_X
  | DIAI_Y
  | DIAI_Z
  | DIAI_OTHER (id : Nat)
deriving DecidableEq, Repr

/-- The bits of `DFBInputEventFlags` that `Application.cpp` tests or sets; a field is
`true` when `flags & DIEF_...` is non-zero. -/
structure DFBInputEventFlags where
  DIEF_KEYSYMBOL : Bool
  DIEF_MODIFIERS : Bool
  DIEF_LOCKS : Bool
  DIEF_AXISABS : Bool
  DIEF_AXISREL : Bool
  DIEF_REPEAT : Bool
  DIEF_MIN : Bool
  DIEF_MAX : Bool
  DIEF_FOLLOW : Bool
deriving DecidableEq, Repr

/-- DirectFB `DFBWindowEventFlags` as far as `Application.cpp` assigns them. -/
inductive DFBWindowEventFlags where
  | DWEF_NONE
  | DWEF_REPEAT
  | DWEF_OTHER (bits : Nat)
deriving DecidableEq, Repr

/-- DirectFB `DFBInputEvent` (the fields read by `Application.cpp`). -/
structure DFBInputEvent where
  type : DFBInputEventType
  flags : DFBInputEventFlags
  key_code : Int
  key_id : Nat
  key_symbol : Nat
  modifiers : Nat
  locks : Nat
  button : Nat
  buttons : Nat
  axis : DFBInputDeviceAxisIdentifier
  axisabs : Int
  axisrel : Int
  min : Int
  max : Int
deriving DecidableEq, Repr

/-- DirectFB `DFBWindowEvent` (the fields written by `Application.cpp`). -/
structure DFBWindowEvent where
  type : DFBWindowEventType
  flags : DFBWindowEventFlags
  window_id : Nat
  x : Int
  y : Int
  cx : Int
  cy : Int
  step : Int
  key_code : Int
  key_id : Nat
  key_symbol : Nat
  modifiers : Nat
  locks : Nat
  button : Nat
  buttons : Nat
deriving DecidableEq, Repr

/-- The `Window` object behind `WindowWidget::_window`; `_dfbWindow` may be `NULL`. -/
structure Window where
  _dfbWindow : Option DfbWindowId
deriving DecidableEq, Repr

/-- What `Application.cpp` reads from a `WindowWidget` object. -/
structure WindowWidget where
  /-- Whether `_modality & WindowWidget::WindowModal` is non-zero. -/
  modal : Bool
  /-- The `Window* _window` member; `none` is `NULL`. -/
  _window : Option Window
  /-- The `_dragWindow` member. -/
  _dragWindow : Bool
  /-- The member `_updates._updateQueue.valid`. -/
  updateQueueValid : Bool
  /-- The result of `windowID()`. -/
  windowID : Nat
deriving DecidableEq, Repr

/-- The collaborators of `Application`: platform manager, window objects and the
windows' own event handlers. -/
structure Env where
  /-- The result of `PlatformManager::instance().getScreenSize()`. -/
  screenSize : Size
  /-- Whether `PlatformManager::instance().appOptions() & OptExclusive` is non-zero. -/
  optExclusive : Bool
  /-- Whether `PlatformManager::instance().appOptions() & OptNoUpdates` is non-zero. -/
  optNoUpdates : Bool
  /-- The result of `PlatformManager::instance().cursorVisible()`. -/
  cursorVisible : Bool
  /-- The window object a pointer refers to. -/
  widget : WindowId → WindowWidget
  /-- The value returned by a window's `handleWindowEvent`; the last argument is the
  dragging flag, `none` for the one-argument call. -/
  handler : WindowId → DFBWindowEvent → Option Bool → Bool

/-- DirectFB `DFBEvent`: the union of event structures, told apart by `clazz`. -/
inductive DFBEvent where
  /-- Class `DFEC_INPUT`. -/
  | input (event : DFBInputEvent)
  /-- Class `DFEC_WINDOW`. -/
  | window (event : DFBWindowEvent)
  /-- Class `DFEC_USER`. -/
  | user (type : Nat)
  /-- Class `DFEC_UNIVERSAL`, an `UniversalEvent` with its `target` widget (`none` is `NULL`). -/
  | universal (target : Option Nat)
  /-- Class `DFEC_SURFACE`. -/
  | surface (surfaceId : Nat)
  /-- Any other class. -/
  | other
deriving DecidableEq, Repr

/-- A call that leaves `Application.cpp`. -/
inductive Call where
  /-- The call `w->handleWindowEvent(event)` or `w->handleWindowEvent(event, dragging)`. -/
  | handleWindowEvent (w : WindowId) (event : DFBWindowEvent) (dragging : Option Bool)
  /-- The call `Engine::instance().detachWindow(dfb)`. -/
  | detachWindow (dfb : DfbWindowId)
  /-- The call `Engine::instance().attachWindow(dfb)`. -/
  | attachWindow (dfb : DfbWindowId)
  /-- The call `dfb->RequestFocus(dfb)`. -/
  | requestFocus (dfb : DfbWindowId)
  /-- The call `Engine::instance().resetBuffer()`. -/
  | resetBuffer
  /-- The call `w->_eventManager->setGrabbedWidget(NULL)`. -/
  | setGrabbedWidget (w : WindowId)
  /-- The call `w->_eventManager->setExposedWidget(NULL)`. -/
  | setExposedWidget (w : WindowId)
  /-- The call `w->update(PaintEvent(cnew.united(cold), z))`. -/
  | update (w : WindowId) (cnew cold : Rectangle) (z : Int)
  /-- The call `Engine::instance().postEvent(event)`. -/
  | postEvent (event : DFBEvent)
  /-- The call `Engine::instance().waitForEvents(timeout)`. -/
  | waitForEvents (timeout : Int)
  /-- The call `Engine::instance().cycle()`. -/
  | cycle
  /-- The call `Engine::instance().stop()`. -/
  | engineStop
  /-- The call `Engine::instance().consumeSurfaceEvent(event)`. -/
  | consumeSurfaceEvent (surfaceId : Nat)
  /-- The call `target->universalEvent(uEvent)`. -/
  | universalEvent (target : Nat)
  /-- The call `w->updateWindow()`. -/
  | updateWindow (w : WindowId)
  /-- The call `PlatformManager::instance().renderCursor(position, dragging)`. -/
  | renderCursor (position : DFBPoint) (dragging : Bool)
  /-- The call `_appWindow->showWindow()`. -/
  | showWindow
  /-- The call `_appWindow->closeWindow()`. -/
  | closeWindow
  /-- The call `_appWindow->setVisible(visible)`. -/
  | setVisible (visible : Bool)
  /-- The signal emission `sigVisible()`. -/
  | sigVisible
  /-- The signal emission `sigHidden()`. -/
  | sigHidden
  /-- The signal emission `sigQuit()`. -/
  | sigQuit
deriving DecidableEq, Repr

/-- The `AppFlags` values stored in `__flags`. -/
inductive AppFlags where
  | APS_HIDDEN
  | APS_VISIBLE
deriving DecidableEq, Repr

/-- The `AppWindow` owned by the application. -/
structure AppWindow where
  visible : Bool
deriving DecidableEq, Repr

/-- The members of `Application`, followed by the trace of outgoing calls. -/
structure Application where
  _dragging : Bool
  _appWindow : Option AppWindow
  __flags : AppFlags
  __activeWindow : WindowPtr
  _frameTime : Int
  __cursorNew : DFBPoint
  __cursorOld : DFBPoint
  __screenSize : DFBDimension
  __windowList : List WindowId
  trace : List Call
deriving DecidableEq, Repr

/-- Abnormal termination of a member function. -/
inductive Fault where
  /-- A member is accessed through a `NULL` pointer. -/
  | nullDereference
  /-- An integer division whose divisor is zero. -/
  | divisionByZero
  /-- An integer division whose quotient is no `int`: `INT_MIN / -1`. -/
  | divisionOverflow
deriving DecidableEq, Repr

/-- The state established by the constructor `Application::Application`
(lines 46-84): cursor at the origin, `__screenSize` one less than the screen size per
axis, empty window list, no active window, hidden. -/
def Application.new (env : Env) : Application :=
  { _dragging := false
    _appWindow := some { visible := false }
    __flags := AppFlags.APS_HIDDEN
    __activeWindow := none
    _frameTime := 0
    __cursorNew := { x := 0, y := 0 }
    __cursorOld := { x := 0, y := 0 }
    __screenSize := { w := wrap32 (env.screenSize.width - 1), h := wrap32 (env.screenSize.height - 1) }
    __windowList := []
    trace := [] }

/-- Appends one outgoing call to the trace. -/
def Application.emit (s : Application) (c : Call) : Application :=
  { s with trace := s.trace ++ [c] }

/-! ## Window stack (lines 778-905) -/

/-- The function `Application::detachDFBWindow` (lines 885-905): nothing happens for a
`NULL` window, in exclusive mode, or when `_dfbWindow` is `NULL`; otherwise the engine
detaches the window and resets its buffer. -/
def detachDFBWindow (env : Env) (s : Application) (window : Option Window) : Application :=
  match window with
  | none => s
  | some win =>
    if env.optExclusive then s
    else
      match win._dfbWindow with
      | none => s
      | some dfb => (s.emit (Call.detachWindow dfb)).emit Call.resetBuffer

/-- The function `Application::attachDFBWindow` (lines 859-883): nothing happens for a
`NULL` window, in exclusive mode, or when `_dfbWindow` is `NULL`; otherwise the engine
attaches the window, focus is requested and the buffer is reset. -/
def attachDFBWindow (env : Env) (s : Application) (window : Option Window) : Application :=
  match window with
  | none => s
  | some win =>
    if env.optExclusive then s
    else
      match win._dfbWindow with
      | none => s
      | some dfb =>
        ((s.emit (Call.attachWindow dfb)).emit (Call.requestFocus dfb)).emit Call.resetBuffer

/-- The function `Application::setActiveWindow` (lines 778-800) for a non-null argument
(the body reads `window->_window` unconditionally, so `NULL` is not a defined input). -/
def setActiveWindow (env : Env) (s : Application) (window : WindowId) : Application :=
  let s1 :=
    match s.__activeWindow with
    | some a =>
      let s2 :=
        if (env.widget window).modal then detachDFBWindow env s (env.widget a)._window
        else s
      (s2.emit (Call.setGrabbedWidget a)).emit (Call.setExposedWidget a)
    | none => s
  let s3 := { s1 with __activeWindow := some window }
  attachDFBWindow env s3 (env.widget window)._window

/-- The algorithm `std::find(begin, end, window)` as an iterator position: the index of
the first element equal to `window`, or the length of the list (the end iterator). -/
def stdFind (window : WindowId) : List WindowId → Nat
  | [] => 0
  | x :: rest => if x = window then 0 else stdFind window rest + 1

/-- Reading `*it`: the element at position `it`, and for the end iterator the word
`pastEnd` that happens to lie behind the list (the read is not defined by the language). -/
def derefIterator (l : List WindowId) (it : Nat) (pastEnd : WindowPtr) : WindowPtr :=
  match l[it]? with
  | some x => some x
  | none => pastEnd

/-- The function `Application::addWindow` (lines 802-824). The result of `std::find` is
dereferenced without a comparison against `end()`; `pastEnd` is what that read yields
when `window` was not found. -/
def addWindow (pastEnd : WindowPtr) (s : Application) (window : WindowPtr) : Application × Bool :=
  match window with
  | none => (s, false)
  | some w =>
    let it := stdFind w s.__windowList
    if some w = derefIterator s.__windowList it pastEnd then (s, false)
    else ({ s with __windowList := s.__windowList ++ [w] }, true)

/-- The scan of `removeWindow` (lines 834-838): the list with the first entry equal to
`window` erased, or `none` when the loop reaches `end()` without a match. -/
def eraseFirst (window : WindowId) : List WindowId → Option (List WindowId)
  | [] => none
  | x :: rest =>
    if window = x then some rest
    else
      match eraseFirst window rest with
      | some l => some (x :: l)
      | none => none

/-- The function `Application::removeWindow` (lines 826-857). -/
def removeWindow (env : Env) (s : Application) (window : WindowPtr) : Application × Bool :=
  match window with
  | none => (s, false)
  | some w =>
    match eraseFirst w s.__windowList with
    | none => (s, false)
    | some l =>
      let s1 := { s with __windowList := l }
      let s2 :=
        if s1.__activeWindow = some w then
          match l.getLast? with
          | some back => setActiveWindow env s1 back
          | none => { s1 with __activeWindow := none }
        else s1
      (s2, true)

/-- One call on the window stack. -/
inductive StackOp where
  | addWindow (pastEnd : WindowPtr) (window : WindowPtr)
  | removeWindow (window : WindowPtr)
  | setActiveWindow (window : WindowId)
deriving DecidableEq, Repr

/-- The state after one stack call. -/
def StackOp.apply (env : Env) (s : Application) : StackOp → Application
  | StackOp.addWindow pastEnd window => (ilixi.addWindow pastEnd s window).1
  | StackOp.removeWindow window => (ilixi.removeWindow env s window).1
  | StackOp.setActiveWindow window => ilixi.setActiveWindow env s window

/-- The state after a sequence of stack calls, first call first. -/
def runStackOps (env : Env) (s : Application) : List StackOp → Application
  | [] => s
  | op :: ops => runStackOps env (op.apply env s) ops

/-- Every `setActiveWindow` of the sequence is given a window that is in the window list
at the time of the call. -/
def activatesMembersOnly (env : Env) (s : Application) : List StackOp → Prop
  | [] => True
  | StackOp.setActiveWindow window :: ops =>
    window ∈ s.__windowList ∧
      activatesMembersOnly env ((StackOp.setActiveWindow window).apply env s) ops
  | op :: ops => activatesMembersOnly env (op.apply env s) ops

/-- The call is an `addWindow` or a `removeWindow`. -/
def StackOp.isAddOrRemove : StackOp → Bool
  | StackOp.setActiveWindow _ => false
  | _ => true

/-- The window-stack invariant: no window is listed twice, and the active window is
`NULL` or listed. -/
def stackInvariant (s : Application) : Prop :=
  s.__windowList.Nodup ∧ ∀ a, s.__activeWindow = some a → a ∈ s.__windowList

/-! ## Event routing (lines 584-632) -/

/-- The function `Application::activeWindow` (lines 584-595). -/
def activeWindow (s : Application) : WindowPtr :=
  s.__activeWindow

/-- The function `Application::windowPreEventFilter` (lines 375-379). -/
def windowPreEventFilter (_event : DFBWindowEvent) : Bool :=
  false

/-- The condition of line 614: the active window is not `NULL` and it is modal. -/
def activeIsModal (env : Env) (s : Application) : Bool :=
  match s.__activeWindow with
  | some a => (env.widget a).modal
  | none => false

/-- The `while` loop of lines 622-628 over the windows still to visit, in the order of
the reverse iterator: each is handed the event, and the loop ends at the first window
whose handler returns `true`. -/
def routeTopDown (env : Env) (event : DFBWindowEvent) (dragging : Bool) (s : Application) :
    List WindowId → Application
  | [] => s
  | w :: rest =>
    let s1 := s.emit (Call.handleWindowEvent w event (some dragging))
    if env.handler w event (some dragging) then s1
    else routeTopDown env event dragging s1 rest

/-- The function `Application::handleWindowEvents` (lines 609-632). -/
def handleWindowEvents (env : Env) (s : Application) (event : DFBWindowEvent) : Application :=
  if activeIsModal env s then
    match s.__activeWindow with
    | some a => s.emit (Call.handleWindowEvent a event none)
    | none => s
  else routeTopDown env event s._dragging s s.__windowList.reverse

/-! ## Event translation (lines 656-776) -/

/-- The function `Application::handleKeyInputEvent` (lines 656-681). The argument `we`
is the local `DFBEvent we` as it is before the first assignment: fields that the
function does not assign keep whatever they held. -/
def handleKeyInputEvent (env : Env) (s : Application) (we : DFBWindowEvent)
    (event : DFBInputEvent) (type : DFBWindowEventType) : Application :=
  let we1 : DFBWindowEvent :=
    { we with
      type := type
      flags :=
        if event.flags.DIEF_REPEAT then DFBWindowEventFlags.DWEF_REPEAT
        else DFBWindowEventFlags.DWEF_NONE
      key_code := event.key_code
      key_id := event.key_id
      key_symbol := event.key_symbol
      locks := event.locks
      modifiers := event.modifiers
      button := event.button
      buttons := event.buttons
      x := s.__cursorNew.x
      y := s.__cursorNew.y
      cx := s.__cursorNew.x
      cy := s.__cursorNew.y }
  if !windowPreEventFilter we1 then handleWindowEvents env s we1 else s

/-- The function `Application::handleButtonInputEvent` (lines 683-701); `we` as in
`handleKeyInputEvent`. -/
def handleButtonInputEvent (env : Env) (s : Application) (we : DFBWindowEvent)
    (event : DFBInputEvent) (type : DFBWindowEventType) : Application :=
  let we1 : DFBWindowEvent :=
    { we with
      type := type
      x := s.__cursorNew.x
      y := s.__cursorNew.y
      cx := s.__cursorNew.x
      cy := s.__cursorNew.y
      button := event.button
      buttons := event.buttons }
  if !windowPreEventFilter we1 then handleWindowEvents env s we1 else s

/-- The expression of line 729,
`(event.axisabs - event.min) * __screenSize.w / (event.max - event.min)`, in 32-bit
arithmetic with truncating division. The division has no result for a zero divisor and
for `INT_MIN / -1`, whose quotient is no `int`; both are faults. -/
def rescaleAbsolute (s : Application) (event : DFBInputEvent) : Except Fault Int :=
  let dividend := wrap32 (wrap32 (event.axisabs - event.min) * s.__screenSize.w)
  let divisor := wrap32 (event.max - event.min)
  if divisor = 0 then Except.error Fault.divisionByZero
  else if dividend = INT_MIN ∧ divisor = -1 then Except.error Fault.divisionOverflow
  else Except.ok (Int.tdiv dividend divisor)

/-- Lines 727-731: the new position of an absolute axis event. -/
def absolutePosition (s : Application) (event : DFBInputEvent) : Except Fault Int :=
  if event.flags.DIEF_MIN && event.flags.DIEF_MAX then rescaleAbsolute s event
  else Except.ok event.axisabs

/-- Lines 714-742: the cursor is moved along the axis of the event, or the window event
becomes a wheel event for any axis other than X and Y. -/
def moveCursor (s : Application) (we : DFBWindowEvent) (event : DFBInputEvent) :
    Except Fault (Application × DFBWindowEvent) :=
  if event.flags.DIEF_AXISREL then
    match event.axis with
    | DFBInputDeviceAxisIdentifier.DIAI_X =>
      Except.ok
        ({ s with __cursorNew := { s.__cursorNew with x := wrap32 (s.__cursorNew.x + event.axisrel) } },
          we)
    | DFBInputDeviceAxisIdentifier.DIAI_Y =>
      Except.ok
        ({ s with __cursorNew := { s.__cursorNew with y := wrap32 (s.__cursorNew.y + event.axisrel) } },
          we)
    | _ =>
      Except.ok
        (s, { we with type := DFBWindowEventType.DWET_WHEEL, step := wrap32 (-event.axisrel) })
  else if event.flags.DIEF_AXISABS then
    match absolutePosition s event with
    | Except.error f => Except.error f
    | Except.ok newPos =>
      match event.axis with
      | DFBInputDeviceAxisIdentifier.DIAI_X =>
        Except.ok ({ s with __cursorNew := { s.__cursorNew with x := newPos } }, we)
      | DFBInputDeviceAxisIdentifier.DIAI_Y =>
        Except.ok ({ s with __cursorNew := { s.__cursorNew with y := newPos } }, we)
      | _ =>
        Except.ok
          (s, { we with type := DFBWindowEventType.DWET_WHEEL, step := wrap32 (-event.axisrel) })
  else Except.ok (s, we)

/-- Lines 744-747 and 749-752 for one component: below zero becomes zero, above
`bound - 1` becomes `bound - 1`, where `bound` is the matching `__screenSize` field. -/
def clampComponent (v bound : Int) : Int :=
  if v < 0 then 0
  else if v > wrap32 (bound - 1) then wrap32 (bound - 1)
  else v

/-- Lines 744-752: both components of `__cursorNew` are clamped. -/
def clampCursor (s : Application) : Application :=
  { s with
    __cursorNew :=
      { x := clampComponent s.__cursorNew.x s.__screenSize.w
        y := clampComponent s.__cursorNew.y s.__screenSize.h } }

/-- Lines 754-760: for a motion event with a visible cursor the active window is asked
to repaint the union of the 32x32 rectangles at the old and the new cursor position;
`activeWindow()` is used without a test, so a `NULL` active window is a fault. -/
def repaintCursor (env : Env) (s : Application) (we : DFBWindowEvent) : Except Fault Application :=
  if we.type = DFBWindowEventType.DWET_MOTION && env.cursorVisible then
    let cold : Rectangle := { x := s.__cursorOld.x, y := s.__cursorOld.y, w := 32, h := 32 }
    let cnew : Rectangle := { x := s.__cursorNew.x, y := s.__cursorNew.y, w := 32, h := 32 }
    match activeWindow s with
    | none => Except.error Fault.nullDereference
    | some a => Except.ok (s.emit (Call.update a cnew cold 10))
  else Except.ok s

/-- Lines 703-772 of `Application::handleAxisMotion`: the cursor is moved and clamped,
the repaint is scheduled and the window event is stamped. The result is the state at
that point together with the window event that is about to be routed, or the fault
that ended the function early. `we` as in `handleKeyInputEvent`. -/
def translateAxisMotion (env : Env) (s : Application) (we : DFBWindowEvent)
    (event : DFBInputEvent) : Application × Except Fault DFBWindowEvent :=
  let we1 : DFBWindowEvent := { we with type := DFBWindowEventType.DWET_MOTION, step := 0 }
  let s1 := { s with __cursorOld := s.__cursorNew }
  match moveCursor s1 we1 event with
  | Except.error f => (s1, Except.error f)
  | Except.ok (s2, we2) =>
    let s3 := clampCursor s2
    match repaintCursor env s3 we2 with
    | Except.error f => (s3, Except.error f)
    | Except.ok s4 =>
      (s4,
        Except.ok
          { we2 with
            x := s4.__cursorNew.x
            y := s4.__cursorNew.y
            cx := s4.__cursorNew.x
            cy := s4.__cursorNew.y
            button := event.button
            buttons := event.buttons })

/-- The function `Application::handleAxisMotion` (lines 703-776): the translation of
lines 703-772 followed by the routing of lines 774-775. The result is the state in
which control leaves the function, together with the fault that ended it early, if
any. -/
def handleAxisMotion (env : Env) (s : Application) (we : DFBWindowEvent) (event : DFBInputEvent) :
    Application × Option Fault :=
  match translateAxisMotion env s we event with
  | (s1, Except.error f) => (s1, some f)
  | (s4, Except.ok we3) =>
    if !windowPreEventFilter we3 then (handleWindowEvents env s4 we3, none) else (s4, none)

/-- The values of the integer fields of an input event are 32-bit `int`s. -/
def DFBInputEvent.wellTyped (event : DFBInputEvent) : Prop :=
  isInt32 event.axisabs ∧ isInt32 event.axisrel ∧ isInt32 event.min ∧ isInt32 event.max

/-- The screen size reported by the platform consists of 32-bit `int`s. -/
def Size.wellTyped (size : Size) : Prop :=
  isInt32 size.width ∧ isInt32 size.height

/-! ## Lifecycle (lines 147-180 and 346-368) -/

/-- Modelled from the spec: `AppWindow::showWindow` is not part of `Application.cpp`; by
section 4.4 of the spec it "makes the primary window visible". -/
def AppWindow.showWindow (w : AppWindow) : AppWindow :=
  { w with visible := true }

/-- Modelled from the spec: `AppWindow::closeWindow` is not part of `Application.cpp`; by
section 4.4 of the spec `hide()` is the "symmetric inverse" of `show()`, so the primary
window stops being visible. -/
def AppWindow.closeWindow (w : AppWindow) : AppWindow :=
  { w with visible := false }

/-- Modelled from the spec: `setVisible` of the app window is not part of
`Application.cpp`; it is the setter of the window's visibility. -/
def AppWindow.setVisible (w : AppWindow) (visible : Bool) : AppWindow :=
  { w with visible := visible }

/-- The function `Application::show` (lines 346-356). `__flags` holds one `AppFlags`
value, so the test `__flags & APS_HIDDEN` succeeds exactly in the state `APS_HIDDEN`. -/
def Application.show (s : Application) : Application :=
  if s.__flags = AppFlags.APS_HIDDEN then
    let s1 :=
      match s._appWindow with
      | some w => Application.emit { s with _appWindow := some w.showWindow } Call.showWindow
      | none => s
    Application.emit { s1 with __flags := AppFlags.APS_VISIBLE } Call.sigVisible
  else s

/-- The function `Application::hide` (lines 358-368). -/
def Application.hide (s : Application) : Application :=
  if s.__flags = AppFlags.APS_VISIBLE then
    let s1 :=
      match s._appWindow with
      | some w => Application.emit { s with _appWindow := some w.closeWindow } Call.closeWindow
      | none => s
    Application.emit { s1 with __flags := AppFlags.APS_HIDDEN } Call.sigHidden
  else s

/-- The function `Application::quit` (lines 147-155): `_appWindow` is used without a
test, then the engine is stopped. -/
def quit (s : Application) : Application × Option Fault :=
  match s._appWindow with
  | none => (s, some Fault.nullDereference)
  | some w =>
    (Application.emit
        (Application.emit { s with _appWindow := some (w.setVisible false) } (Call.setVisible false))
        Call.engineStop,
      none)

/-! ## Event injection (lines 218-243) -/

/-- The flags `DIEF_KEYSYMBOL | DIEF_MODIFIERS | DIEF_LOCKS` of line 226. -/
def keyEventFlags : DFBInputEventFlags :=
  { DIEF_KEYSYMBOL := true
    DIEF_MODIFIERS := true
    DIEF_LOCKS := true
    DIEF_AXISABS := false
    DIEF_AXISREL := false
    DIEF_REPEAT := false
    DIEF_MIN := false
    DIEF_MAX := false
    DIEF_FOLLOW := false }

/-- The function `Application::postKeyEvent` (lines 218-243). `inputEvent` and
`windowEvent` are the local `event` variables as they are before the first assignment.
In shared mode `activeWindow()` is used without a test. -/
def postKeyEvent (env : Env) (s : Application) (inputEvent : DFBInputEvent)
    (windowEvent : DFBWindowEvent) (symbol modifierMask lockState : Nat) (down : Bool) :
    Application × Option Fault :=
  if env.optExclusive then
    let event : DFBInputEvent :=
      { inputEvent with
        type :=
          if down then DFBInputEventType.DIET_KEYPRESS else DFBInputEventType.DIET_KEYRELEASE
        flags := keyEventFlags
        key_symbol := symbol
        modifiers := modifierMask
        locks := lockState }
    (s.emit (Call.postEvent (DFBEvent.input event)), none)
  else
    match activeWindow s with
    | none => (s, some Fault.nullDereference)
    | some a =>
      let event : DFBWindowEvent :=
        { windowEvent with
          window_id := (env.widget a).windowID
          type :=
            if down then DFBWindowEventType.DWET_KEYDOWN else DFBWindowEventType.DWET_KEYUP
          flags := DFBWindowEventFlags.DWEF_NONE
          key_symbol := symbol
          modifiers := modifierMask
          locks := lockState }
      (s.emit (Call.postEvent (DFBEvent.window event)), none)

/-! ## Dispatch loop (lines 381-517) -/

/-- The compile-time switches tested by `Application.cpp`. -/
structure BuildConfig where
  /-- Whether `ILIXI_HAVE_MOTION_COMPRESSION` is non-zero. -/
  motionCompression : Bool
  /-- Whether `ILIXI_HAS_SURFACEEVENTS` is non-zero. -/
  surfaceEvents : Bool
deriving DecidableEq, Repr

/-- The statement `if (!windowPreEventFilter(e)) handleWindowEvents(e);`. -/
def filterAndRoute (env : Env) (s : Application) (event : DFBWindowEvent) : Application :=
  if !windowPreEventFilter event then handleWindowEvents env s event else s

/-- The `DFEC_INPUT` case of `handleEvents` (lines 413-440). -/
def handleInputEvent (env : Env) (s : Application) (we : DFBWindowEvent) (event : DFBInputEvent) :
    Application × Option Fault :=
  match event.type with
  | DFBInputEventType.DIET_KEYPRESS =>
    (handleKeyInputEvent env s we event DFBWindowEventType.DWET_KEYDOWN, none)
  | DFBInputEventType.DIET_KEYRELEASE =>
    (handleKeyInputEvent env s we event DFBWindowEventType.DWET_KEYUP, none)
  | DFBInputEventType.DIET_BUTTONPRESS =>
    (handleButtonInputEvent env s we event DFBWindowEventType.DWET_BUTTONDOWN, none)
  | DFBInputEventType.DIET_BUTTONRELEASE =>
    (handleButtonInputEvent env s we event DFBWindowEventType.DWET_BUTTONUP, none)
  | DFBInputEventType.DIET_AXISMOTION => handleAxisMotion env s we event
  | DFBInputEventType.DIET_UNKNOWN => (s, none)

/-- The `DFEC_WINDOW` case of `handleEvents` (lines 442-461); the result is the new
state and the new value of the local `lastMotion`. -/
def handleQueuedWindowEvent (cfg : BuildConfig) (env : Env) (s : Application)
    (lastMotion event : DFBWindowEvent) : Application × DFBWindowEvent :=
  if !env.optExclusive && event.type != DFBWindowEventType.DWET_UPDATE then
    if cfg.motionCompression then
      if event.type == DFBWindowEventType.DWET_MOTION && event.buttons == 0 then (s, event)
      else if lastMotion.type == DFBWindowEventType.DWET_NONE then
        let s1 := filterAndRoute env s lastMotion
        let lastMotion1 := { lastMotion with type := DFBWindowEventType.DWET_NONE }
        (filterAndRoute env s1 event, lastMotion1)
      else (s, lastMotion)
    else (filterAndRoute env s event, lastMotion)
  else (s, lastMotion)

/-- The `while` loop of `handleEvents` (lines 408-484) over the events that
`getNextEvent` yields before it reports an empty queue. The result is the state and the
value of `lastMotion` when the loop is left, and the fault that ended it early, if any. -/
def drainEvents (cfg : BuildConfig) (env : Env) (we : DFBWindowEvent) :
    Application → DFBWindowEvent → List DFBEvent → (Application × DFBWindowEvent) × Option Fault
  | s, lastMotion, [] => ((s, lastMotion), none)
  | s, lastMotion, DFBEvent.input event :: rest =>
    match handleInputEvent env s we event with
    | (s1, some f) => ((s1, lastMotion), some f)
    | (s1, none) => drainEvents cfg env we s1 lastMotion rest
  | s, lastMotion, DFBEvent.window event :: rest =>
    drainEvents cfg env we (handleQueuedWindowEvent cfg env s lastMotion event).1
      (handleQueuedWindowEvent cfg env s lastMotion event).2 rest
  | s, lastMotion, DFBEvent.user _ :: rest => drainEvents cfg env we s lastMotion rest
  | s, lastMotion, DFBEvent.universal (some target) :: rest =>
    drainEvents cfg env we (s.emit (Call.universalEvent target)) lastMotion rest
  | s, lastMotion, DFBEvent.universal none :: rest => drainEvents cfg env we s lastMotion rest
  | s, lastMotion, DFBEvent.surface surfaceId :: rest =>
    if cfg.surfaceEvents then
      drainEvents cfg env we (s.emit (Call.consumeSurfaceEvent surfaceId)) lastMotion rest
    else drainEvents cfg env we s lastMotion rest
  | s, lastMotion, DFBEvent.other :: rest => drainEvents cfg env we s lastMotion rest

/-- The function `Application::handleEvents` (lines 381-492). `batch` holds the events
that `getNextEvent` yields during this call, `we` is the local `DFBEvent we` of the
translators and `lastMotion` the local of that name, both as they are before the first
assignment. -/
def handleEvents (cfg : BuildConfig) (env : Env) (s : Application)
    (we lastMotion : DFBWindowEvent) (timeout : Int) (forceWait : Bool) (batch : List DFBEvent) :
    Application × Option Fault :=
  let wait :=
    if !forceWait then !(s.__windowList.any (fun w => (env.widget w).updateQueueValid))
    else true
  let s1 := if wait then s.emit (Call.waitForEvents timeout) else s
  let lastMotion0 := { lastMotion with type := DFBWindowEventType.DWET_NONE }
  match drainEvents cfg env we s1 lastMotion0 batch with
  | ((s2, _), some f) => (s2, some f)
  | ((s2, lastMotion1), none) =>
    if cfg.motionCompression && lastMotion1.type != DFBWindowEventType.DWET_NONE then
      (filterAndRoute env s2 lastMotion1, none)
    else (s2, none)

/-- The function `Application::cursorPosition` (lines 603-607). -/
def cursorPosition (s : Application) : DFBPoint :=
  s.__cursorNew

/-- The function `Application::updateWindows` (lines 494-517). `preCursor` is the
function-static variable of that name, `none` until its initialiser has run; the result
carries its new value. -/
def updateWindows (env : Env) (s : Application) (preCursor : Option DFBPoint) :
    Application × Option DFBPoint :=
  let s1 :=
    if !env.optNoUpdates then
      s.__windowList.foldl (fun acc w => acc.emit (Call.updateWindow w)) s
    else s
  if env.optExclusive then
    let pre :=
      match preCursor with
      | some p => p
      | none => s1.__cursorNew
    if pre.x ≠ s1.__cursorNew.x ∨ pre.y ≠ s1.__cursorNew.y then
      (s1.emit (Call.renderCursor (cursorPosition s1) s1._dragging), some s1.__cursorNew)
    else (s1, some pre)
  else (s1, preCursor)

/-- What the engine answers during one run of `exec`: the value of the `k`-th call of
`stopped()`, the timeout returned by the `k`-th `cycle()`, and the events that
`getNextEvent` yields during the `k`-th `handleEvents` (all counted from 0). -/
structure EngineRun where
  stopped : Nat → Bool
  cycle : Nat → Int
  events : Nat → List DFBEvent

/-- One pass of the body of the `while` loop of `exec` (lines 170-171), the `k`-th of
the run: `handleEvents(Engine::instance().cycle())` with the default `forceWait`
(`false`, see section 4.3 of the spec), then `updateWindows()`. -/
def execIteration (cfg : BuildConfig) (env : Env) (run : EngineRun)
    (we lastMotion : DFBWindowEvent) (k : Nat) (s : Application) (preCursor : Option DFBPoint) :
    (Application × Option DFBPoint) × Option Fault :=
  match handleEvents cfg env (s.emit Call.cycle) we lastMotion (run.cycle k) false (run.events k) with
  | (s1, some f) => ((s1, preCursor), some f)
  | (s1, none) => (updateWindows env s1 preCursor, none)

/-- The `while (true)` loop of `exec` (lines 164-173), started at its `k`-th pass;
`fuel` bounds the number of passes and `none` means the bound was reached. -/
def execLoop (cfg : BuildConfig) (env : Env) (run : EngineRun) (we lastMotion : DFBWindowEvent) :
    Nat → Nat → Application → Option DFBPoint →
      Option ((Application × Option DFBPoint) × Option Fault)
  | 0, _, _, _ => none
  | fuel + 1, k, s, preCursor =>
    if run.stopped k then some ((s, preCursor), none)
    else
      match execIteration cfg env run we lastMotion k s preCursor with
      | (r, some f) => some (r, some f)
      | (r, none) => execLoop cfg env run we lastMotion fuel (k + 1) r.1 r.2

/-- The function `Application::exec` (lines 157-180). -/
def exec (cfg : BuildConfig) (env : Env) (run : EngineRun) (we lastMotion : DFBWindowEvent)
    (fuel : Nat) (s : Application) (preCursor : Option DFBPoint) :
    Option ((Application × Option DFBPoint) × Option Fault) :=
  match execLoop cfg env run we lastMotion fuel 0 s.show preCursor with
  | none => none
  | some (r, some f) => some (r, some f)
  | some (r, none) => some ((r.1.hide.emit Call.sigQuit, r.2), none)

/-! ## Drag routing (lines 634-654) -/

/-- The `while` loop of `handleDragEvents` (lines 641-652) over the windows still to
visit, in the order of the reverse iterator: a window with `_dragWindow` set is passed
over, any other is handed the event, and the loop ends at the first handler that
returns `true`. -/
def routeDrag (env : Env) (event : DFBWindowEvent) (dragging : Bool) (s : Application) :
    List WindowId → Application
  | [] => s
  | w :: rest =>
    if (env.widget w)._dragWindow then routeDrag env event dragging s rest
    else
      let s1 := s.emit (Call.handleWindowEvent w event (some dragging))
      if env.handler w event (some dragging) then s1
      else routeDrag env event dragging s1 rest

/-- The function `Application::handleDragEvents` (lines 634-654). -/
def handleDragEvents (env : Env) (s : Application) (event : DFBWindowEvent) : Application :=
  routeDrag env event s._dragging s s.__windowList.reverse

/-! ## Pointer injection (lines 245-321) -/

/-- The enumeration `PointerEventType`; its declaration is not part of
`Application.cpp`, the four enumerators are those the function compares with or that
the claims name. -/
inductive PointerEventType where
  | PointerButtonDown
  | PointerButtonUp
  | PointerMotion
  | PointerWheel
deriving DecidableEq, Repr

/-- The cast `(DFBWindowEventType) type` of line 309: every enumerator of
`PointerEventType` is declared as the DirectFB window event type of the same meaning. -/
def PointerEventType.toWindowEventType : PointerEventType → DFBWindowEventType
  | PointerEventType.PointerButtonDown => DFBWindowEventType.DWET_BUTTONDOWN
  | PointerEventType.PointerButtonUp => DFBWindowEventType.DWET_BUTTONUP
  | PointerEventType.PointerMotion => DFBWindowEventType.DWET_MOTION
  | PointerEventType.PointerWheel => DFBWindowEventType.DWET_WHEEL

/-- The flags value `DIEF_NONE`. -/
def noEventFlags : DFBInputEventFlags :=
  { DIEF_KEYSYMBOL := false
    DIEF_MODIFIERS := false
    DIEF_LOCKS := false
    DIEF_AXISABS := false
    DIEF_AXISREL := false
    DIEF_REPEAT := false
    DIEF_MIN := false
    DIEF_MAX := false
    DIEF_FOLLOW := false }

/-- The local `event_1` of `postPointerEvent` when it is posted (lines 250-257). -/
def pointerEvent1 (s : Application) (inputEvent : DFBInputEvent) (x : Int) : DFBInputEvent :=
  { inputEvent with
    type := DFBInputEventType.DIET_AXISMOTION
    flags := { noEventFlags with DIEF_AXISABS := true, DIEF_FOLLOW := true }
    axis := DFBInputDeviceAxisIdentifier.DIAI_X
    axisabs := x
    max := s.__screenSize.w
    min := 0 }

/-- The local `event_2` of `postPointerEvent` when it is posted (lines 260-269). -/
def pointerEvent2 (s : Application) (inputEvent : DFBInputEvent) (button buttonMask : Nat)
    (y : Int) : DFBInputEvent :=
  { inputEvent with
    type := DFBInputEventType.DIET_AXISMOTION
    flags := { noEventFlags with DIEF_AXISABS := true }
    axis := DFBInputDeviceAxisIdentifier.DIAI_Y
    axisabs := y
    max := s.__screenSize.h
    min := 0
    button := button
    buttons := buttonMask }

/-- The local `event_3` of `postPointerEvent` when it is posted (lines 272-304), if the
type of the pointer event has one. -/
def pointerEvent3 (s : Application) (inputEvent : DFBInputEvent) (type : PointerEventType)
    (button buttonMask : Nat) (step : Int) : Option DFBInputEvent :=
  match type with
  | PointerEventType.PointerButtonDown =>
    some
      { inputEvent with
        type := DFBInputEventType.DIET_BUTTONPRESS
        flags := noEventFlags
        button := button
        buttons := buttonMask }
  | PointerEventType.PointerButtonUp =>
    some
      { inputEvent with
        type := DFBInputEventType.DIET_BUTTONRELEASE
        flags := noEventFlags
        button := button
        buttons := buttonMask }
  | PointerEventType.PointerWheel =>
    some
      { inputEvent with
        type := DFBInputEventType.DIET_AXISMOTION
        flags := { noEventFlags with DIEF_AXISABS := true }
        axis := DFBInputDeviceAxisIdentifier.DIAI_Z
        axisabs := step
        max := s.__screenSize.h
        min := 0
        button := button
        buttons := buttonMask }
  | PointerEventType.PointerMotion => none

/-- The function `Application::postPointerEvent` (lines 245-321). `inputEvent` and
`windowEvent` are the local event variables as they are before the first assignment.
In shared mode `activeWindow()` is used without a test. -/
def postPointerEvent (env : Env) (s : Application) (inputEvent : DFBInputEvent)
    (windowEvent : DFBWindowEvent) (type : PointerEventType) (button buttonMask : Nat)
    (x y cx cy step : Int) : Application × Option Fault :=
  if env.optExclusive then
    let s1 := s.emit (Call.postEvent (DFBEvent.input (pointerEvent1 s inputEvent x)))
    let s2 :=
      s1.emit (Call.postEvent (DFBEvent.input (pointerEvent2 s inputEvent button buttonMask y)))
    match pointerEvent3 s inputEvent type button buttonMask step with
    | some event3 => (s2.emit (Call.postEvent (DFBEvent.input event3)), none)
    | none => (s2, none)
  else
    match activeWindow s with
    | none => (s, some Fault.nullDereference)
    | some a =>
      let event : DFBWindowEvent :=
        { windowEvent with
          type := type.toWindowEventType
          window_id := (env.widget a).windowID
          flags := DFBWindowEventFlags.DWEF_NONE
          x := x
          y := y
          cx := cx
          cy := cy
          step := step
          button := button
          buttons := buttonMask }
      (s.emit (Call.postEvent (DFBEvent.window event)), none)

/-! ## Parts of `handleEvents` named for the statements -/

/-- Lines 386-400 of `handleEvents`: the engine is asked to wait unless `forceWait` is
off and some listed window has a valid update queue. -/
def waitStep (env : Env) (s : Application) (timeout : Int) (forceWait : Bool) : Application :=
  let wait :=
    if !forceWait then !(s.__windowList.any (fun w => (env.widget w).updateQueueValid))
    else true
  if wait then s.emit (Call.waitForEvents timeout) else s

/-- Lines 486-490 of `handleEvents`, applied to the outcome of the `while` loop: with
motion compression a pending `lastMotion` is routed. -/
def flushLastMotion (cfg : BuildConfig) (env : Env)
    (r : (Application × DFBWindowEvent) × Option Fault) : Application × Option Fault :=
  match r with
  | ((s2, _), some f) => (s2, some f)
  | ((s2, lastMotion1), none) =>
    if cfg.motionCompression && lastMotion1.type != DFBWindowEventType.DWET_NONE then
      (filterAndRoute env s2 lastMotion1, none)
    else (s2, none)

/-- The call is one that the `while` loop of `handleEvents` and the routing behind it
issue: a window handler, a repaint request, a universal or a surface event. -/
def Call.isDrainWork : Call → Bool
  | Call.handleWindowEvent _ _ _ => true
  | Call.update _ _ _ _ => true
  | Call.universalEvent _ => true
  | Call.consumeSurfaceEvent _ => true
  | _ => false

/-- The state `s1` has the trace of `s` extended by calls of the `while` loop of
`handleEvents` only. -/
def DrainSteps (s s1 : Application) : Prop :=
  ∃ t, s1.trace = s.trace ++ t ∧ ∀ c ∈ t, c.isDrainWork = true

/-- The window event is a pure motion: type motion and button mask 0. -/
def isPureMotion (event : DFBWindowEvent) : Prop :=
  event.type = DFBWindowEventType.DWET_MOTION ∧ event.buttons = 0

/-- Modelled from the spec: the class `Rectangle` is not part of `Application.cpp`;
`Rectangle(x, y, w, h)` is the rectangle with top-left corner `(x, y)`, width `w` and
height `h`, so it is centred at a point when the point lies half the width and half
the height from that corner. -/
def Rectangle.centredAt (r : Rectangle) (p : DFBPoint) : Prop :=
  2 * r.x + r.w = 2 * p.x ∧ 2 * r.y + r.h = 2 * p.y

instance (r : Rectangle) (p : DFBPoint) : Decidable (r.centredAt p) := by
  unfold Rectangle.centredAt; exact inferInstance

/-! ## Scenarios -/

/-- An 800x600 screen in shared mode with a visible cursor; every window is non-modal,
owns a backend window, and only window 2 consumes events. -/
def demoEnv : Env :=
  { screenSize := { width := 800, height := 600 }
    optExclusive := false
    optNoUpdates := false
    cursorVisible := true
    widget := fun w =>
      { modal := false
        _window := some { _dfbWindow := some w }
        _dragWindow := false
        updateQueueValid := false
        windowID := w }
    handler := fun w _ _ => decide (w = 2) }

/-- The application right after construction on `demoEnv`. -/
def demoApp : Application :=
  Application.new demoEnv

/-- A stack session: two windows are added, the first is activated, added a second
time, and removed again. -/
def demoSession : List StackOp :=
  [ StackOp.addWindow none (some 1)
  , StackOp.addWindow none (some 2)
  , StackOp.setActiveWindow 1
  , StackOp.addWindow none (some 1)
  , StackOp.removeWindow (some 1) ]

/-- The stack `[1, 2, 3]` with active window `active`. -/
def demoStack (active : WindowPtr) : Application :=
  { demoApp with __windowList := [1, 2, 3], __activeWindow := active }

/-- A button-press window event at the origin. -/
def demoEvent : DFBWindowEvent :=
  { type := DFBWindowEventType.DWET_BUTTONDOWN
    flags := DFBWindowEventFlags.DWEF_NONE
    window_id := 0
    x := 0
    y := 0
    cx := 0
    cy := 0
    step := 0
    key_code := 0
    key_id := 0
    key_symbol := 0
    modifiers := 0
    locks := 0
    button := 1
    buttons := 1 }

/-- The platform `demoEnv` with window 1 modal and every window consuming events. -/
def modalEnv : Env :=
  { demoEnv with
    widget := fun w =>
      { modal := decide (w = 1)
        _window := some { _dfbWindow := some w }
        _dragWindow := false
        updateQueueValid := false
        windowID := w }
    handler := fun _ _ _ => true }

/-- An input event without flags, on the X axis, all fields zero. -/
def blankInput : DFBInputEvent :=
  { type := DFBInputEventType.DIET_AXISMOTION
    flags :=
      { DIEF_KEYSYMBOL := false
        DIEF_MODIFIERS := false
        DIEF_LOCKS := false
        DIEF_AXISABS := false
        DIEF_AXISREL := false
        DIEF_REPEAT := false
        DIEF_MIN := false
        DIEF_MAX := false
        DIEF_FOLLOW := false }
    key_code := 0
    key_id := 0
    key_symbol := 0
    modifiers := 0
    locks := 0
    button := 0
    buttons := 0
    axis := DFBInputDeviceAxisIdentifier.DIAI_X
    axisabs := 0
    axisrel := 0
    min := 0
    max := 0 }

/-- A relative axis-motion event with delta `d`. -/
def relativeMotion (axis : DFBInputDeviceAxisIdentifier) (d : Int) : DFBInputEvent :=
  { blankInput with
    flags := { blankInput.flags with DIEF_AXISREL := true }
    axis := axis
    axisrel := d }

/-- An absolute axis-motion event that declares `min` and `max`. -/
def absoluteMotion (axis : DFBInputDeviceAxisIdentifier) (axisabs min max : Int) : DFBInputEvent :=
  { blankInput with
    flags := { blankInput.flags with DIEF_AXISABS := true, DIEF_MIN := true, DIEF_MAX := true }
    axis := axis
    axisabs := axisabs
    min := min
    max := max }

/-- A key-press input event for key symbol 65. -/
def keyPress : DFBInputEvent :=
  { blankInput with
    type := DFBInputEventType.DIET_KEYPRESS
    flags := { blankInput.flags with DIEF_KEYSYMBOL := true }
    key_symbol := 65 }

/-- A button-press input event for button 1. -/
def buttonPress : DFBInputEvent :=
  { blankInput with type := DFBInputEventType.DIET_BUTTONPRESS, button := 1, buttons := 1 }

/-- The one-window stack `[1]` whose window is active. -/
def singleWindowApp : Application :=
  { demoApp with __windowList := [1], __activeWindow := some 1 }

/-- The platform `demoEnv` with a screen of 800x1. -/
def flatEnv : Env :=
  { demoEnv with screenSize := { width := 800, height := 1 } }

/-- The stack `[1, 2, 3]` on the 800x600 screen with active window 1 and the cursor at
`(10, 599)`, in the last row of the screen. -/
def lastRowApp : Application :=
  { demoStack (some 1) with __cursorNew := { x := 10, y := 599 } }

/-- The application constructed on `flatEnv` after window 1 is added and activated; the
cursor is still at the origin. -/
def flatApp : Application :=
  runStackOps flatEnv (Application.new flatEnv)
    [StackOp.addWindow none (some 1), StackOp.setActiveWindow 1]

/-- The engine calls issued by `detachDFBWindow` (lines 885-905). -/
def detachCalls (env : Env) (window : Option Window) : List Call :=
  match window with
  | none => []
  | some win =>
    if env.optExclusive then []
    else
      match win._dfbWindow with
      | none => []
      | some dfb => [Call.detachWindow dfb, Call.resetBuffer]

/-- The engine calls issued by `attachDFBWindow` (lines 859-883). -/
def attachCalls (env : Env) (window : Option Window) : List Call :=
  match window with
  | none => []
  | some win =>
    if env.optExclusive then []
    else
      match win._dfbWindow with
      | none => []
      | some dfb => [Call.attachWindow dfb, Call.requestFocus dfb, Call.resetBuffer]

/-- The calls issued by `setActiveWindow(window)` when `previous` is the active window
at entry (lines 786-795). -/
def activationCalls (env : Env) (previous : WindowPtr) (window : WindowId) : List Call :=
  (match previous with
    | some a =>
      (if (env.widget window).modal then detachCalls env (env.widget a)._window else []) ++
        [Call.setGrabbedWidget a, Call.setExposedWidget a]
    | none => []) ++
    attachCalls env (env.widget window)._window

/-- The platform `demoEnv` in exclusive mode. -/
def exclusiveEnv : Env :=
  { demoEnv with optExclusive := true }

/-- A build with motion compression and without surface events. -/
def compressionConfig : BuildConfig :=
  { motionCompression := true, surfaceEvents := false }

/-- The platform `demoEnv` with every window declining every event. -/
def decliningEnv : Env :=
  { demoEnv with handler := fun _ _ _ => false }

/-- A pure-motion window event (type motion, button mask 0) at `(x, 0)`. -/
def pureMotion (x : Int) : DFBWindowEvent :=
  { demoEvent with type := DFBWindowEventType.DWET_MOTION, x := x, cx := x, button := 0, buttons := 0 }

/-- Exactly `n` passes of the loop body of `exec`, the first being the `k`-th of the run:
each pass is `handleEvents` followed by `updateWindows`; a fault ends the passes. -/
def runIterations (cfg : BuildConfig) (env : Env) (run : EngineRun)
    (we lastMotion : DFBWindowEvent) :
    Nat → Nat → Application → Option DFBPoint → (Application × Option DFBPoint) × Option Fault
  | 0, _, s, preCursor => ((s, preCursor), none)
  | n + 1, k, s, preCursor =>
    match execIteration cfg env run we lastMotion k s preCursor with
    | (r, some f) => (r, some f)
    | (r, none) => runIterations cfg env run we lastMotion n (k + 1) r.1 r.2

/-- The call is one that `handleEvents` and `updateWindows` issue: a window handler, a
repaint request, the wait for events, a universal or surface event, a window update or
the cursor rendering. -/
def Call.isLoopWork : Call → Bool
  | Call.handleWindowEvent _ _ _ => true
  | Call.update _ _ _ _ => true
  | Call.waitForEvents _ => true
  | Call.universalEvent _ => true
  | Call.consumeSurfaceEvent _ => true
  | Call.updateWindow _ => true
  | Call.renderCursor _ _ => true
  | _ => false

/-- The state `s1` differs from `s` at most in the cursor and in calls of `handleEvents`
and `updateWindows` appended to the trace. -/
def LoopSteps (s s1 : Application) : Prop :=
  s1.__flags = s.__flags ∧ s1._appWindow = s._appWindow ∧
    ∃ t, s1.trace = s.trace ++ t ∧ ∀ c ∈ t, c.isLoopWork = true

/-- The state `s1` is reached from `s` by `n` passes of the loop body of `exec`: the
trace grew by `n` `cycle()` calls and calls of `handleEvents` and `updateWindows`. -/
def IterSteps (n : Nat) (s s1 : Application) : Prop :=
  s1.__flags = s.__flags ∧ s1._appWindow = s._appWindow ∧
    ∃ mid, s1.trace = s.trace ++ mid ∧
      (∀ c ∈ mid, c = Call.cycle ∨ c.isLoopWork = true) ∧ mid.count Call.cycle = n

/-- An engine that reports stopped from its third `stopped()` call on and delivers one
button press per pass. -/
def twoPassRun : EngineRun :=
  { stopped := fun k => decide (2 ≤ k)
    cycle := fun _ => 10
    events := fun _ => [DFBEvent.window demoEvent] }

/-- A build without motion compression and without surface events. -/
def plainConfig : BuildConfig :=
  { motionCompression := false, surfaceEvents := false }

/-- The platform `demoEnv` with a screen of 400x600. -/
def narrowEnv : Env :=
  { demoEnv with screenSize := { width := 400, height := 600 } }

/-- The stack `[1, 2, 3]` with active window 1 on the 400x600 screen. -/
def narrowApp : Application :=
  { Application.new narrowEnv with __windowList := [1, 2, 3], __activeWindow := some 1 }

/-- The platform `demoEnv` where the window 2 is the drag-source window and every
window declines. -/
def dragEnv : Env :=
  { demoEnv with
    widget := fun w =>
      { modal := false
        _window := some { _dfbWindow := some w }
        _dragWindow := decide (w = 2)
        updateQueueValid := false
        windowID := w }
    handler := fun _ _ _ => false }

/-- The platform `decliningEnv` in exclusive mode. -/
def exclusiveDecliningEnv : Env :=
  { decliningEnv with optExclusive := true }

/-- The platform `decliningEnv` where the window 2 has a valid update queue. -/
def pendingEnv : Env :=
  { decliningEnv with
    widget := fun w =>
      { modal := false
        _window := some { _dfbWindow := some w }
        _dragWindow := false
        updateQueueValid := decide (w = 2)
        windowID := w } }

/-- The platform `demoEnv` with a screen of 2x2. -/
def tinyEnv : Env :=
  { demoEnv with screenSize := { width := 2, height := 2 } }

/-- The stack `[1]` with active window 1 on the 2x2 screen. -/
def tinyApp : Application :=
  { Application.new tinyEnv with __windowList := [1], __activeWindow := some 1 }

theorem detachDFBWindow_frame (env : Env) (s : Application) (window : Option Window) :
    ∃ t, detachDFBWindow env s window = { s with trace := s.trace ++ t } := by
  unfold detachDFBWindow
  cases window with
  | none => exact ⟨[], by simp⟩
  | some win =>
    by_cases hx : env.optExclusive = true
    · exact ⟨[], by simp [hx]⟩
    · cases hd : win._dfbWindow with
      | none => exact ⟨[], by simp [hx, hd]⟩
      | some dfb =>
        exact ⟨[Call.detachWindow dfb, Call.resetBuffer], by simp [hx, hd, Application.emit]⟩

theorem attachDFBWindow_frame (env : Env) (s : Application) (window : Option Window) :
    ∃ t, attachDFBWindow env s window = { s with trace := s.trace ++ t } := by
  unfold attachDFBWindow
  cases window with
  | none => exact ⟨[], by simp⟩
  | some win =>
    by_cases hx : env.optExclusive = true
    · exact ⟨[], by simp [hx]⟩
    · cases hd : win._dfbWindow with
      | none => exact ⟨[], by simp [hx, hd]⟩
      | some dfb =>
        exact ⟨[Call.attachWindow dfb, Call.requestFocus dfb, Call.resetBuffer],
          by simp [hx, hd, Application.emit]⟩

theorem setActiveWindow_frame (env : Env) (s : Application) (window : WindowId) :
    ∃ t, setActiveWindow env s window =
      { s with __activeWindow := some window, trace := s.trace ++ t } := by
  unfold setActiveWindow
  cases ha : s.__activeWindow with
  | none =>
    obtain ⟨t, ht⟩ := attachDFBWindow_frame env { s with __activeWindow := some window }
      (env.widget window)._window
    exact ⟨t, by simpa using ht⟩
  | some a =>
    by_cases hm : (env.widget window).modal = true
    · obtain ⟨t1, ht1⟩ := detachDFBWindow_frame env s (env.widget a)._window
      obtain ⟨t2, ht2⟩ := attachDFBWindow_frame env
        { s with
          __activeWindow := some window
          trace := s.trace ++ t1 ++ [Call.setGrabbedWidget a] ++ [Call.setExposedWidget a] }
        (env.widget window)._window
      refine ⟨t1 ++ [Call.setGrabbedWidget a] ++ [Call.setExposedWidget a] ++ t2, ?_⟩
      simp only [hm, if_true, ht1, Application.emit]
      simpa [List.append_assoc] using ht2
    · obtain ⟨t2, ht2⟩ := attachDFBWindow_frame env
        { s with
          __activeWindow := some window
          trace := s.trace ++ [Call.setGrabbedWidget a] ++ [Call.setExposedWidget a] }
        (env.widget window)._window
      refine ⟨[Call.setGrabbedWidget a] ++ [Call.setExposedWidget a] ++ t2, ?_⟩
      simp only [hm, Application.emit]
      simpa [List.append_assoc] using ht2

theorem setActiveWindow_activeWindow (env : Env) (s : Application) (window : WindowId) :
    (setActiveWindow env s window).__activeWindow = some window := by
  obtain ⟨t, ht⟩ := setActiveWindow_frame env s window
  rw [ht]

theorem setActiveWindow_windowList (env : Env) (s : Application) (window : WindowId) :
    (setActiveWindow env s window).__windowList = s.__windowList := by
  obtain ⟨t, ht⟩ := setActiveWindow_frame env s window
  rw [ht]

/-! ### The scans of `addWindow` and `removeWindow` -/

theorem stdFind_of_mem (w : WindowId) (l : List WindowId) (h : w ∈ l) :
    l[stdFind w l]? = some w := by
  induction l with
  | nil => simp at h
  | cons x rest ih =>
    unfold stdFind
    by_cases hx : x = w
    · simp [hx]
    · have hr : w ∈ rest := by
        rcases List.mem_cons.mp h with h1 | h1
        · exact absurd h1.symm hx
        · exact h1
      simpa [hx] using ih hr

theorem stdFind_of_not_mem (w : WindowId) (l : List WindowId) (h : w ∉ l) :
    l[stdFind w l]? = none := by
  induction l with
  | nil => simp [stdFind]
  | cons x rest ih =>
    unfold stdFind
    have hx : ¬ x = w := fun e => h (by simp [e])
    have hr : w ∉ rest := fun e => h (List.mem_cons_of_mem _ e)
    simpa [hx] using ih hr

theorem addWindow_of_mem (pastEnd : WindowPtr) (s : Application) (w : WindowId)
    (h : w ∈ s.__windowList) : addWindow pastEnd s (some w) = (s, false) := by
  simp [addWindow, derefIterator, stdFind_of_mem w _ h]

theorem addWindow_of_not_mem (pastEnd : WindowPtr) (s : Application) (w : WindowId)
    (h : w ∉ s.__windowList) :
    addWindow pastEnd s (some w) =
      if some w = pastEnd then (s, false)
      else ({ s with __windowList := s.__windowList ++ [w] }, true) := by
  simp [addWindow, derefIterator, stdFind_of_not_mem w _ h]

/-- When the word read behind the list differs from the window, `addWindow` does what
its log messages say: a member is rejected, a new window is appended. -/
theorem addWindow_of_pastEnd_ne (pastEnd : WindowPtr) (s : Application) (w : WindowId)
    (hp : pastEnd ≠ some w) :
    (w ∈ s.__windowList → addWindow pastEnd s (some w) = (s, false)) ∧
    (w ∉ s.__windowList →
      addWindow pastEnd s (some w) = ({ s with __windowList := s.__windowList ++ [w] }, true)) := by
  refine ⟨addWindow_of_mem pastEnd s w, fun h => ?_⟩
  rw [addWindow_of_not_mem pastEnd s w h]
  have : ¬ some w = pastEnd := fun e => hp e.symm
  simp [this]

theorem eraseFirst_eq_none (w : WindowId) (l : List WindowId) :
    eraseFirst w l = none ↔ w ∉ l := by
  induction l with
  | nil => simp [eraseFirst]
  | cons x rest ih =>
    unfold eraseFirst
    by_cases hx : w = x
    · simp [hx]
    · cases hr : eraseFirst w rest with
      | none => simp [hx, ih.mp hr]
      | some l =>
        have : w ∈ rest := by
          by_contra hn
          rw [ih.mpr hn] at hr
          cases hr
        simp [hx, this]

theorem eraseFirst_eq_some (w : WindowId) (l l1 : List WindowId) (h : eraseFirst w l = some l1) :
    ∃ pre post, l = pre ++ w :: post ∧ w ∉ pre ∧ l1 = pre ++ post := by
  induction l generalizing l1 with
  | nil => simp [eraseFirst] at h
  | cons x rest ih =>
    unfold eraseFirst at h
    by_cases hx : w = x
    · simp only [hx, if_true, Option.some.injEq] at h
      exact ⟨[], rest, by simp [hx], by simp, by simp [h]⟩
    · simp only [hx, if_false] at h
      cases hr : eraseFirst w rest with
      | none => simp [hr] at h
      | some l2 =>
        simp only [hr, Option.some.injEq] at h
        obtain ⟨pre, post, h1, h2, h3⟩ := ih l2 hr
        refine ⟨x :: pre, post, by simp [h1], ?_, by simp [← h, h3]⟩
        simp only [List.mem_cons, not_or]
        exact ⟨hx, h2⟩

theorem removeWindow_of_eraseFirst_none (env : Env) (s : Application) (w : WindowId)
    (h : eraseFirst w s.__windowList = none) : removeWindow env s (some w) = (s, false) := by
  simp [removeWindow, h]

theorem removeWindow_of_eraseFirst_some (env : Env) (s : Application) (w : WindowId)
    (l : List WindowId) (h : eraseFirst w s.__windowList = some l) :
    removeWindow env s (some w) =
      (if s.__activeWindow = some w then
          match l.getLast? with
          | some back => setActiveWindow env { s with __windowList := l } back
          | none => { s with __windowList := l, __activeWindow := none }
        else { s with __windowList := l }, true) := by
  simp [removeWindow, h]

/-! ### Preservation of the stack invariant -/

theorem stackInvariant_addWindow (pastEnd : WindowPtr) (s : Application) (window : WindowPtr)
    (h : stackInvariant s) : stackInvariant (addWindow pastEnd s window).1 := by
  cases window with
  | none => simpa [addWindow] using h
  | some w =>
    by_cases hm : w ∈ s.__windowList
    · rw [addWindow_of_mem pastEnd s w hm]; exact h
    · rw [addWindow_of_not_mem pastEnd s w hm]
      by_cases hp : some w = pastEnd
      · simpa [hp] using h
      · simp only [hp, if_false]
        refine ⟨?_, ?_⟩
        · show (s.__windowList ++ [w]).Nodup
          refine List.nodup_append.mpr ⟨h.1, List.nodup_singleton w, ?_⟩
          intro a ha hb
          rw [List.mem_singleton.mp hb] at ha
          exact hm ha
        · intro a ha
          simp only [List.mem_append, List.mem_singleton]
          exact Or.inl (h.2 a ha)

theorem stackInvariant_setActiveWindow (env : Env) (s : Application) (w : WindowId)
    (h : stackInvariant s) (hw : w ∈ s.__windowList) : stackInvariant (setActiveWindow env s w) := by
  unfold stackInvariant
  rw [setActiveWindow_windowList, setActiveWindow_activeWindow]
  refine ⟨h.1, ?_⟩
  intro a ha
  cases ha
  exact hw

theorem stackInvariant_removeWindow (env : Env) (s : Application) (window : WindowPtr)
    (h : stackInvariant s) : stackInvariant (removeWindow env s window).1 := by
  cases window with
  | none => simpa [removeWindow] using h
  | some w =>
    cases he : eraseFirst w s.__windowList with
    | none => rw [removeWindow_of_eraseFirst_none env s w he]; exact h
    | some l =>
      rw [removeWindow_of_eraseFirst_some env s w l he]
      obtain ⟨pre, post, h1, _, h3⟩ := eraseFirst_eq_some w _ l he
      have hnd : s.__windowList.Nodup := h.1
      rw [h1] at hnd
      have hsub : l.Sublist (pre ++ w :: post) := by
        rw [h3]
        exact List.Sublist.append_left (List.sublist_cons_self w post) pre
      have hl : l.Nodup := hnd.sublist hsub
      have hwl : w ∉ l := by
        rw [h3]
        have h5 := List.nodup_append.mp hnd
        have h6 := (List.nodup_cons.mp h5.2.1).1
        intro hmem
        rcases List.mem_append.mp hmem with hp | hp
        · exact (List.disjoint_left.mp h5.2.2 hp) (List.mem_cons_self w post)
        · exact h6 hp
      by_cases hact : s.__activeWindow = some w
      · simp only [hact, if_true]
        cases hb : l.getLast? with
        | none =>
          exact ⟨hl, by intro a ha; cases ha⟩
        | some back =>
          have hbm : back ∈ l := List.mem_of_getLast?_eq_some hb
          unfold stackInvariant
          rw [setActiveWindow_windowList, setActiveWindow_activeWindow]
          refine ⟨hl, ?_⟩
          intro a ha
          cases ha
          exact hbm
      · simp only [hact, if_false]
        refine ⟨hl, ?_⟩
        intro a ha
        have ham : a ∈ s.__windowList := h.2 a ha
        have hne : a ≠ w := by
          intro e
          apply hact
          rw [ha, e]
        rw [h1] at ham
        show a ∈ l
        rw [h3]
        rcases List.mem_append.mp ham with hp | hp
        · exact List.mem_append.mpr (Or.inl hp)
        · rcases List.mem_cons.mp hp with hq | hq
          · exact absurd hq hne
          · exact List.mem_append.mpr (Or.inr hq)

theorem stackInvariant_run (env : Env) (ops : List StackOp) (s : Application)
    (h : stackInvariant s) (hops : activatesMembersOnly env s ops) :
    stackInvariant (runStackOps env s ops) := by
  induction ops generalizing s with
  | nil => exact h
  | cons op ops ih =>
    cases op with
    | addWindow pastEnd window =>
      exact ih _ (stackInvariant_addWindow pastEnd s window h) hops
    | removeWindow window =>
      exact ih _ (stackInvariant_removeWindow env s window h) hops
    | setActiveWindow window =>
      exact ih _ (stackInvariant_setActiveWindow env s window h hops.1) hops.2

theorem activatesMembersOnly_of_isAddOrRemove (env : Env) (ops : List StackOp) (s : Application)
    (h : ∀ op ∈ ops, op.isAddOrRemove = true) : activatesMembersOnly env s ops := by
  induction ops generalizing s with
  | nil => trivial
  | cons op ops ih =>
    have hrest : ∀ o ∈ ops, o.isAddOrRemove = true := fun o ho => h o (List.mem_cons_of_mem _ ho)
    cases op with
    | addWindow pastEnd window => exact ih _ hrest
    | removeWindow window => exact ih _ hrest
    | setActiveWindow window =>
      have := h (StackOp.setActiveWindow window) (List.mem_cons_self _ _)
      simp [StackOp.isAddOrRemove] at this

/-! ### Claims on the window stack -/

/-- C1. Starting from the empty stack with no active window, after every finite sequence
of `addWindow`, `removeWindow` and `setActiveWindow` calls in which `setActiveWindow` is
only given current members, no window is listed twice and the active window is `NULL`
or listed; in particular this holds after every sequence of `addWindow` and
`removeWindow` calls alone. -/
theorem C1_stack_invariant (env : Env) (s0 : Application) (ops : List StackOp)
    (hlist : s0.__windowList = []) (hactive : s0.__activeWindow = none) :
    (activatesMembersOnly env s0 ops → stackInvariant (runStackOps env s0 ops)) ∧
    ((∀ op ∈ ops, op.isAddOrRemove = true) → stackInvariant (runStackOps env s0 ops)) := by
  have h0 : stackInvariant s0 := by
    unfold stackInvariant
    rw [hlist, hactive]
    exact ⟨List.nodup_nil, by intro a ha; cases ha⟩
  exact ⟨stackInvariant_run env ops s0 h0,
    fun h => stackInvariant_run env ops s0 h0 (activatesMembersOnly_of_isAddOrRemove env ops s0 h)⟩

/-- C1 at `demoSession`: the session only activates a member, and it ends with the list
`[2]`, whose only window is active. -/
theorem C1_stack_invariant_witness :
    activatesMembersOnly demoEnv demoApp demoSession ∧
    stackInvariant (runStackOps demoEnv demoApp demoSession) ∧
    (runStackOps demoEnv demoApp demoSession).__windowList = [2] ∧
    (runStackOps demoEnv demoApp demoSession).__activeWindow = some 2 := by
  have hadm : activatesMembersOnly demoEnv demoApp demoSession := by
    refine ⟨?_, trivial⟩
    decide
  exact ⟨hadm, (C1_stack_invariant demoEnv demoApp demoSession rfl rfl).1 hadm, by decide, by decide⟩

/-- C2 (defect of `addWindow`). On the empty window list the window 7 is not a member,
yet `addWindow` returns `false` and appends nothing when the word it reads through the
end iterator equals the window. -/
theorem C2_addWindow_reads_past_end :
    (7 : WindowId) ∉ demoApp.__windowList ∧
    addWindow (some 7) demoApp (some 7) = (demoApp, false) := by
  decide

/-- C3. For a non-null window `w`, `removeWindow(w)` returns `true` exactly when `w` is
listed. On `false` the state is unchanged. On `true` the first entry equal to `w` is
erased and all other entries keep their order, and an active window other than `w`
stays active. -/
theorem C3_removeWindow (env : Env) (s : Application) (w : WindowId) :
    ((removeWindow env s (some w)).2 = true ↔ w ∈ s.__windowList) ∧
    ((removeWindow env s (some w)).2 = false → (removeWindow env s (some w)).1 = s) ∧
    ((removeWindow env s (some w)).2 = true →
      (∃ pre post, s.__windowList = pre ++ w :: post ∧ w ∉ pre ∧
        (removeWindow env s (some w)).1.__windowList = pre ++ post) ∧
      (s.__activeWindow ≠ some w →
        (removeWindow env s (some w)).1.__activeWindow = s.__activeWindow)) := by
  cases he : eraseFirst w s.__windowList with
  | none =>
    have hn : w ∉ s.__windowList := (eraseFirst_eq_none w _).mp he
    rw [removeWindow_of_eraseFirst_none env s w he]
    simp [hn]
  | some l =>
    obtain ⟨pre, post, h1, h2, h3⟩ := eraseFirst_eq_some w _ l he
    have hm : w ∈ s.__windowList := by rw [h1]; simp
    rw [removeWindow_of_eraseFirst_some env s w l he]
    refine ⟨by simp [hm], by simp, fun _ => ⟨⟨pre, post, h1, h2, ?_⟩, ?_⟩⟩
    · by_cases hact : s.__activeWindow = some w
      · simp only [hact, if_true]
        cases hb : l.getLast? with
        | none => exact h3
        | some back => simp only [setActiveWindow_windowList]; exact h3
      · simp only [hact, if_false]; exact h3
    · intro hact
      simp only [hact, if_false]

/-- C3 at the stack `[1, 2, 3]` with active window 3: removing 2 succeeds, leaves
`[1, 3]` and keeps 3 active. -/
theorem C3_removeWindow_witness :
    (removeWindow demoEnv (demoStack (some 3)) (some 2)).2 = true ∧
    (removeWindow demoEnv (demoStack (some 3)) (some 2)).1.__windowList = [1, 3] ∧
    (removeWindow demoEnv (demoStack (some 3)) (some 2)).1.__activeWindow = some 3 := by
  have h := C3_removeWindow demoEnv (demoStack (some 3)) 2
  have hret : (removeWindow demoEnv (demoStack (some 3)) (some 2)).2 = true := h.1.mpr (by decide)
  exact ⟨hret, by decide, (h.2.2 hret).2 (by decide)⟩

/-- C4. When the active window `a` is listed, after `removeWindow(a)` the active window
is the last entry of the remaining list, and `NULL` when nothing remains. -/
theorem C4_remove_active_promotes_topmost (env : Env) (s : Application) (a : WindowId)
    (hactive : s.__activeWindow = some a) (hmem : a ∈ s.__windowList) :
    (removeWindow env s (some a)).1.__activeWindow =
      (removeWindow env s (some a)).1.__windowList.getLast? := by
  cases he : eraseFirst a s.__windowList with
  | none => exact absurd hmem ((eraseFirst_eq_none a _).mp he)
  | some l =>
    rw [removeWindow_of_eraseFirst_some env s a l he]
    simp only [hactive, if_true]
    cases hb : l.getLast? with
    | none => exact hb.symm
    | some back =>
      simp only [setActiveWindow_windowList, setActiveWindow_activeWindow]
      exact hb.symm

/-- C4 at the stack `[1, 2, 3]` with active window 3 (then window 2 becomes active) and
at the one-window stack `[1]` (then no window is active). -/
theorem C4_remove_active_promotes_topmost_witness :
    (removeWindow demoEnv (demoStack (some 3)) (some 3)).1.__activeWindow = some 2 ∧
    (removeWindow demoEnv { demoApp with __windowList := [1], __activeWindow := some 1 }
      (some 1)).1.__activeWindow = none := by
  have h1 := C4_remove_active_promotes_topmost demoEnv (demoStack (some 3)) 3 rfl (by decide)
  have h2 := C4_remove_active_promotes_topmost demoEnv
    { demoApp with __windowList := [1], __activeWindow := some 1 } 1 rfl (by decide)
  exact ⟨h1.trans (by decide), h2.trans (by decide)⟩

/-! ### Claims on event routing -/

/-- The top-down scan hands the event to an initial segment of the windows it is given:
all but the last of that segment decline, and the scan stops short of the end only
behind a window that consumes the event. -/
theorem routeTopDown_spec (env : Env) (event : DFBWindowEvent) (dragging : Bool)
    (l : List WindowId) (s : Application) :
    ∃ invoked below, l = invoked ++ below ∧
      routeTopDown env event dragging s l =
        { s with
          trace := s.trace ++
            invoked.map (fun w => Call.handleWindowEvent w event (some dragging)) } ∧
      (∀ w ∈ invoked.dropLast, env.handler w event (some dragging) = false) ∧
      (below ≠ [] →
        ∃ c, invoked.getLast? = some c ∧ env.handler c event (some dragging) = true) := by
  induction l generalizing s with
  | nil => exact ⟨[], [], rfl, by simp [routeTopDown], by simp, by simp⟩
  | cons x rest ih =>
    unfold routeTopDown
    by_cases hx : env.handler x event (some dragging) = true
    · exact ⟨[x], rest, rfl, by simp [hx, Application.emit], by simp, fun _ => ⟨x, rfl, hx⟩⟩
    · obtain ⟨invoked, below, h1, h2, h3, h4⟩ :=
        ih (s.emit (Call.handleWindowEvent x event (some dragging)))
      refine ⟨x :: invoked, below, by simp [h1], ?_, ?_, ?_⟩
      · simp only [hx]
        rw [h2]
        simp [Application.emit]
      · intro w hw
        cases invoked with
        | nil => simp at hw
        | cons y ys =>
          rw [List.dropLast_cons₂] at hw
          rcases List.mem_cons.mp hw with hw1 | hw1
          · rw [hw1]; simpa using hx
          · exact h3 w hw1
      · intro hb
        obtain ⟨c, hc1, hc2⟩ := h4 hb
        refine ⟨c, ?_, hc2⟩
        cases invoked with
        | nil => simp at hc1
        | cons y ys => rw [List.getLast?_cons_cons]; exact hc1

/-- C5. When the active window is non-null and modal, `handleWindowEvents` hands the
event to the active window exactly once and to no other window, wherever the active
window stands in the list and whatever any handler returns: the only effect is one
`handleWindowEvent(event)` call on the active window. -/
theorem C5_modal_exclusivity (env : Env) (s : Application) (event : DFBWindowEvent)
    (a : WindowId) (hactive : s.__activeWindow = some a) (hmodal : (env.widget a).modal = true) :
    handleWindowEvents env s event =
      { s with trace := s.trace ++ [Call.handleWindowEvent a event none] } := by
  simp [handleWindowEvents, activeIsModal, hactive, hmodal, Application.emit]

/-- C5 at the stack `[1, 2, 3]` whose bottom window 1 is active and modal, with every
handler ready to consume: only window 1 is handed the event. -/
theorem C5_modal_exclusivity_witness :
    (modalEnv.widget 1).modal = true ∧
    (handleWindowEvents modalEnv (demoStack (some 1)) demoEvent).trace =
      [Call.handleWindowEvent 1 demoEvent none] := by
  refine ⟨by decide, ?_⟩
  rw [C5_modal_exclusivity modalEnv (demoStack (some 1)) demoEvent 1 rfl (by decide)]
  decide

/-- C6. When the active window is `NULL` or not modal, `handleWindowEvents` hands the
event to the windows from the last list entry towards the first, each with the dragging
flag: the windows handed the event form an initial segment `invoked` of the reversed
list, every window of it but the last declines, and when windows remain below the
segment its last window consumed the event. When every listed window declines, all of
them are handed the event, once per list entry. -/
theorem C6_top_down_first_consumer (env : Env) (s : Application) (event : DFBWindowEvent)
    (hnotModal : ∀ a, s.__activeWindow = some a → (env.widget a).modal = false) :
    ∃ invoked below, s.__windowList.reverse = invoked ++ below ∧
      handleWindowEvents env s event =
        { s with
          trace := s.trace ++
            invoked.map (fun w => Call.handleWindowEvent w event (some s._dragging)) } ∧
      (∀ w ∈ invoked.dropLast, env.handler w event (some s._dragging) = false) ∧
      (below ≠ [] →
        ∃ c, invoked.getLast? = some c ∧ env.handler c event (some s._dragging) = true) ∧
      ((∀ w ∈ s.__windowList, env.handler w event (some s._dragging) = false) →
        invoked = s.__windowList.reverse) := by
  have hm : activeIsModal env s = false := by
    unfold activeIsModal
    cases ha : s.__activeWindow with
    | none => rfl
    | some a => exact hnotModal a ha
  obtain ⟨invoked, below, h1, h2, h3, h4⟩ :=
    routeTopDown_spec env event s._dragging s.__windowList.reverse s
  refine ⟨invoked, below, h1, ?_, h3, h4, ?_⟩
  · simp only [handleWindowEvents, hm]
    exact h2
  · intro hall
    by_cases hb : below = []
    · rw [h1, hb, List.append_nil]
    · obtain ⟨c, hc1, hc2⟩ := h4 hb
      have hc : c ∈ s.__windowList := by
        have : c ∈ invoked ++ below :=
          List.mem_append.mpr (Or.inl (List.mem_of_getLast?_eq_some hc1))
        rw [← h1] at this
        exact List.mem_reverse.mp this
      rw [hall c hc] at hc2
      cases hc2

/-- C6 at the stack `[1, 2, 3]` (A, B, C) without active window, where C declines and B
consumes: C and then B are handed the event, A is not. -/
theorem C6_top_down_first_consumer_witness :
    (∀ a, (demoStack none).__activeWindow = some a → (demoEnv.widget a).modal = false) ∧
    (handleWindowEvents demoEnv (demoStack none) demoEvent).trace =
      [Call.handleWindowEvent 3 demoEvent (some false),
        Call.handleWindowEvent 2 demoEvent (some false)] ∧
    ∃ invoked below, (demoStack none).__windowList.reverse = invoked ++ below ∧
      handleWindowEvents demoEnv (demoStack none) demoEvent =
        { demoStack none with
          trace := (demoStack none).trace ++
            invoked.map
              (fun w => Call.handleWindowEvent w demoEvent (some (demoStack none)._dragging)) } ∧
      (∀ w ∈ invoked.dropLast,
        demoEnv.handler w demoEvent (some (demoStack none)._dragging) = false) ∧
      (below ≠ [] →
        ∃ c, invoked.getLast? = some c ∧
          demoEnv.handler c demoEvent (some (demoStack none)._dragging) = true) ∧
      ((∀ w ∈ (demoStack none).__windowList,
          demoEnv.handler w demoEvent (some (demoStack none)._dragging) = false) →
        invoked = (demoStack none).__windowList.reverse) := by
  have hnm : ∀ a, (demoStack none).__activeWindow = some a → (demoEnv.widget a).modal = false :=
    fun _ _ => rfl
  exact ⟨hnm, by decide, C6_top_down_first_consumer demoEnv (demoStack none) demoEvent hnm⟩

/-! ### Claims on cursor tracking and event translation -/

theorem wrap32_of_isInt32 (i : Int) (h : isInt32 i) : wrap32 i = i := by
  unfold isInt32 INT_MIN INT_MAX at h
  unfold wrap32
  omega

theorem clampComponent_bounds (v bound : Int) (h1 : 1 ≤ bound) (h2 : bound ≤ INT_MAX) :
    0 ≤ clampComponent v bound ∧ clampComponent v bound ≤ bound - 1 := by
  unfold INT_MAX at h2
  have hw : wrap32 (bound - 1) = bound - 1 := by unfold wrap32; omega
  unfold clampComponent
  rw [hw]
  split
  · omega
  · split <;> omega

theorem handleWindowEvents_frame (env : Env) (s : Application) (event : DFBWindowEvent) :
    ∃ t, handleWindowEvents env s event = { s with trace := s.trace ++ t } := by
  unfold handleWindowEvents
  by_cases hm : activeIsModal env s = true
  · have hex : ∃ a, s.__activeWindow = some a := by
      unfold activeIsModal at hm
      split at hm
      · exact ⟨_, by assumption⟩
      · cases hm
    obtain ⟨a, ha⟩ := hex
    exact ⟨[Call.handleWindowEvent a event none], by simp [hm, ha, Application.emit]⟩
  · obtain ⟨invoked, _, _, h2, _⟩ :=
      routeTopDown_spec env event s._dragging s.__windowList.reverse s
    exact ⟨_, by simp only [hm]; exact h2⟩

theorem rescaleAbsolute_ok (s : Application) (event : DFBInputEvent)
    (hmin : isInt32 event.min) (hmax : isInt32 event.max) (hne : event.max ≠ event.min)
    (hov : wrap32 (event.max - event.min) ≠ -1) :
    ∃ v, rescaleAbsolute s event = Except.ok v := by
  unfold isInt32 INT_MIN INT_MAX at hmin hmax
  have hd : wrap32 (event.max - event.min) ≠ 0 := by
    unfold wrap32
    omega
  unfold rescaleAbsolute
  simp only [hd, hov, and_false, if_false]
  exact ⟨_, rfl⟩

theorem absolutePosition_ok (s : Application) (event : DFBInputEvent)
    (hmin : isInt32 event.min) (hmax : isInt32 event.max)
    (hne : event.flags.DIEF_MIN = true → event.flags.DIEF_MAX = true → event.max ≠ event.min)
    (hov : event.flags.DIEF_MIN = true → event.flags.DIEF_MAX = true →
      wrap32 (event.max - event.min) ≠ -1) :
    ∃ v, absolutePosition s event = Except.ok v := by
  unfold absolutePosition
  by_cases h1 : event.flags.DIEF_MIN = true
  · by_cases h2 : event.flags.DIEF_MAX = true
    · simp only [h1, h2, Bool.and_self, if_true]
      exact rescaleAbsolute_ok s event hmin hmax (hne h1 h2) (hov h1 h2)
    · exact ⟨event.axisabs, by simp [h2]⟩
  · exact ⟨event.axisabs, by simp [h1]⟩

/-- Lines 714-742 change nothing but `__cursorNew` and the type and step of the event. -/
theorem moveCursor_frame (s : Application) (we : DFBWindowEvent) (event : DFBInputEvent)
    (s2 : Application) (we2 : DFBWindowEvent) (h : moveCursor s we event = Except.ok (s2, we2)) :
    (∃ q, s2 = { s with __cursorNew := q }) ∧
    (∃ ty st, we2 = { we with type := ty, step := st }) := by
  unfold moveCursor at h
  split at h
  · split at h <;> cases h <;> exact ⟨⟨_, rfl⟩, ⟨_, _, rfl⟩⟩
  · split at h
    · split at h
      · cases h
      · split at h <;> cases h <;> exact ⟨⟨_, rfl⟩, ⟨_, _, rfl⟩⟩
    · cases h
      exact ⟨⟨_, rfl⟩, ⟨_, _, rfl⟩⟩

theorem moveCursor_ok (s : Application) (we : DFBWindowEvent) (event : DFBInputEvent)
    (hmin : isInt32 event.min) (hmax : isInt32 event.max)
    (hne : event.flags.DIEF_MIN = true → event.flags.DIEF_MAX = true → event.max ≠ event.min)
    (hov : event.flags.DIEF_MIN = true → event.flags.DIEF_MAX = true →
      wrap32 (event.max - event.min) ≠ -1) :
    ∃ r, moveCursor s we event = Except.ok r := by
  obtain ⟨v, hv⟩ := absolutePosition_ok s event hmin hmax hne hov
  unfold moveCursor
  simp only [hv]
  by_cases h1 : event.flags.DIEF_AXISREL = true
  · simp only [h1, if_true]
    cases event.axis <;> exact ⟨_, rfl⟩
  · by_cases h2 : event.flags.DIEF_AXISABS = true
    · simp only [h1, h2, if_true]
      cases event.axis <;> exact ⟨_, rfl⟩
    · simp only [h1, h2]
      exact ⟨_, rfl⟩

/-- The outcome of lines 703-772 when the division of the rescaling has a result (the
divisor is neither 0 nor -1): the state
differs from the entry state in the cursor (the old position is the entry position, the
new one is clamped) and in the trace, and either the function stops at the `NULL` active
window or the event to route is stamped with the new position. -/
theorem translateAxisMotion_spec (env : Env) (s : Application) (we : DFBWindowEvent)
    (event : DFBInputEvent) (hmin : isInt32 event.min) (hmax : isInt32 event.max)
    (hne : event.flags.DIEF_MIN = true → event.flags.DIEF_MAX = true → event.max ≠ event.min)
    (hov : event.flags.DIEF_MIN = true → event.flags.DIEF_MAX = true →
      wrap32 (event.max - event.min) ≠ -1) :
    ∃ (q : DFBPoint) (we2 : DFBWindowEvent) (t : List Call),
      (translateAxisMotion env s we event).1 =
        { s with
          __cursorOld := s.__cursorNew
          __cursorNew :=
            { x := clampComponent q.x s.__screenSize.w, y := clampComponent q.y s.__screenSize.h }
          trace := s.trace ++ t } ∧
      (((translateAxisMotion env s we event).2 = Except.error Fault.nullDereference ∧
          s.__activeWindow = none ∧ env.cursorVisible = true) ∨
        (translateAxisMotion env s we event).2 =
          Except.ok
            { we2 with
              x := clampComponent q.x s.__screenSize.w
              y := clampComponent q.y s.__screenSize.h
              cx := clampComponent q.x s.__screenSize.w
              cy := clampComponent q.y s.__screenSize.h
              button := event.button
              buttons := event.buttons }) := by
  obtain ⟨⟨s2, we2⟩, hr⟩ := moveCursor_ok { s with __cursorOld := s.__cursorNew }
    { we with type := DFBWindowEventType.DWET_MOTION, step := 0 } event hmin hmax hne hov
  obtain ⟨⟨q, hq⟩, _⟩ := moveCursor_frame _ _ _ s2 we2 hr
  subst hq
  refine ⟨q, we2, ?_⟩
  unfold translateAxisMotion
  simp only [hr]
  unfold repaintCursor
  by_cases hc : (decide (we2.type = DFBWindowEventType.DWET_MOTION) && env.cursorVisible) = true
  · simp only [hc, if_true]
    by_cases ha : s.__activeWindow = none
    · refine ⟨[], ?_, Or.inl ?_⟩
      · simp [activeWindow, clampCursor, ha]
      · simp only [Bool.and_eq_true] at hc
        simp [activeWindow, clampCursor, ha, hc.2]
    · obtain ⟨a, ha⟩ := Option.ne_none_iff_exists'.mp ha
      refine ⟨[Call.update a
          { x := clampComponent q.x s.__screenSize.w, y := clampComponent q.y s.__screenSize.h,
            w := 32, h := 32 }
          { x := s.__cursorNew.x, y := s.__cursorNew.y, w := 32, h := 32 } 10], ?_, Or.inr ?_⟩
      · simp [activeWindow, clampCursor, ha, Application.emit]
      · simp [activeWindow, clampCursor, ha, Application.emit]
  · simp only [hc]
    refine ⟨[], ?_, Or.inr ?_⟩
    · simp [clampCursor]
    · simp [clampCursor]

theorem handleAxisMotion_of_ok (env : Env) (s : Application) (we : DFBWindowEvent)
    (event : DFBInputEvent) (routed : DFBWindowEvent)
    (h : (translateAxisMotion env s we event).2 = Except.ok routed) :
    handleAxisMotion env s we event =
      (handleWindowEvents env (translateAxisMotion env s we event).1 routed, none) := by
  unfold handleAxisMotion
  generalize translateAxisMotion env s we event = r at h
  obtain ⟨r1, r2⟩ := r
  simp only at h
  subst h
  simp [windowPreEventFilter]

theorem handleAxisMotion_of_error (env : Env) (s : Application) (we : DFBWindowEvent)
    (event : DFBInputEvent) (f : Fault)
    (h : (translateAxisMotion env s we event).2 = Except.error f) :
    handleAxisMotion env s we event = ((translateAxisMotion env s we event).1, some f) := by
  unfold handleAxisMotion
  generalize translateAxisMotion env s we event = r at h
  obtain ⟨r1, r2⟩ := r
  simp only at h
  subst h
  rfl

/-- Routing does not move the cursor: the cursor in which `handleAxisMotion` ends is
the one computed by lines 703-772. -/
theorem handleAxisMotion_cursorNew (env : Env) (s : Application) (we : DFBWindowEvent)
    (event : DFBInputEvent) :
    (handleAxisMotion env s we event).1.__cursorNew =
      (translateAxisMotion env s we event).1.__cursorNew := by
  cases h : (translateAxisMotion env s we event).2 with
  | error f => rw [handleAxisMotion_of_error env s we event f h]
  | ok routed =>
    rw [handleAxisMotion_of_ok env s we event routed h]
    obtain ⟨t, ht⟩ := handleWindowEvents_frame env (translateAxisMotion env s we event).1 routed
    rw [ht]

/-- When lines 714-742 complete, the cursor after lines 703-772 is the clamped result of
those lines. -/
theorem translateAxisMotion_cursorNew (env : Env) (s : Application) (we : DFBWindowEvent)
    (event : DFBInputEvent) (s2 : Application) (we2 : DFBWindowEvent)
    (h : moveCursor { s with __cursorOld := s.__cursorNew }
      { we with type := DFBWindowEventType.DWET_MOTION, step := 0 } event = Except.ok (s2, we2)) :
    (translateAxisMotion env s we event).1.__cursorNew = (clampCursor s2).__cursorNew := by
  unfold translateAxisMotion
  simp only [h]
  unfold repaintCursor
  split
  · rfl
  · rename_i s4 heq
    split at heq
    · split at heq
      · cases heq
      · cases heq
        rfl
    · cases heq
      rfl

theorem screenSize_new (env : Env) (hsize : env.screenSize.wellTyped)
    (hW : 2 ≤ env.screenSize.width) (hH : 2 ≤ env.screenSize.height) :
    (Application.new env).__screenSize =
      { w := env.screenSize.width - 1, h := env.screenSize.height - 1 } := by
  obtain ⟨h1, h2⟩ := hsize
  unfold isInt32 INT_MIN INT_MAX at h1 h2
  have e1 : wrap32 (env.screenSize.width - 1) = env.screenSize.width - 1 := by
    unfold wrap32; omega
  have e2 : wrap32 (env.screenSize.height - 1) = env.screenSize.height - 1 := by
    unfold wrap32; omega
  simp [Application.new, e1, e2]

/-- On a screen of at least 2x2, for every prior state and every axis-motion input
event whose declared `min` and `max` differ and do not differ by -1 (so that the
division of line 729 has a result), `handleAxisMotion` ends with `0 <= x < screenWidth`
and `0 <= y < screenHeight`, the division does not fault, and the window event it routes
carries exactly that position in `x`, `y`, `cx` and `cy`. An event is routed whenever
the active window is non-null or the cursor is not visible. -/
theorem handleAxisMotion_clamps (env : Env) (s : Application) (we : DFBWindowEvent)
    (event : DFBInputEvent) (hsize : env.screenSize.wellTyped)
    (hW : 2 ≤ env.screenSize.width) (hH : 2 ≤ env.screenSize.height)
    (hscreen : s.__screenSize = (Application.new env).__screenSize)
    (hevent : event.wellTyped)
    (hne : event.flags.DIEF_MIN = true → event.flags.DIEF_MAX = true → event.max ≠ event.min)
    (hov : event.flags.DIEF_MIN = true → event.flags.DIEF_MAX = true →
      wrap32 (event.max - event.min) ≠ -1) :
    (0 ≤ (handleAxisMotion env s we event).1.__cursorNew.x ∧
      (handleAxisMotion env s we event).1.__cursorNew.x < env.screenSize.width ∧
      0 ≤ (handleAxisMotion env s we event).1.__cursorNew.y ∧
      (handleAxisMotion env s we event).1.__cursorNew.y < env.screenSize.height) ∧
    ((handleAxisMotion env s we event).2 ≠ some Fault.divisionByZero ∧
      (handleAxisMotion env s we event).2 ≠ some Fault.divisionOverflow) ∧
    (∀ routed, (translateAxisMotion env s we event).2 = Except.ok routed →
      handleAxisMotion env s we event =
        (handleWindowEvents env (translateAxisMotion env s we event).1 routed, none) ∧
      routed.x = (handleAxisMotion env s we event).1.__cursorNew.x ∧
      routed.y = (handleAxisMotion env s we event).1.__cursorNew.y ∧
      routed.cx = (handleAxisMotion env s we event).1.__cursorNew.x ∧
      routed.cy = (handleAxisMotion env s we event).1.__cursorNew.y) ∧
    ((s.__activeWindow ≠ none ∨ env.cursorVisible = false) →
      ∃ routed, (translateAxisMotion env s we event).2 = Except.ok routed) := by
  obtain ⟨q, we2, t, hst, hres⟩ :=
    translateAxisMotion_spec env s we event hevent.2.2.1 hevent.2.2.2 hne hov
  have hss := screenSize_new env hsize hW hH
  rw [hss] at hscreen
  have hwi : env.screenSize.width ≤ INT_MAX := hsize.1.2
  have hhi : env.screenSize.height ≤ INT_MAX := hsize.2.2
  have hbx := clampComponent_bounds q.x s.__screenSize.w
    (by rw [hscreen]; show 1 ≤ env.screenSize.width - 1; omega)
    (by rw [hscreen]; show env.screenSize.width - 1 ≤ INT_MAX; omega)
  have hby := clampComponent_bounds q.y s.__screenSize.h
    (by rw [hscreen]; show 1 ≤ env.screenSize.height - 1; omega)
    (by rw [hscreen]; show env.screenSize.height - 1 ≤ INT_MAX; omega)
  have hsw : s.__screenSize.w = env.screenSize.width - 1 := by rw [hscreen]
  have hsh : s.__screenSize.h = env.screenSize.height - 1 := by rw [hscreen]
  have hcur : (handleAxisMotion env s we event).1.__cursorNew =
      { x := clampComponent q.x s.__screenSize.w, y := clampComponent q.y s.__screenSize.h } := by
    rw [handleAxisMotion_cursorNew, hst]
  rw [hcur]
  refine ⟨⟨hbx.1, ?_, hby.1, ?_⟩, ?_, ?_, ?_⟩
  · show clampComponent q.x s.__screenSize.w < env.screenSize.width
    omega
  · show clampComponent q.y s.__screenSize.h < env.screenSize.height
    omega
  · rcases hres with ⟨herr, _, _⟩ | hok
    · rw [handleAxisMotion_of_error env s we event _ herr]
      simp
    · rw [handleAxisMotion_of_ok env s we event _ hok]
      simp
  · intro routed hr
    refine ⟨handleAxisMotion_of_ok env s we event routed hr, ?_⟩
    rcases hres with ⟨herr, _, _⟩ | hok
    · rw [herr] at hr
      cases hr
    · rw [hok] at hr
      cases hr
      exact ⟨rfl, rfl, rfl, rfl⟩
  · intro hcond
    rcases hres with ⟨_, hnone, hvis⟩ | hok
    · rcases hcond with hc | hc
      · exact absurd hnone hc
      · rw [hvis] at hc
        cases hc
    · exact ⟨_, hok⟩

/-- On the 800x600 screen a relative X motion of 5000 from the origin ends at
`(798, 0)`, inside the screen. -/
theorem handleAxisMotion_clamps_example :
    demoEnv.screenSize.wellTyped ∧
    (relativeMotion DFBInputDeviceAxisIdentifier.DIAI_X 5000).wellTyped ∧
    (handleAxisMotion demoEnv (demoStack (some 1)) demoEvent
      (relativeMotion DFBInputDeviceAxisIdentifier.DIAI_X 5000)).1.__cursorNew =
        { x := 798, y := 0 } ∧
    (0 ≤ (handleAxisMotion demoEnv (demoStack (some 1)) demoEvent
        (relativeMotion DFBInputDeviceAxisIdentifier.DIAI_X 5000)).1.__cursorNew.x ∧
      (handleAxisMotion demoEnv (demoStack (some 1)) demoEvent
        (relativeMotion DFBInputDeviceAxisIdentifier.DIAI_X 5000)).1.__cursorNew.x <
          demoEnv.screenSize.width ∧
      0 ≤ (handleAxisMotion demoEnv (demoStack (some 1)) demoEvent
        (relativeMotion DFBInputDeviceAxisIdentifier.DIAI_X 5000)).1.__cursorNew.y ∧
      (handleAxisMotion demoEnv (demoStack (some 1)) demoEvent
        (relativeMotion DFBInputDeviceAxisIdentifier.DIAI_X 5000)).1.__cursorNew.y <
          demoEnv.screenSize.height) := by
  have hs : demoEnv.screenSize.wellTyped := ⟨by decide, by decide⟩
  have he : (relativeMotion DFBInputDeviceAxisIdentifier.DIAI_X 5000).wellTyped :=
    ⟨by decide, by decide, by decide, by decide⟩
  exact ⟨hs, he, by decide,
    (handleAxisMotion_clamps demoEnv (demoStack (some 1)) demoEvent
      (relativeMotion DFBInputDeviceAxisIdentifier.DIAI_X 5000) hs (by decide) (by decide) rfl he
      (fun h => absurd h (by decide)) (fun h => absurd h (by decide))).1⟩

/-- C8 as stated does not hold: on the 800x600 screen the absolute X event with
`min = 0`, `max = 1000`, `axisabs = 500` leaves the cursor at `x = 399`, not 400. -/
theorem C8_absolute_rescaling_counterexample :
    demoEnv.screenSize.width = 800 ∧
    (handleAxisMotion demoEnv (demoStack (some 1)) demoEvent
      (absoluteMotion DFBInputDeviceAxisIdentifier.DIAI_X 500 0 1000)).1.__cursorNew.x ≠ 400 := by
  decide

/-- C8 (amended). With screen width 800, an absolute X-axis event that declares
`min = 0` and `max = 1000` and reports `axisabs = 500` leaves the cursor at `x = 399`:
the value is scaled by `__screenSize.w = 799` and the quotient `399500 / 1000` is
truncated. -/
theorem C8_absolute_rescaling (env : Env) (s : Application) (we : DFBWindowEvent)
    (event : DFBInputEvent) (hwidth : env.screenSize.width = 800)
    (hscreen : s.__screenSize = (Application.new env).__screenSize)
    (hrel : event.flags.DIEF_AXISREL = false) (habs : event.flags.DIEF_AXISABS = true)
    (hmin : event.flags.DIEF_MIN = true) (hmax : event.flags.DIEF_MAX = true)
    (haxis : event.axis = DFBInputDeviceAxisIdentifier.DIAI_X)
    (hminv : event.min = 0) (hmaxv : event.max = 1000) (hval : event.axisabs = 500) :
    (handleAxisMotion env s we event).1.__cursorNew.x = 399 := by
  have hsw : s.__screenSize.w = 799 := by
    rw [hscreen]
    show wrap32 (env.screenSize.width - 1) = 799
    rw [hwidth]
    decide
  have hmc : moveCursor { s with __cursorOld := s.__cursorNew }
      { we with type := DFBWindowEventType.DWET_MOTION, step := 0 } event =
      Except.ok
        ({ s with __cursorOld := s.__cursorNew, __cursorNew := { x := 399, y := s.__cursorNew.y } },
          { we with type := DFBWindowEventType.DWET_MOTION, step := 0 }) := by
    have hdiv : Int.tdiv (wrap32 (wrap32 (500 - 0) * 799)) (wrap32 (1000 - 0)) = 399 := by
      decide
    have hnz : wrap32 (1000 - 0) ≠ 0 := by decide
    have hno : ¬ (wrap32 (wrap32 (500 - 0) * 799) = INT_MIN ∧ wrap32 (1000 - 0) = -1) := by
      decide
    simp only [moveCursor, absolutePosition, rescaleAbsolute, hrel, habs, hmin, hmax, haxis,
      hminv, hmaxv, hval, hsw, hnz, hno, hdiv, Bool.and_self, if_true, if_false,
      Bool.false_eq_true]
  rw [handleAxisMotion_cursorNew, translateAxisMotion_cursorNew env s we event _ _ hmc]
  show clampComponent 399 s.__screenSize.w = 399
  rw [hsw]
  decide

/-- C8 (amended) at the 800x600 screen. -/
theorem C8_absolute_rescaling_witness :
    demoEnv.screenSize.width = 800 ∧
    (handleAxisMotion demoEnv (demoStack (some 1)) demoEvent
      (absoluteMotion DFBInputDeviceAxisIdentifier.DIAI_X 500 0 1000)).1.__cursorNew.x = 399 :=
  ⟨rfl, C8_absolute_rescaling demoEnv (demoStack (some 1)) demoEvent
    (absoluteMotion DFBInputDeviceAxisIdentifier.DIAI_X 500 0 1000) rfl rfl rfl rfl rfl rfl rfl rfl
    rfl rfl⟩

/-- C9 (defect of the clamp). On the 800x1 screen the application as constructed, with
window 1 added and activated, has the in-bounds cursor `(0, 0)`. A relative X motion by
5 moves `x` to 5 as claimed, but `y` does not stay 0: the clamp of lines 749-752 bounds
it by `__screenSize.h - 1 = -1` and the cursor ends at `(5, -1)`. -/
theorem C9_unmoved_coordinate_is_clamped :
    flatApp.__cursorNew = { x := 0, y := 0 } ∧
    (0 ≤ flatApp.__cursorNew.x ∧ flatApp.__cursorNew.x < flatEnv.screenSize.width ∧
      0 ≤ flatApp.__cursorNew.y ∧ flatApp.__cursorNew.y < flatEnv.screenSize.height) ∧
    flatApp.__screenSize.h - 1 = -1 ∧
    handleAxisMotion flatEnv flatApp demoEvent
        (relativeMotion DFBInputDeviceAxisIdentifier.DIAI_X 5) =
      ((handleAxisMotion flatEnv flatApp demoEvent
        (relativeMotion DFBInputDeviceAxisIdentifier.DIAI_X 5)).1, none) ∧
    (handleAxisMotion flatEnv flatApp demoEvent
      (relativeMotion DFBInputDeviceAxisIdentifier.DIAI_X 5)).1.__cursorNew =
        { x := 5, y := -1 } ∧
    (handleAxisMotion flatEnv flatApp demoEvent
      (relativeMotion DFBInputDeviceAxisIdentifier.DIAI_X 5)).1.__cursorNew.y ≠
        flatApp.__cursorNew.y := by
  decide

/-- For every in-bounds cursor `(x, y)` and every relative X-axis delta `d`, after
`handleAxisMotion` the cursor's `x` is 0 when `x + d < 0` and exactly `x + d` when
`0 <= x + d < screenWidth - 1`; its `y` is unchanged when `y <= screenHeight - 2`, that
is, when the clamp of lines 749-752 leaves it alone. Symmetrically for a Y-axis delta. -/
theorem relativeMotion_within_clamp (env : Env) (s : Application) (we : DFBWindowEvent)
    (event : DFBInputEvent) (hsize : env.screenSize.wellTyped)
    (hscreen : s.__screenSize = (Application.new env).__screenSize)
    (hrel : event.flags.DIEF_AXISREL = true) (hd : isInt32 event.axisrel)
    (hx : 0 ≤ s.__cursorNew.x ∧ s.__cursorNew.x < env.screenSize.width)
    (hy : 0 ≤ s.__cursorNew.y ∧ s.__cursorNew.y < env.screenSize.height) :
    (event.axis = DFBInputDeviceAxisIdentifier.DIAI_X →
      (s.__cursorNew.x + event.axisrel < 0 →
        (handleAxisMotion env s we event).1.__cursorNew.x = 0) ∧
      (0 ≤ s.__cursorNew.x + event.axisrel ∧
          s.__cursorNew.x + event.axisrel < env.screenSize.width - 1 →
        (handleAxisMotion env s we event).1.__cursorNew.x = s.__cursorNew.x + event.axisrel) ∧
      (s.__cursorNew.y ≤ env.screenSize.height - 2 →
        (handleAxisMotion env s we event).1.__cursorNew.y = s.__cursorNew.y)) ∧
    (event.axis = DFBInputDeviceAxisIdentifier.DIAI_Y →
      (s.__cursorNew.y + event.axisrel < 0 →
        (handleAxisMotion env s we event).1.__cursorNew.y = 0) ∧
      (0 ≤ s.__cursorNew.y + event.axisrel ∧
          s.__cursorNew.y + event.axisrel < env.screenSize.height - 1 →
        (handleAxisMotion env s we event).1.__cursorNew.y = s.__cursorNew.y + event.axisrel) ∧
      (s.__cursorNew.x ≤ env.screenSize.width - 2 →
        (handleAxisMotion env s we event).1.__cursorNew.x = s.__cursorNew.x)) := by
  obtain ⟨⟨hw1, hw2⟩, ⟨hh1, hh2⟩⟩ := hsize
  obtain ⟨hd1, hd2⟩ := hd
  unfold INT_MIN at hw1 hh1 hd1
  unfold INT_MAX at hw2 hh2 hd2
  have hsw : s.__screenSize.w = wrap32 (env.screenSize.width - 1) := by rw [hscreen]; rfl
  have hsh : s.__screenSize.h = wrap32 (env.screenSize.height - 1) := by rw [hscreen]; rfl
  constructor
  · intro haxis
    have hmc : moveCursor { s with __cursorOld := s.__cursorNew }
        { we with type := DFBWindowEventType.DWET_MOTION, step := 0 } event =
        Except.ok
          ({ s with
              __cursorOld := s.__cursorNew
              __cursorNew := { x := wrap32 (s.__cursorNew.x + event.axisrel), y := s.__cursorNew.y } },
            { we with type := DFBWindowEventType.DWET_MOTION, step := 0 }) := by
      simp only [moveCursor, hrel, haxis, if_true]
    rw [handleAxisMotion_cursorNew, translateAxisMotion_cursorNew env s we event _ _ hmc]
    refine ⟨?_, ?_, ?_⟩
    · intro h
      show clampComponent (wrap32 (s.__cursorNew.x + event.axisrel)) s.__screenSize.w = 0
      unfold clampComponent wrap32
      split
      · rfl
      · omega
    · intro h
      show clampComponent (wrap32 (s.__cursorNew.x + event.axisrel)) s.__screenSize.w =
        s.__cursorNew.x + event.axisrel
      rw [hsw]
      unfold clampComponent wrap32
      split
      · omega
      · split <;> omega
    · intro h
      show clampComponent s.__cursorNew.y s.__screenSize.h = s.__cursorNew.y
      rw [hsh]
      unfold clampComponent wrap32
      split
      · omega
      · split <;> omega
  · intro haxis
    have hmc : moveCursor { s with __cursorOld := s.__cursorNew }
        { we with type := DFBWindowEventType.DWET_MOTION, step := 0 } event =
        Except.ok
          ({ s with
              __cursorOld := s.__cursorNew
              __cursorNew := { x := s.__cursorNew.x, y := wrap32 (s.__cursorNew.y + event.axisrel) } },
            { we with type := DFBWindowEventType.DWET_MOTION, step := 0 }) := by
      simp only [moveCursor, hrel, haxis, if_true]
    rw [handleAxisMotion_cursorNew, translateAxisMotion_cursorNew env s we event _ _ hmc]
    refine ⟨?_, ?_, ?_⟩
    · intro h
      show clampComponent (wrap32 (s.__cursorNew.y + event.axisrel)) s.__screenSize.h = 0
      unfold clampComponent wrap32
      split
      · rfl
      · omega
    · intro h
      show clampComponent (wrap32 (s.__cursorNew.y + event.axisrel)) s.__screenSize.h =
        s.__cursorNew.y + event.axisrel
      rw [hsh]
      unfold clampComponent wrap32
      split
      · omega
      · split <;> omega
    · intro h
      show clampComponent s.__cursorNew.x s.__screenSize.w = s.__cursorNew.x
      rw [hsw]
      unfold clampComponent wrap32
      split
      · omega
      · split <;> omega

/-- On the 800x600 screen with the cursor at `(10, 20)` the X delta -50 ends at
`(0, 20)`. -/
theorem relativeMotion_within_clamp_example :
    demoEnv.screenSize.wellTyped ∧
    isInt32 (relativeMotion DFBInputDeviceAxisIdentifier.DIAI_X (-50)).axisrel ∧
    (handleAxisMotion demoEnv { demoStack (some 1) with __cursorNew := { x := 10, y := 20 } }
      demoEvent (relativeMotion DFBInputDeviceAxisIdentifier.DIAI_X (-50))).1.__cursorNew.x = 0 ∧
    (handleAxisMotion demoEnv { demoStack (some 1) with __cursorNew := { x := 10, y := 20 } }
      demoEvent (relativeMotion DFBInputDeviceAxisIdentifier.DIAI_X (-50))).1.__cursorNew.y = 20 := by
  have hs : demoEnv.screenSize.wellTyped := ⟨by decide, by decide⟩
  have hd : isInt32 (relativeMotion DFBInputDeviceAxisIdentifier.DIAI_X (-50)).axisrel := by decide
  have h := (relativeMotion_within_clamp demoEnv
    { demoStack (some 1) with __cursorNew := { x := 10, y := 20 } } demoEvent
    (relativeMotion DFBInputDeviceAxisIdentifier.DIAI_X (-50)) hs rfl rfl hd
    (by decide) (by decide)).1 rfl
  exact ⟨hs, hd, h.1 (by decide), h.2.2 (by decide)⟩

/-- With an empty window list and no active window, routing hands the event to nobody
and leaves the state as it is. -/
theorem handleWindowEvents_no_target (env : Env) (s : Application) (event : DFBWindowEvent)
    (hlist : s.__windowList = []) (hactive : s.__activeWindow = none) :
    handleWindowEvents env s event = s := by
  simp [handleWindowEvents, activeIsModal, hactive, hlist, routeTopDown]

/-- With an empty window list and no active window, key and button events are dropped. -/
theorem key_button_no_target (env : Env) (s : Application) (we : DFBWindowEvent)
    (event : DFBInputEvent) (type : DFBWindowEventType)
    (hlist : s.__windowList = []) (hactive : s.__activeWindow = none) :
    handleKeyInputEvent env s we event type = s ∧
    handleButtonInputEvent env s we event type = s := by
  constructor
  · simp only [handleKeyInputEvent, windowPreEventFilter]
    exact handleWindowEvents_no_target env s _ hlist hactive
  · simp only [handleButtonInputEvent, windowPreEventFilter]
    exact handleWindowEvents_no_target env s _ hlist hactive

/-- C10 (defect of `handleAxisMotion`). After the only window of the stack `[1]`, which
is active, is removed, the list is empty and no window is active; key and button events
are then dropped, but an X-axis motion event with a visible cursor ends in a `NULL`
dereference: `activeWindow()->update(...)` is called without a test. -/
theorem C10_axis_motion_dereferences_null_active :
    (removeWindow demoEnv singleWindowApp (some 1)).1.__windowList = [] ∧
    (removeWindow demoEnv singleWindowApp (some 1)).1.__activeWindow = none ∧
    demoEnv.cursorVisible = true ∧
    handleKeyInputEvent demoEnv (removeWindow demoEnv singleWindowApp (some 1)).1 demoEvent
      keyPress DFBWindowEventType.DWET_KEYDOWN = (removeWindow demoEnv singleWindowApp (some 1)).1 ∧
    handleButtonInputEvent demoEnv (removeWindow demoEnv singleWindowApp (some 1)).1 demoEvent
      buttonPress DFBWindowEventType.DWET_BUTTONDOWN =
        (removeWindow demoEnv singleWindowApp (some 1)).1 ∧
    (handleAxisMotion demoEnv (removeWindow demoEnv singleWindowApp (some 1)).1 demoEvent
      (relativeMotion DFBInputDeviceAxisIdentifier.DIAI_X 5)).2 = some Fault.nullDereference := by
  decide

/-! ### Claims on the application lifecycle and on `setActiveWindow` -/

/-- C11. From every state, `show()` twice in a row ends in the same state, with the same
visibility flag and the same emitted calls, as `show()` once. From the state Hidden the
calls emitted are the app window's `showWindow` (when there is an app window) and one
"visible" notification; from the state Visible `show()` changes nothing. -/
theorem C11_show_idempotent (s : Application) :
    s.show.show = s.show ∧
    (s.__flags = AppFlags.APS_HIDDEN →
      s.show.__flags = AppFlags.APS_VISIBLE ∧
      s.show.show.trace =
        s.trace ++ (if s._appWindow.isSome then [Call.showWindow] else []) ++ [Call.sigVisible]) ∧
    (s.__flags = AppFlags.APS_VISIBLE → s.show = s ∧ s.show.show = s) := by
  have hvis : ∀ t : Application, t.__flags = AppFlags.APS_VISIBLE → t.show = t := by
    intro t ht
    simp [Application.show, ht]
  have hflag : s.__flags = AppFlags.APS_HIDDEN → s.show.__flags = AppFlags.APS_VISIBLE := by
    intro h
    simp [Application.show, h, Application.emit]
  have htrace : s.__flags = AppFlags.APS_HIDDEN →
      s.show.trace =
        s.trace ++ (if s._appWindow.isSome then [Call.showWindow] else []) ++ [Call.sigVisible] := by
    intro h
    cases ha : s._appWindow <;> simp [Application.show, h, ha, Application.emit]
  have hidem : s.show.show = s.show := by
    cases hf : s.__flags with
    | APS_HIDDEN => exact hvis _ (hflag hf)
    | APS_VISIBLE => rw [hvis s hf, hvis s hf]
  refine ⟨hidem, fun h => ⟨hflag h, ?_⟩, fun h => ⟨hvis s h, ?_⟩⟩
  · rw [hidem]; exact htrace h
  · rw [hidem]; exact hvis s h

/-- C11 at the freshly constructed application: two calls of `show()` emit `showWindow`
and one "visible" notification. -/
theorem C11_show_idempotent_witness :
    demoApp.__flags = AppFlags.APS_HIDDEN ∧
    demoApp.show.show.trace = [Call.showWindow, Call.sigVisible] := by
  refine ⟨rfl, ?_⟩
  rw [((C11_show_idempotent demoApp).2.1 rfl).2]
  decide

/-- C12 as stated does not hold: on the empty stack `setActiveWindow(5)` makes the
window 5 active although it is not listed. -/
theorem C12_active_membership_counterexample :
    (runStackOps demoEnv demoApp [StackOp.setActiveWindow 5]).__activeWindow = some 5 ∧
    (5 : WindowId) ∉ (runStackOps demoEnv demoApp [StackOp.setActiveWindow 5]).__windowList := by
  decide

/-- C12 (amended). After every finite sequence of `addWindow`, `removeWindow` and
`setActiveWindow` calls from the empty stack in which each `setActiveWindow` is given a
window listed at the time of the call, the active window is `NULL` or listed.
`setActiveWindow(w)` itself tests nothing: it makes `w` active and leaves the list
unchanged, also when `w` is not listed. -/
theorem C12_active_membership (env : Env) :
    (∀ (s0 : Application) (ops : List StackOp), s0.__windowList = [] → s0.__activeWindow = none →
      activatesMembersOnly env s0 ops →
      ∀ a, (runStackOps env s0 ops).__activeWindow = some a →
        a ∈ (runStackOps env s0 ops).__windowList) ∧
    (∀ (s : Application) (w : WindowId),
      (setActiveWindow env s w).__activeWindow = some w ∧
      (setActiveWindow env s w).__windowList = s.__windowList) := by
  refine ⟨?_, fun s w => ⟨setActiveWindow_activeWindow env s w, setActiveWindow_windowList env s w⟩⟩
  intro s0 ops hl ha hops
  have h0 : stackInvariant s0 := by
    unfold stackInvariant
    rw [hl, ha]
    exact ⟨List.nodup_nil, by intro a h; cases h⟩
  exact (stackInvariant_run env ops s0 h0 hops).2

/-- C12 (amended) at `demoSession`, which activates the listed window 1 and ends with
window 2 active and listed. -/
theorem C12_active_membership_witness :
    activatesMembersOnly demoEnv demoApp demoSession ∧
    (runStackOps demoEnv demoApp demoSession).__activeWindow = some 2 ∧
    (2 : WindowId) ∈ (runStackOps demoEnv demoApp demoSession).__windowList := by
  have hadm : activatesMembersOnly demoEnv demoApp demoSession := by
    refine ⟨?_, trivial⟩
    decide
  have hact : (runStackOps demoEnv demoApp demoSession).__activeWindow = some 2 := by decide
  exact ⟨hadm, hact, (C12_active_membership demoEnv).1 demoApp demoSession rfl rfl hadm 2 hact⟩

theorem detachDFBWindow_eq (env : Env) (s : Application) (window : Option Window) :
    detachDFBWindow env s window = { s with trace := s.trace ++ detachCalls env window } := by
  unfold detachDFBWindow detachCalls
  cases window with
  | none => simp
  | some win =>
    by_cases hx : env.optExclusive = true
    · simp [hx]
    · cases hd : win._dfbWindow <;> simp [hx, hd, Application.emit]

theorem attachDFBWindow_eq (env : Env) (s : Application) (window : Option Window) :
    attachDFBWindow env s window = { s with trace := s.trace ++ attachCalls env window } := by
  unfold attachDFBWindow attachCalls
  cases window with
  | none => simp
  | some win =>
    by_cases hx : env.optExclusive = true
    · simp [hx]
    · cases hd : win._dfbWindow <;> simp [hx, hd, Application.emit]

theorem setActiveWindow_eq (env : Env) (s : Application) (window : WindowId) :
    setActiveWindow env s window =
      { s with
        __activeWindow := some window
        trace := s.trace ++ activationCalls env s.__activeWindow window } := by
  unfold setActiveWindow activationCalls
  by_cases ha : s.__activeWindow = none
  · simp [ha, attachDFBWindow_eq]
  · obtain ⟨a, ha⟩ := Option.ne_none_iff_exists'.mp ha
    by_cases hm : (env.widget window).modal = true
    · simp [ha, hm, attachDFBWindow_eq, detachDFBWindow_eq, Application.emit]
    · simp [ha, hm, attachDFBWindow_eq, Application.emit]

theorem detachWindow_mem_detachCalls (env : Env) (window : Option Window) (d : DfbWindowId) :
    Call.detachWindow d ∈ detachCalls env window ↔
      env.optExclusive = false ∧ window = some { _dfbWindow := some d } := by
  unfold detachCalls
  cases window with
  | none => simp
  | some win =>
    obtain ⟨dw⟩ := win
    by_cases hx : env.optExclusive = true
    · simp [hx]
    · cases dw with
      | none => simp [hx]
      | some dfb =>
        simp only [hx]
        simp
        exact eq_comm

theorem detachWindow_not_mem_attachCalls (env : Env) (window : Option Window) (d : DfbWindowId) :
    Call.detachWindow d ∉ attachCalls env window := by
  unfold attachCalls
  cases window with
  | none => simp
  | some win =>
    by_cases hx : env.optExclusive = true
    · simp [hx]
    · cases hd : win._dfbWindow <;> simp [hx, hd]

/-- C13 as stated does not hold. With the non-modal window 2 active, `setActiveWindow`
of the modal window 1 detaches window 2; with the modal window 1 active,
`setActiveWindow` of the non-modal window 2 detaches nothing. -/
theorem C13_detach_previous_counterexample :
    ((modalEnv.widget 2).modal = false ∧ (modalEnv.widget 1).modal = true) ∧
    (setActiveWindow modalEnv (demoStack (some 2)) 1).trace =
      [Call.detachWindow 2, Call.resetBuffer, Call.setGrabbedWidget 2, Call.setExposedWidget 2,
        Call.attachWindow 1, Call.requestFocus 1, Call.resetBuffer] ∧
    (setActiveWindow modalEnv (demoStack (some 1)) 2).trace =
      [Call.setGrabbedWidget 1, Call.setExposedWidget 1, Call.attachWindow 2,
        Call.requestFocus 2, Call.resetBuffer] := by
  decide

/-- C13 (amended). `setActiveWindow(w)` has the engine detach the previously active
window exactly when a previous active window exists and the new window `w` is modal
(and, as `detachDFBWindow` requires, the application is not in exclusive mode and the
previous window has a backend window), whether or not the previous window is `w`
itself. The detach is then the first call issued, before any attach. When `w` is not
modal no detach is issued, whatever the modality of the previous window. -/
theorem C13_detach_previous (env : Env) (s : Application) (w : WindowId) :
    ∃ calls, (setActiveWindow env s w).trace = s.trace ++ calls ∧
      ((∃ d, Call.detachWindow d ∈ calls) ↔
        ∃ a d, s.__activeWindow = some a ∧ (env.widget w).modal = true ∧
          env.optExclusive = false ∧ (env.widget a)._window = some { _dfbWindow := some d }) ∧
      (∀ a d, s.__activeWindow = some a → (env.widget w).modal = true →
        env.optExclusive = false → (env.widget a)._window = some { _dfbWindow := some d } →
        ∃ rest, calls = Call.detachWindow d :: rest ∧
          (∀ d1, Call.detachWindow d1 ∉ rest) ∧
          (∀ dw, (env.widget w)._window = some { _dfbWindow := some dw } →
            Call.attachWindow dw ∈ rest)) ∧
      ((env.widget w).modal = false → ∀ d, Call.detachWindow d ∉ calls) := by
  refine ⟨activationCalls env s.__activeWindow w, by rw [setActiveWindow_eq], ?_, ?_, ?_⟩
  · constructor
    · rintro ⟨d, hd⟩
      unfold activationCalls at hd
      rcases List.mem_append.mp hd with h1 | h1
      · cases ha : s.__activeWindow with
        | none => rw [ha] at h1; simp at h1
        | some a =>
          rw [ha] at h1
          by_cases hm : (env.widget w).modal = true
          · simp only [hm, if_true] at h1
            rcases List.mem_append.mp h1 with h2 | h2
            · obtain ⟨hx, hwin⟩ := (detachWindow_mem_detachCalls env _ d).mp h2
              exact ⟨a, d, rfl, hm, hx, hwin⟩
            · simp at h2
          · simp [hm] at h1
      · exact absurd h1 (detachWindow_not_mem_attachCalls env _ d)
    · rintro ⟨a, d, ha, hm, hx, hwin⟩
      refine ⟨d, ?_⟩
      unfold activationCalls
      rw [ha]
      simp only [hm, if_true]
      refine List.mem_append.mpr (Or.inl (List.mem_append.mpr (Or.inl ?_)))
      exact (detachWindow_mem_detachCalls env _ d).mpr ⟨hx, hwin⟩
  · intro a d ha hm hx hwin
    refine ⟨Call.resetBuffer :: Call.setGrabbedWidget a :: Call.setExposedWidget a ::
      attachCalls env (env.widget w)._window, ?_, ?_, ?_⟩
    · unfold activationCalls
      rw [ha]
      simp [hm, detachCalls, hwin, hx]
    · intro d1 hmem
      simp only [List.mem_cons] at hmem
      rcases hmem with h | h | h | h
      · cases h
      · cases h
      · cases h
      · exact detachWindow_not_mem_attachCalls env _ d1 h
    · intro dw hdw
      simp [attachCalls, hdw, hx]
  · intro hm d hmem
    unfold activationCalls at hmem
    rcases List.mem_append.mp hmem with h1 | h1
    · cases ha : s.__activeWindow with
      | none => rw [ha] at h1; simp at h1
      | some a =>
        rw [ha] at h1
        simp [hm] at h1
    · exact detachWindow_not_mem_attachCalls env _ d h1

/-- C13 (amended) at the non-modal active window 2 and the modal new window 1: the
calls start with the detach of window 2, and the attach of window 1 follows. -/
theorem C13_detach_previous_witness :
    ∃ rest, (setActiveWindow modalEnv (demoStack (some 2)) 1).trace =
        (demoStack (some 2)).trace ++ Call.detachWindow 2 :: rest ∧
      (∀ d1, Call.detachWindow d1 ∉ rest) ∧ Call.attachWindow 1 ∈ rest := by
  obtain ⟨calls, h1, _, h3, _⟩ := C13_detach_previous modalEnv (demoStack (some 2)) 1
  obtain ⟨rest, h4, h5, h6⟩ := h3 2 2 rfl (by decide) rfl rfl
  exact ⟨rest, by rw [h1, h4], h5, h6 1 rfl⟩

theorem attach_focus_not_mem_detachCalls (env : Env) (window : Option Window) (c : Call)
    (h : c ∈ detachCalls env window) :
    (∀ d, c ≠ Call.attachWindow d) ∧ (∀ d, c ≠ Call.requestFocus d) := by
  unfold detachCalls at h
  cases window with
  | none => simp at h
  | some win =>
    by_cases hx : env.optExclusive = true
    · simp [hx] at h
    · cases hd : win._dfbWindow with
      | none => simp [hx, hd] at h
      | some dfb =>
        simp only [hx, hd] at h
        simp only [Bool.false_eq_true, if_false, List.mem_cons, List.mem_singleton,
          List.not_mem_nil, or_false] at h
        rcases h with h | h <;> subst h <;> exact ⟨fun _ e => (by cases e), fun _ e => (by cases e)⟩

/-- C14 as stated does not hold in exclusive mode: `setActiveWindow(2)` for the listed
window 2, which has a backend window, makes it active but issues no attach and no focus
request. -/
theorem C14_attach_and_focus_counterexample :
    (2 : WindowId) ∈ (demoStack none).__windowList ∧
    (exclusiveEnv.widget 2)._window = some { _dfbWindow := some 2 } ∧
    exclusiveEnv.optExclusive = true ∧
    (setActiveWindow exclusiveEnv (demoStack none) 2).__activeWindow = some 2 ∧
    (setActiveWindow exclusiveEnv (demoStack none) 2).trace = [] := by
  decide

/-- C14 (amended). For every window `w` with a backend window `dfb`, `setActiveWindow(w)`
makes `w` the active window. When the application is not in exclusive mode the calls
end with exactly one engine attach of `dfb` followed by one focus request for `dfb`
(and the buffer reset); in exclusive mode no attach and no focus request is issued. -/
theorem C14_attach_and_focus (env : Env) (s : Application) (w : WindowId) (dfb : DfbWindowId)
    (hwin : (env.widget w)._window = some { _dfbWindow := some dfb }) :
    (setActiveWindow env s w).__activeWindow = some w ∧
    ∃ calls, (setActiveWindow env s w).trace = s.trace ++ calls ∧
      (env.optExclusive = false →
        ∃ pre, calls = pre ++ [Call.attachWindow dfb, Call.requestFocus dfb, Call.resetBuffer] ∧
          ∀ c ∈ pre, (∀ d, c ≠ Call.attachWindow d) ∧ (∀ d, c ≠ Call.requestFocus d)) ∧
      (env.optExclusive = true →
        ∀ c ∈ calls, (∀ d, c ≠ Call.attachWindow d) ∧ (∀ d, c ≠ Call.requestFocus d)) := by
  have hpre : ∀ c ∈ (match s.__activeWindow with
      | some a =>
        (if (env.widget w).modal then detachCalls env (env.widget a)._window else []) ++
          [Call.setGrabbedWidget a, Call.setExposedWidget a]
      | none => []), (∀ d, c ≠ Call.attachWindow d) ∧ (∀ d, c ≠ Call.requestFocus d) := by
    intro c hc
    cases ha : s.__activeWindow with
    | none => rw [ha] at hc; simp at hc
    | some a =>
      rw [ha] at hc
      rcases List.mem_append.mp hc with h1 | h1
      · by_cases hm : (env.widget w).modal = true
        · simp only [hm, if_true] at h1
          exact attach_focus_not_mem_detachCalls env _ c h1
        · simp [hm] at h1
      · simp only [List.mem_cons, List.mem_singleton, List.not_mem_nil, or_false] at h1
        rcases h1 with h | h <;> subst h <;> exact ⟨fun _ e => (by cases e), fun _ e => (by cases e)⟩
  refine ⟨setActiveWindow_activeWindow env s w, activationCalls env s.__activeWindow w,
    by rw [setActiveWindow_eq], ?_, ?_⟩
  · intro hx
    refine ⟨_, ?_, hpre⟩
    unfold activationCalls
    simp [attachCalls, hwin, hx]
  · intro hx c hc
    unfold activationCalls at hc
    have hatt : attachCalls env (env.widget w)._window = [] := by simp [attachCalls, hwin, hx]
    rw [hatt, List.append_nil] at hc
    exact hpre c hc

/-- C14 (amended) in shared mode at the stack `[1, 2, 3]` without active window: the
calls are the attach of window 2, the focus request and the buffer reset. -/
theorem C14_attach_and_focus_witness :
    (demoEnv.widget 2)._window = some { _dfbWindow := some 2 } ∧
    (setActiveWindow demoEnv (demoStack none) 2).__activeWindow = some 2 ∧
    (setActiveWindow demoEnv (demoStack none) 2).trace =
      [Call.attachWindow 2, Call.requestFocus 2, Call.resetBuffer] :=
  ⟨rfl, (C14_attach_and_focus demoEnv (demoStack none) 2 2 rfl).1, by decide⟩

/-! ### Claims on the dispatch loop, event injection and translation -/

/-- C15 (defect of `handleEvents`). With motion compression, in shared mode, on the stack
`[1]` whose window declines every event: from the batch "pure motion, button press" only
the motion event reaches the window and the button press is never routed; from the
batch "button press" the window is first handed the unset `lastMotion` with type
`DWET_NONE` and then the button press. Line 448 tests `lastMotion.type == DWET_NONE`
where a pending motion (`!=`) is meant. -/
theorem C15_motion_compression_drops_events :
    decliningEnv.optExclusive = false ∧
    (handleEvents compressionConfig decliningEnv singleWindowApp demoEvent demoEvent 0 false
      [DFBEvent.window (pureMotion 3), DFBEvent.window demoEvent]).1.trace =
        [Call.waitForEvents 0, Call.handleWindowEvent 1 (pureMotion 3) (some false)] ∧
    (handleEvents compressionConfig decliningEnv singleWindowApp demoEvent demoEvent 0 false
      [DFBEvent.window demoEvent]).1.trace =
        [Call.waitForEvents 0,
          Call.handleWindowEvent 1 { demoEvent with type := DFBWindowEventType.DWET_NONE }
            (some false),
          Call.handleWindowEvent 1 demoEvent (some false)] := by
  decide

/-- C17 as stated does not hold: after `show()` the app window is visible, and `quit()`
makes it invisible by calling `setVisible(false)` before it stops the engine. -/
theorem C17_quit_counterexample :
    demoApp.show._appWindow = some { visible := true } ∧
    (quit demoApp.show).1._appWindow = some { visible := false } ∧
    (quit demoApp.show).1.trace =
      demoApp.show.trace ++ [Call.setVisible false, Call.engineStop] := by
  decide

/-- C17 (amended). For every state with an app window, `quit()` calls
`setVisible(false)` on the app window, which becomes invisible, and then stops the
engine; the visibility flag, the window list, the active window and the cursor are
unchanged. -/
theorem C17_quit (s : Application) (w : AppWindow) (happ : s._appWindow = some w) :
    quit s =
      ({ s with
          _appWindow := some { w with visible := false }
          trace := s.trace ++ [Call.setVisible false, Call.engineStop] },
        none) ∧
    (quit s).1.__flags = s.__flags ∧
    (quit s).1.__windowList = s.__windowList ∧
    (quit s).1.__activeWindow = s.__activeWindow ∧
    (quit s).1.__cursorNew = s.__cursorNew ∧
    (quit s).1.__cursorOld = s.__cursorOld := by
  have h : quit s =
      ({ s with
          _appWindow := some { w with visible := false }
          trace := s.trace ++ [Call.setVisible false, Call.engineStop] },
        none) := by
    simp [quit, happ, Application.emit, AppWindow.setVisible]
  rw [h]
  exact ⟨rfl, rfl, rfl, rfl, rfl, rfl⟩

/-- C17 (amended) at the application after `show()`. -/
theorem C17_quit_witness :
    (quit demoApp.show).1.__flags = AppFlags.APS_VISIBLE ∧
    (quit demoApp.show).2 = none := by
  have h := C17_quit demoApp.show { visible := true } (by decide)
  exact ⟨h.2.1.trans (by decide), by rw [h.1]⟩

/-- C18. `postKeyEvent` posts exactly one event and changes nothing else. In exclusive
mode it is an input-class event of type key-press when `down` and key-release otherwise;
in shared mode with a non-null active window it is a window-class event addressed to the
active window's id, of type key-down when `down` and key-up otherwise. Both carry the
given key symbol, modifier mask and lock state. -/
theorem C18_postKeyEvent (env : Env) (s : Application) (inputEvent : DFBInputEvent)
    (windowEvent : DFBWindowEvent) (symbol modifierMask lockState : Nat) (down : Bool) :
    (env.optExclusive = true →
      ∃ posted : DFBInputEvent,
        postKeyEvent env s inputEvent windowEvent symbol modifierMask lockState down =
          ({ s with trace := s.trace ++ [Call.postEvent (DFBEvent.input posted)] }, none) ∧
        posted.type =
          (if down then DFBInputEventType.DIET_KEYPRESS else DFBInputEventType.DIET_KEYRELEASE) ∧
        posted.key_symbol = symbol ∧ posted.modifiers = modifierMask ∧
        posted.locks = lockState) ∧
    (env.optExclusive = false → ∀ a, s.__activeWindow = some a →
      ∃ posted : DFBWindowEvent,
        postKeyEvent env s inputEvent windowEvent symbol modifierMask lockState down =
          ({ s with trace := s.trace ++ [Call.postEvent (DFBEvent.window posted)] }, none) ∧
        posted.window_id = (env.widget a).windowID ∧
        posted.type =
          (if down then DFBWindowEventType.DWET_KEYDOWN else DFBWindowEventType.DWET_KEYUP) ∧
        posted.key_symbol = symbol ∧ posted.modifiers = modifierMask ∧
        posted.locks = lockState) := by
  constructor
  · intro hx
    refine ⟨{ inputEvent with
      type := if down then DFBInputEventType.DIET_KEYPRESS else DFBInputEventType.DIET_KEYRELEASE
      flags := keyEventFlags
      key_symbol := symbol
      modifiers := modifierMask
      locks := lockState }, ?_, rfl, rfl, rfl, rfl⟩
    simp [postKeyEvent, hx, Application.emit]
  · intro hx a ha
    refine ⟨{ windowEvent with
      window_id := (env.widget a).windowID
      type := if down then DFBWindowEventType.DWET_KEYDOWN else DFBWindowEventType.DWET_KEYUP
      flags := DFBWindowEventFlags.DWEF_NONE
      key_symbol := symbol
      modifiers := modifierMask
      locks := lockState }, ?_, rfl, rfl, rfl, rfl, rfl⟩
    simp [postKeyEvent, hx, activeWindow, ha, Application.emit]

/-- C18 in exclusive mode and in shared mode with active window 3: a key press of symbol
65 is posted as one input event, respectively as one window event for window id 3. -/
theorem C18_postKeyEvent_witness :
    (∃ posted : DFBInputEvent,
      postKeyEvent exclusiveEnv demoApp blankInput demoEvent 65 0 0 true =
        ({ demoApp with trace := demoApp.trace ++ [Call.postEvent (DFBEvent.input posted)] },
          none) ∧
      posted.type = DFBInputEventType.DIET_KEYPRESS ∧ posted.key_symbol = 65) ∧
    (∃ posted : DFBWindowEvent,
      postKeyEvent demoEnv (demoStack (some 3)) blankInput demoEvent 65 0 0 true =
        ({ demoStack (some 3) with
            trace := (demoStack (some 3)).trace ++ [Call.postEvent (DFBEvent.window posted)] },
          none) ∧
      posted.window_id = 3 ∧ posted.type = DFBWindowEventType.DWET_KEYDOWN ∧
      posted.key_symbol = 65) := by
  obtain ⟨p1, h1, h2, h3, _⟩ :=
    (C18_postKeyEvent exclusiveEnv demoApp blankInput demoEvent 65 0 0 true).1 rfl
  obtain ⟨p2, g1, g2, g3, g4, _⟩ :=
    (C18_postKeyEvent demoEnv (demoStack (some 3)) blankInput demoEvent 65 0 0 true).2 rfl 3 rfl
  exact ⟨⟨p1, h1, h2, h3⟩, ⟨p2, g1, g2, g3, g4⟩⟩

/-- Routing only issues `handleWindowEvent` calls for the routed event. -/
theorem handleWindowEvents_calls (env : Env) (s : Application) (event : DFBWindowEvent) :
    ∃ t, handleWindowEvents env s event = { s with trace := s.trace ++ t } ∧
      ∀ c ∈ t, ∃ w d, c = Call.handleWindowEvent w event d := by
  unfold handleWindowEvents
  by_cases hm : activeIsModal env s = true
  · have hex : ∃ a, s.__activeWindow = some a := by
      unfold activeIsModal at hm
      split at hm
      · exact ⟨_, by assumption⟩
      · cases hm
    obtain ⟨a, ha⟩ := hex
    refine ⟨[Call.handleWindowEvent a event none], by simp [hm, ha, Application.emit], ?_⟩
    intro c hc
    rw [List.mem_singleton.mp hc]
    exact ⟨a, none, rfl⟩
  · obtain ⟨invoked, _, _, h2, _⟩ :=
      routeTopDown_spec env event s._dragging s.__windowList.reverse s
    refine ⟨_, by simp only [hm]; exact h2, ?_⟩
    intro c hc
    obtain ⟨w, _, hw⟩ := List.mem_map.mp hc
    exact ⟨w, some s._dragging, hw.symm⟩

/-- C19. `handleKeyInputEvent` and `handleButtonInputEvent` leave the current and the
previous cursor position unchanged. The window event they route has the requested type,
`x = cx` and `y = cy` equal to the current cursor position, and the button identifier
and button mask of the input event; for key events it also carries the key code, key
id, key symbol, modifiers and lock state of the input event. -/
theorem C19_key_button_translation (env : Env) (s : Application) (we : DFBWindowEvent)
    (event : DFBInputEvent) (type : DFBWindowEventType) :
    (handleKeyInputEvent env s we event type =
        handleWindowEvents env s
          { we with
            type := type
            flags :=
              if event.flags.DIEF_REPEAT then DFBWindowEventFlags.DWEF_REPEAT
              else DFBWindowEventFlags.DWEF_NONE
            key_code := event.key_code
            key_id := event.key_id
            key_symbol := event.key_symbol
            locks := event.locks
            modifiers := event.modifiers
            button := event.button
            buttons := event.buttons
            x := s.__cursorNew.x
            y := s.__cursorNew.y
            cx := s.__cursorNew.x
            cy := s.__cursorNew.y } ∧
      (handleKeyInputEvent env s we event type).__cursorNew = s.__cursorNew ∧
      (handleKeyInputEvent env s we event type).__cursorOld = s.__cursorOld) ∧
    (handleButtonInputEvent env s we event type =
        handleWindowEvents env s
          { we with
            type := type
            x := s.__cursorNew.x
            y := s.__cursorNew.y
            cx := s.__cursorNew.x
            cy := s.__cursorNew.y
            button := event.button
            buttons := event.buttons } ∧
      (handleButtonInputEvent env s we event type).__cursorNew = s.__cursorNew ∧
      (handleButtonInputEvent env s we event type).__cursorOld = s.__cursorOld) := by
  have hk : handleKeyInputEvent env s we event type =
        handleWindowEvents env s
          { we with
            type := type
            flags :=
              if event.flags.DIEF_REPEAT then DFBWindowEventFlags.DWEF_REPEAT
              else DFBWindowEventFlags.DWEF_NONE
            key_code := event.key_code
            key_id := event.key_id
            key_symbol := event.key_symbol
            locks := event.locks
            modifiers := event.modifiers
            button := event.button
            buttons := event.buttons
            x := s.__cursorNew.x
            y := s.__cursorNew.y
            cx := s.__cursorNew.x
            cy := s.__cursorNew.y } := by
    simp [handleKeyInputEvent, windowPreEventFilter]
  have hb : handleButtonInputEvent env s we event type =
        handleWindowEvents env s
          { we with
            type := type
            x := s.__cursorNew.x
            y := s.__cursorNew.y
            cx := s.__cursorNew.x
            cy := s.__cursorNew.y
            button := event.button
            buttons := event.buttons } := by
    simp [handleButtonInputEvent, windowPreEventFilter]
  refine ⟨⟨hk, ?_, ?_⟩, ⟨hb, ?_, ?_⟩⟩
  · rw [hk]; obtain ⟨t, ht⟩ := handleWindowEvents_frame env s _; rw [ht]
  · rw [hk]; obtain ⟨t, ht⟩ := handleWindowEvents_frame env s _; rw [ht]
  · rw [hb]; obtain ⟨t, ht⟩ := handleWindowEvents_frame env s _; rw [ht]
  · rw [hb]; obtain ⟨t, ht⟩ := handleWindowEvents_frame env s _; rw [ht]

/-- C20 as stated does not hold. On the 800x600 screen the in-bounds cursor `(10, 599)`
is moved to `(10, 598)` by a relative Z-axis event; and for the delta `INT_MIN` the
wheel event handed to the window of the stack `[1]` has step `INT_MIN`, which is not
the negated delta. -/
theorem C20_wheel_counterexample :
    ((0 ≤ lastRowApp.__cursorNew.x ∧ lastRowApp.__cursorNew.x < demoEnv.screenSize.width ∧
        0 ≤ lastRowApp.__cursorNew.y ∧ lastRowApp.__cursorNew.y < demoEnv.screenSize.height) ∧
      (handleAxisMotion demoEnv lastRowApp demoEvent
        (relativeMotion DFBInputDeviceAxisIdentifier.DIAI_Z 1)).1.__cursorNew ≠
          lastRowApp.__cursorNew) ∧
    (handleAxisMotion decliningEnv singleWindowApp demoEvent
      (relativeMotion DFBInputDeviceAxisIdentifier.DIAI_Z (-2147483648))).1.trace =
        [Call.handleWindowEvent 1
          { demoEvent with
            type := DFBWindowEventType.DWET_WHEEL
            step := -2147483648
            button := 0
            buttons := 0 }
          (some false)] := by
  decide

/-- C20 (amended). For every cursor with `0 <= x <= screenWidth - 2` and
`0 <= y <= screenHeight - 2` and every relative axis-motion event on an axis other than
X and Y with delta `d > INT_MIN`, `handleAxisMotion` routes a window event of type wheel
with step `-d`, stamped with the cursor position, leaves the current cursor position
unchanged and schedules no repaint: the only calls are the handler calls of routing. -/
theorem C20_wheel (env : Env) (s : Application) (we : DFBWindowEvent) (event : DFBInputEvent)
    (hsize : env.screenSize.wellTyped)
    (hscreen : s.__screenSize = (Application.new env).__screenSize)
    (hrel : event.flags.DIEF_AXISREL = true)
    (hnx : event.axis ≠ DFBInputDeviceAxisIdentifier.DIAI_X)
    (hny : event.axis ≠ DFBInputDeviceAxisIdentifier.DIAI_Y)
    (hd : isInt32 event.axisrel) (hdmin : event.axisrel ≠ INT_MIN)
    (hx : 0 ≤ s.__cursorNew.x ∧ s.__cursorNew.x ≤ env.screenSize.width - 2)
    (hy : 0 ≤ s.__cursorNew.y ∧ s.__cursorNew.y ≤ env.screenSize.height - 2) :
    handleAxisMotion env s we event =
      (handleWindowEvents env { s with __cursorOld := s.__cursorNew }
          { we with
            type := DFBWindowEventType.DWET_WHEEL
            step := -event.axisrel
            x := s.__cursorNew.x
            y := s.__cursorNew.y
            cx := s.__cursorNew.x
            cy := s.__cursorNew.y
            button := event.button
            buttons := event.buttons },
        none) ∧
    (handleAxisMotion env s we event).1.__cursorNew = s.__cursorNew ∧
    ∃ calls, (handleAxisMotion env s we event).1.trace = s.trace ++ calls ∧
      ∀ c ∈ calls, ∃ w e d, c = Call.handleWindowEvent w e d := by
  obtain ⟨⟨hw1, hw2⟩, ⟨hh1, hh2⟩⟩ := hsize
  obtain ⟨hd1, hd2⟩ := hd
  unfold INT_MIN at hw1 hh1 hd1 hdmin
  unfold INT_MAX at hw2 hh2 hd2
  have hsw : s.__screenSize.w = wrap32 (env.screenSize.width - 1) := by rw [hscreen]; rfl
  have hsh : s.__screenSize.h = wrap32 (env.screenSize.height - 1) := by rw [hscreen]; rfl
  have hstep : wrap32 (-event.axisrel) = -event.axisrel := by unfold wrap32; omega
  have hcx : clampComponent s.__cursorNew.x s.__screenSize.w = s.__cursorNew.x := by
    rw [hsw]
    unfold clampComponent wrap32
    split
    · omega
    · split <;> omega
  have hcy : clampComponent s.__cursorNew.y s.__screenSize.h = s.__cursorNew.y := by
    rw [hsh]
    unfold clampComponent wrap32
    split
    · omega
    · split <;> omega
  have hmc : moveCursor { s with __cursorOld := s.__cursorNew }
      { we with type := DFBWindowEventType.DWET_MOTION, step := 0 } event =
      Except.ok
        ({ s with __cursorOld := s.__cursorNew },
          { we with type := DFBWindowEventType.DWET_WHEEL, step := -event.axisrel }) := by
    unfold moveCursor
    simp only [hrel, if_true, hstep]
  have htr : translateAxisMotion env s we event =
      ({ s with __cursorOld := s.__cursorNew },
        Except.ok
          { we with
            type := DFBWindowEventType.DWET_WHEEL
            step := -event.axisrel
            x := s.__cursorNew.x
            y := s.__cursorNew.y
            cx := s.__cursorNew.x
            cy := s.__cursorNew.y
            button := event.button
            buttons := event.buttons }) := by
    unfold translateAxisMotion
    simp only [hmc]
    have hclamp : clampCursor { s with __cursorOld := s.__cursorNew } =
        { s with __cursorOld := s.__cursorNew } := by
      simp [clampCursor, hcx, hcy]
    rw [hclamp]
    simp [repaintCursor]
  have hmain := handleAxisMotion_of_ok env s we event _ (by rw [htr])
  rw [htr] at hmain
  obtain ⟨t, ht, hcalls⟩ := handleWindowEvents_calls env { s with __cursorOld := s.__cursorNew }
    { we with
      type := DFBWindowEventType.DWET_WHEEL
      step := -event.axisrel
      x := s.__cursorNew.x
      y := s.__cursorNew.y
      cx := s.__cursorNew.x
      cy := s.__cursorNew.y
      button := event.button
      buttons := event.buttons }
  refine ⟨hmain, ?_, t, ?_, ?_⟩
  · rw [hmain]
    simp only
    rw [ht]
  · rw [hmain]
    simp only
    rw [ht]
  · intro c hc
    obtain ⟨w, d, hwd⟩ := hcalls c hc
    exact ⟨w, _, d, hwd⟩

/-- C20 (amended) at the cursor `(10, 20)` on the 800x600 screen with the Z delta 3: the
cursor stays and the stack `[1, 2, 3]` is handed a wheel event of step -3 top-down. -/
theorem C20_wheel_witness :
    demoEnv.screenSize.wellTyped ∧
    isInt32 (relativeMotion DFBInputDeviceAxisIdentifier.DIAI_Z 3).axisrel ∧
    (handleAxisMotion demoEnv { demoStack (some 1) with __cursorNew := { x := 10, y := 20 } }
      demoEvent (relativeMotion DFBInputDeviceAxisIdentifier.DIAI_Z 3)).1.__cursorNew =
        { x := 10, y := 20 } := by
  have hs : demoEnv.screenSize.wellTyped := ⟨by decide, by decide⟩
  have hd : isInt32 (relativeMotion DFBInputDeviceAxisIdentifier.DIAI_Z 3).axisrel := by decide
  exact ⟨hs, hd,
    (C20_wheel demoEnv { demoStack (some 1) with __cursorNew := { x := 10, y := 20 } } demoEvent
      (relativeMotion DFBInputDeviceAxisIdentifier.DIAI_Z 3) hs rfl rfl (by decide) (by decide) hd
      (by decide) (by decide) (by decide)).2.1⟩

theorem loopSteps_refl (s : Application) : LoopSteps s s :=
  ⟨rfl, rfl, [], by simp, by simp⟩

theorem LoopSteps.trans {s s1 s2 : Application} (h1 : LoopSteps s s1) (h2 : LoopSteps s1 s2) :
    LoopSteps s s2 := by
  obtain ⟨a1, a2, t1, a3, a4⟩ := h1
  obtain ⟨b1, b2, t2, b3, b4⟩ := h2
  refine ⟨b1.trans a1, b2.trans a2, t1 ++ t2, by rw [b3, a3, List.append_assoc], ?_⟩
  intro c hc
  rcases List.mem_append.mp hc with h | h
  · exact a4 c h
  · exact b4 c h

theorem loopSteps_emit (s : Application) (c : Call) (hc : c.isLoopWork = true) :
    LoopSteps s (s.emit c) :=
  ⟨rfl, rfl, [c], rfl, by intro d hd; rw [List.mem_singleton.mp hd]; exact hc⟩

theorem loopSteps_handleWindowEvents (env : Env) (s : Application) (event : DFBWindowEvent) :
    LoopSteps s (handleWindowEvents env s event) := by
  obtain ⟨t, ht, hc⟩ := handleWindowEvents_calls env s event
  rw [ht]
  refine ⟨rfl, rfl, t, rfl, ?_⟩
  intro c hmem
  obtain ⟨w, d, h⟩ := hc c hmem
  rw [h]
  rfl

theorem loopSteps_filterAndRoute (env : Env) (s : Application) (event : DFBWindowEvent) :
    LoopSteps s (filterAndRoute env s event) := by
  simp only [filterAndRoute, windowPreEventFilter]
  exact loopSteps_handleWindowEvents env s event

theorem loopSteps_translateAxisMotion (env : Env) (s : Application) (we : DFBWindowEvent)
    (event : DFBInputEvent) : LoopSteps s (translateAxisMotion env s we event).1 := by
  unfold translateAxisMotion
  cases hm : moveCursor { s with __cursorOld := s.__cursorNew }
      { we with type := DFBWindowEventType.DWET_MOTION, step := 0 } event with
  | error f =>
    simp only [hm]
    exact ⟨rfl, rfl, [], by simp, by simp⟩
  | ok r =>
    obtain ⟨s2, we2⟩ := r
    obtain ⟨⟨q, hq⟩, _⟩ := moveCursor_frame _ _ _ s2 we2 hm
    subst hq
    simp only [hm]
    unfold repaintCursor
    by_cases hc : (decide (we2.type = DFBWindowEventType.DWET_MOTION) && env.cursorVisible) = true
    · simp only [hc, if_true]
      by_cases ha : s.__activeWindow = none
      · simp only [activeWindow, clampCursor, ha]
        exact ⟨rfl, rfl, [], by simp, by simp⟩
      · obtain ⟨a, ha⟩ := Option.ne_none_iff_exists'.mp ha
        simp only [activeWindow, clampCursor, ha, Application.emit]
        exact ⟨rfl, rfl, [_], rfl, by intro c h; rw [List.mem_singleton.mp h]; rfl⟩
    · simp only [hc]
      exact ⟨rfl, rfl, [], by simp [clampCursor], by simp⟩

theorem loopSteps_handleAxisMotion (env : Env) (s : Application) (we : DFBWindowEvent)
    (event : DFBInputEvent) : LoopSteps s (handleAxisMotion env s we event).1 := by
  cases h : (translateAxisMotion env s we event).2 with
  | error f =>
    rw [handleAxisMotion_of_error env s we event f h]
    exact loopSteps_translateAxisMotion env s we event
  | ok routed =>
    rw [handleAxisMotion_of_ok env s we event routed h]
    exact (loopSteps_translateAxisMotion env s we event).trans
      (loopSteps_handleWindowEvents env _ routed)

theorem loopSteps_handleInputEvent (env : Env) (s : Application) (we : DFBWindowEvent)
    (event : DFBInputEvent) : LoopSteps s (handleInputEvent env s we event).1 := by
  unfold handleInputEvent
  cases event.type with
  | DIET_KEYPRESS =>
    simp only [handleKeyInputEvent, windowPreEventFilter]
    exact loopSteps_handleWindowEvents env s _
  | DIET_KEYRELEASE =>
    simp only [handleKeyInputEvent, windowPreEventFilter]
    exact loopSteps_handleWindowEvents env s _
  | DIET_BUTTONPRESS =>
    simp only [handleButtonInputEvent, windowPreEventFilter]
    exact loopSteps_handleWindowEvents env s _
  | DIET_BUTTONRELEASE =>
    simp only [handleButtonInputEvent, windowPreEventFilter]
    exact loopSteps_handleWindowEvents env s _
  | DIET_AXISMOTION => exact loopSteps_handleAxisMotion env s we event
  | DIET_UNKNOWN => exact loopSteps_refl s

theorem loopSteps_handleQueuedWindowEvent (cfg : BuildConfig) (env : Env) (s : Application)
    (lastMotion event : DFBWindowEvent) :
    LoopSteps s (handleQueuedWindowEvent cfg env s lastMotion event).1 := by
  unfold handleQueuedWindowEvent
  split
  · split
    · split
      · exact loopSteps_refl s
      · split
        · exact (loopSteps_filterAndRoute env s lastMotion).trans
            (loopSteps_filterAndRoute env _ event)
        · exact loopSteps_refl s
    · exact loopSteps_filterAndRoute env s event
  · exact loopSteps_refl s

theorem loopSteps_drainEvents (cfg : BuildConfig) (env : Env) (we : DFBWindowEvent)
    (batch : List DFBEvent) (s : Application) (lastMotion : DFBWindowEvent) :
    LoopSteps s (drainEvents cfg env we s lastMotion batch).1.1 := by
  induction batch generalizing s lastMotion with
  | nil => exact loopSteps_refl s
  | cons ev rest ih =>
    cases ev with
    | input event =>
      unfold drainEvents
      have h1 := loopSteps_handleInputEvent env s we event
      cases hr : handleInputEvent env s we event with
      | mk s1 fault =>
        rw [hr] at h1
        cases fault with
        | none => exact h1.trans (ih s1 lastMotion)
        | some f => exact h1
    | window event =>
      unfold drainEvents
      exact (loopSteps_handleQueuedWindowEvent cfg env s lastMotion event).trans (ih _ _)
    | user type =>
      unfold drainEvents
      exact ih s lastMotion
    | universal target =>
      cases target with
      | none =>
        unfold drainEvents
        exact ih s lastMotion
      | some t =>
        unfold drainEvents
        exact (loopSteps_emit s (Call.universalEvent t) rfl).trans (ih _ lastMotion)
    | surface surfaceId =>
      unfold drainEvents
      split
      · exact (loopSteps_emit s (Call.consumeSurfaceEvent surfaceId) rfl).trans (ih _ lastMotion)
      · exact ih s lastMotion
    | other =>
      unfold drainEvents
      exact ih s lastMotion

theorem loopSteps_handleEvents (cfg : BuildConfig) (env : Env) (s : Application)
    (we lastMotion : DFBWindowEvent) (timeout : Int) (forceWait : Bool) (batch : List DFBEvent) :
    LoopSteps s (handleEvents cfg env s we lastMotion timeout forceWait batch).1 := by
  unfold handleEvents
  have h1 : LoopSteps s
      (if (if !forceWait then !(s.__windowList.any (fun w => (env.widget w).updateQueueValid))
          else true) then s.emit (Call.waitForEvents timeout) else s) := by
    by_cases hw : (if !forceWait then
        !(s.__windowList.any (fun w => (env.widget w).updateQueueValid)) else true) = true
    · rw [if_pos hw]
      exact loopSteps_emit s (Call.waitForEvents timeout) rfl
    · rw [if_neg hw]
      exact loopSteps_refl s
  have h2 := loopSteps_drainEvents cfg env we batch
    (if (if !forceWait then !(s.__windowList.any (fun w => (env.widget w).updateQueueValid))
        else true) then s.emit (Call.waitForEvents timeout) else s)
    { lastMotion with type := DFBWindowEventType.DWET_NONE }
  simp only
  generalize drainEvents cfg env we
    (if (if !forceWait then !(s.__windowList.any (fun w => (env.widget w).updateQueueValid))
        else true) then s.emit (Call.waitForEvents timeout) else s)
    { lastMotion with type := DFBWindowEventType.DWET_NONE } batch = r at h2
  obtain ⟨⟨s2, lm⟩, fault⟩ := r
  cases fault with
  | some f => exact h1.trans h2
  | none =>
    simp only
    split
    · exact (h1.trans h2).trans (loopSteps_filterAndRoute env s2 lm)
    · exact h1.trans h2

theorem updateWindows_fold (l : List WindowId) (s : Application) :
    LoopSteps s (l.foldl (fun acc w => acc.emit (Call.updateWindow w)) s) := by
  induction l generalizing s with
  | nil => exact loopSteps_refl s
  | cons w rest ih => exact (loopSteps_emit s (Call.updateWindow w) rfl).trans (ih _)

theorem loopSteps_updateWindows (env : Env) (s : Application) (preCursor : Option DFBPoint) :
    LoopSteps s (updateWindows env s preCursor).1 := by
  unfold updateWindows
  have h1 : LoopSteps s
      (if !env.optNoUpdates then
        s.__windowList.foldl (fun acc w => acc.emit (Call.updateWindow w)) s
      else s) := by
    split
    · exact updateWindows_fold _ s
    · exact loopSteps_refl s
  generalize (if !env.optNoUpdates then
      s.__windowList.foldl (fun acc w => acc.emit (Call.updateWindow w)) s
    else s) = s1 at h1
  simp only
  split
  · split
    · exact h1.trans (loopSteps_emit s1 (Call.renderCursor (cursorPosition s1) s1._dragging) rfl)
    · exact h1
  · exact h1

theorem count_cycle_of_isLoopWork (t : List Call) (h : ∀ c ∈ t, c.isLoopWork = true) :
    t.count Call.cycle = 0 := by
  apply List.count_eq_zero_of_not_mem
  intro hmem
  have := h Call.cycle hmem
  simp [Call.isLoopWork] at this

theorem iterSteps_trans {a b : Nat} {s s1 s2 : Application} (h1 : IterSteps a s s1)
    (h2 : IterSteps b s1 s2) : IterSteps (a + b) s s2 := by
  obtain ⟨a1, a2, t1, a3, a4, a5⟩ := h1
  obtain ⟨b1, b2, t2, b3, b4, b5⟩ := h2
  refine ⟨b1.trans a1, b2.trans a2, t1 ++ t2, by rw [b3, a3, List.append_assoc], ?_, ?_⟩
  · intro c hc
    rcases List.mem_append.mp hc with h | h
    · exact a4 c h
    · exact b4 c h
  · rw [List.count_append, a5, b5]

theorem iterSteps_execIteration (cfg : BuildConfig) (env : Env) (run : EngineRun)
    (we lastMotion : DFBWindowEvent) (k : Nat) (s : Application) (preCursor : Option DFBPoint)
    (h : (execIteration cfg env run we lastMotion k s preCursor).2 = none) :
    IterSteps 1 s (execIteration cfg env run we lastMotion k s preCursor).1.1 := by
  unfold execIteration at h ⊢
  have h1 := loopSteps_handleEvents cfg env (s.emit Call.cycle) we lastMotion (run.cycle k) false
    (run.events k)
  generalize handleEvents cfg env (s.emit Call.cycle) we lastMotion (run.cycle k) false
    (run.events k) = r at h h1
  obtain ⟨s1, fault⟩ := r
  cases fault with
  | some f => simp at h
  | none =>
    simp only
    have h2 := h1.trans (loopSteps_updateWindows env s1 preCursor)
    obtain ⟨c1, c2, t, c3, c4⟩ := h2
    refine ⟨c1, c2, Call.cycle :: t, ?_, ?_, ?_⟩
    · rw [c3]
      simp [Application.emit]
    · intro c hc
      rcases List.mem_cons.mp hc with h | h
      · exact Or.inl h
      · exact Or.inr (c4 c h)
    · rw [List.count_cons_self, count_cycle_of_isLoopWork t c4]

theorem iterSteps_runIterations (cfg : BuildConfig) (env : Env) (run : EngineRun)
    (we lastMotion : DFBWindowEvent) (n k : Nat) (s : Application) (preCursor : Option DFBPoint)
    (h : (runIterations cfg env run we lastMotion n k s preCursor).2 = none) :
    IterSteps n s (runIterations cfg env run we lastMotion n k s preCursor).1.1 := by
  induction n generalizing k s preCursor with
  | zero => exact ⟨rfl, rfl, [], by simp [runIterations], by simp, by simp⟩
  | succ n ih =>
    unfold runIterations at h ⊢
    have h1 := iterSteps_execIteration cfg env run we lastMotion k s preCursor
    generalize execIteration cfg env run we lastMotion k s preCursor = r at h h1
    obtain ⟨r1, fault⟩ := r
    cases fault with
    | some f => simp at h
    | none =>
      simp only at h ⊢
      have h2 := ih (k + 1) r1.1 r1.2 h
      have h3 := iterSteps_trans (h1 rfl) h2
      rw [Nat.add_comm] at h3
      exact h3

/-- When `stopped()` answers `false` for the next `m` passes and `true` after them, the
loop of `exec` with enough fuel does exactly those `m` passes. -/
theorem execLoop_eq_runIterations (cfg : BuildConfig) (env : Env) (run : EngineRun)
    (we lastMotion : DFBWindowEvent) (m fuel k : Nat) (s : Application)
    (preCursor : Option DFBPoint)
    (hrun : ∀ j, j < m → run.stopped (k + j) = false) (hstop : run.stopped (k + m) = true)
    (hfuel : m < fuel) :
    execLoop cfg env run we lastMotion fuel k s preCursor =
      some (runIterations cfg env run we lastMotion m k s preCursor) := by
  induction m generalizing fuel k s preCursor with
  | zero =>
    cases fuel with
    | zero => omega
    | succ f =>
      unfold execLoop runIterations
      simp only [Nat.add_zero] at hstop
      simp [hstop]
  | succ m ih =>
    cases fuel with
    | zero => omega
    | succ f =>
      unfold execLoop runIterations
      have h0 : run.stopped k = false := by
        have := hrun 0 (by omega)
        simpa using this
      simp only [h0]
      generalize execIteration cfg env run we lastMotion k s preCursor = r
      obtain ⟨r1, fault⟩ := r
      cases fault with
      | some g => simp
      | none =>
        simp only [Bool.false_eq_true, if_false]
        apply ih
        · intro j hj
          have := hrun (j + 1) (by omega)
          rw [← this]
          congr 1
          omega
        · rw [← hstop]
          congr 1
          omega
        · omega

theorem show_of_hidden (s : Application) (h : s.__flags = AppFlags.APS_HIDDEN) :
    s.show.__flags = AppFlags.APS_VISIBLE ∧
    s.show._appWindow.isSome = s._appWindow.isSome ∧
    s.show.trace =
      s.trace ++ (if s._appWindow.isSome then [Call.showWindow] else []) ++ [Call.sigVisible] := by
  cases ha : s._appWindow <;> simp [Application.show, h, ha, Application.emit]

theorem hide_of_visible (s : Application) (h : s.__flags = AppFlags.APS_VISIBLE) :
    s.hide.__flags = AppFlags.APS_HIDDEN ∧
    s.hide.trace =
      s.trace ++ (if s._appWindow.isSome then [Call.closeWindow] else []) ++ [Call.sigHidden] := by
  cases ha : s._appWindow <;> simp [Application.hide, h, ha, Application.emit]

/-- Started in the state Hidden with an engine whose `stopped()` first answers
`true` after `n` passes, `exec()` with enough fuel terminates and is `show()`, then
exactly `n` passes of `handleEvents` followed by `updateWindows`, then `hide()` and the
"quit" notification. When no pass ends in a fault the trace grows by `showWindow` (if
there is an app window) and one "visible" notification, then the calls of the `n` passes
(`n` calls of `cycle()` and calls of `handleEvents` and `updateWindows` only), then
`closeWindow`, one "hidden" and one "quit" notification, in that order. -/
theorem exec_ordering_of_no_fault (cfg : BuildConfig) (env : Env) (run : EngineRun)
    (we lastMotion : DFBWindowEvent) (s : Application) (preCursor : Option DFBPoint)
    (n fuel : Nat) (hhidden : s.__flags = AppFlags.APS_HIDDEN)
    (hrun : ∀ k, k < n → run.stopped k = false) (hstop : run.stopped n = true)
    (hfuel : n < fuel) :
    exec cfg env run we lastMotion fuel s preCursor =
      some
        (match runIterations cfg env run we lastMotion n 0 s.show preCursor with
        | (r, some f) => (r, some f)
        | (r, none) => ((Application.emit r.1.hide Call.sigQuit, r.2), none)) ∧
    ((runIterations cfg env run we lastMotion n 0 s.show preCursor).2 = none →
      ∃ final preCursor1 mid,
        exec cfg env run we lastMotion fuel s preCursor = some ((final, preCursor1), none) ∧
        final.trace =
          s.trace ++ (if s._appWindow.isSome then [Call.showWindow] else []) ++
            [Call.sigVisible] ++ mid ++
            (if s._appWindow.isSome then [Call.closeWindow] else []) ++
            [Call.sigHidden, Call.sigQuit] ∧
        (∀ c ∈ mid, c = Call.cycle ∨ c.isLoopWork = true) ∧
        mid.count Call.cycle = n ∧
        final.__flags = AppFlags.APS_HIDDEN) := by
  have hloop := execLoop_eq_runIterations cfg env run we lastMotion n fuel 0 s.show preCursor
    (by intro j hj; rw [Nat.zero_add]; exact hrun j hj) (by rw [Nat.zero_add]; exact hstop) hfuel
  have hexec : exec cfg env run we lastMotion fuel s preCursor =
      some
        (match runIterations cfg env run we lastMotion n 0 s.show preCursor with
        | (r, some f) => (r, some f)
        | (r, none) => ((Application.emit r.1.hide Call.sigQuit, r.2), none)) := by
    unfold exec
    rw [hloop]
    generalize runIterations cfg env run we lastMotion n 0 s.show preCursor = r
    obtain ⟨r1, fault⟩ := r
    cases fault <;> rfl
  refine ⟨hexec, ?_⟩
  intro hnone
  have hiter := iterSteps_runIterations cfg env run we lastMotion n 0 s.show preCursor hnone
  rw [hexec]
  generalize runIterations cfg env run we lastMotion n 0 s.show preCursor = r at hnone hiter
  obtain ⟨r1, fault⟩ := r
  simp only at hnone
  subst hnone
  obtain ⟨hs1, hs2, hs3⟩ := show_of_hidden s hhidden
  obtain ⟨i1, i2, mid, i3, i4, i5⟩ := hiter
  simp only at i1 i2 i3
  have hvis : r1.1.__flags = AppFlags.APS_VISIBLE := by rw [i1, hs1]
  obtain ⟨g1, g2⟩ := hide_of_visible r1.1 hvis
  refine ⟨Application.emit r1.1.hide Call.sigQuit, r1.2, mid, rfl, ?_, i4, i5, ?_⟩
  · show r1.1.hide.trace ++ [Call.sigQuit] = _
    rw [g2, i2, hs2, i3, hs3]
    simp [List.append_assoc]
  · show r1.1.hide.__flags = _
    exact g1

/-- With an engine that stops after two passes, on the stack `[1]`, the calls are
`showWindow`, "visible", two passes (cycle, wait, the button press handed to window 1,
its update), `closeWindow`, "hidden", "quit". -/
theorem exec_ordering_of_no_fault_example :
    singleWindowApp.__flags = AppFlags.APS_HIDDEN ∧
    (∀ k, k < 2 → twoPassRun.stopped k = false) ∧ twoPassRun.stopped 2 = true ∧
    (exec plainConfig decliningEnv twoPassRun demoEvent demoEvent 5 singleWindowApp none).map
        (fun r => (r.1.1.trace, r.2)) =
      some
        ([Call.showWindow, Call.sigVisible,
          Call.cycle, Call.waitForEvents 10, Call.handleWindowEvent 1 demoEvent (some false),
          Call.updateWindow 1,
          Call.cycle, Call.waitForEvents 10, Call.handleWindowEvent 1 demoEvent (some false),
          Call.updateWindow 1,
          Call.closeWindow, Call.sigHidden, Call.sigQuit], none) := by
  have hrun : ∀ k, k < 2 → twoPassRun.stopped k = false := by decide
  refine ⟨rfl, hrun, rfl, ?_⟩
  rw [(exec_ordering_of_no_fault plainConfig decliningEnv twoPassRun demoEvent demoEvent singleWindowApp
    none 2 5 rfl hrun rfl (by decide)).1]
  decide

/-! ### Claims on the clamp, the rescaling and the damage region -/

/-- On a screen of width `W >= 2` the clamp of lines 744-747 is
`min(max(v, 0), W - 2)`: its upper bound is `__screenSize.w - 1`, and `__screenSize.w`
is `W - 1`. -/
theorem clampComponent_eq_min_max (v W : Int) (h1 : 2 ≤ W) (h2 : W ≤ INT_MAX) :
    clampComponent v (wrap32 (W - 1)) = min (max v 0) (W - 2) := by
  unfold INT_MAX at h2
  unfold clampComponent wrap32
  split
  · omega
  · split <;> omega

/-- C21 (defect of the clamp). On the screen of width 800 the cursor at `x = 790` moved
by the relative X delta 50 ends at `x = 798`, not at `799 = min(max(840, 0), 800 - 1)`:
the last column is not reachable. -/
theorem C21_clamp_misses_last_column :
    demoEnv.screenSize.width = 800 ∧
    (handleAxisMotion demoEnv { demoStack (some 1) with __cursorNew := { x := 790, y := 0 } }
      demoEvent (relativeMotion DFBInputDeviceAxisIdentifier.DIAI_X 50)).1.__cursorNew.x = 798 ∧
    (798 : Int) ≠ min (max (790 + 50) 0) (demoEnv.screenSize.width - 1) := by
  decide

/-- C22 (defect of the rescaling). The absolute Y-axis event with `min = 0`,
`max = 1000`, `axisabs = 500` gives `y = 399` on the 800x600 screen and `y = 199` on the
400x600 screen: line 729 scales by `__screenSize.w` for every axis, so the result
follows the width although the heights are equal. -/
theorem C22_absolute_y_scaled_by_width :
    demoEnv.screenSize.height = narrowEnv.screenSize.height ∧
    (handleAxisMotion demoEnv (demoStack (some 1)) demoEvent
      (absoluteMotion DFBInputDeviceAxisIdentifier.DIAI_Y 500 0 1000)).1.__cursorNew.y = 399 ∧
    (handleAxisMotion narrowEnv narrowApp demoEvent
      (absoluteMotion DFBInputDeviceAxisIdentifier.DIAI_Y 500 0 1000)).1.__cursorNew.y = 199 := by
  decide

/-- C28 (defect of `handleEvents`). With motion compression, in shared mode, on the stack
`[1]`: from the batch that holds one button press, the window is first handed an event
of type `DWET_NONE` that is no event of the batch (the local `lastMotion`, whose other
fields were never assigned). -/
theorem C28_unset_lastMotion_is_routed :
    decliningEnv.optExclusive = false ∧
    (handleEvents compressionConfig decliningEnv singleWindowApp demoEvent (pureMotion 7) 0 true
      [DFBEvent.window demoEvent]).1.trace =
        [Call.waitForEvents 0,
          Call.handleWindowEvent 1 { pureMotion 7 with type := DFBWindowEventType.DWET_NONE }
            (some false),
          Call.handleWindowEvent 1 demoEvent (some false)] ∧
    DFBEvent.window { pureMotion 7 with type := DFBWindowEventType.DWET_NONE } ∉
      [DFBEvent.window demoEvent] := by
  decide

/-- C29 (defect of the rescaling). The absolute X-axis event that declares
`min = max = 7` makes `handleAxisMotion` divide by zero; the cursor is neither moved nor
clamped and nothing is routed. -/
theorem C29_rescale_divides_by_zero :
    (absoluteMotion DFBInputDeviceAxisIdentifier.DIAI_X 5 7 7).flags.DIEF_MIN = true ∧
    (absoluteMotion DFBInputDeviceAxisIdentifier.DIAI_X 5 7 7).flags.DIEF_MAX = true ∧
    handleAxisMotion demoEnv (demoStack (some 1)) demoEvent
      (absoluteMotion DFBInputDeviceAxisIdentifier.DIAI_X 5 7 7) =
        (demoStack (some 1), some Fault.divisionByZero) := by
  decide

theorem translateAxisMotion_ok_cases (env : Env) (s : Application) (we : DFBWindowEvent)
    (event : DFBInputEvent) (routed : DFBWindowEvent)
    (hrouted : (translateAxisMotion env s we event).2 = Except.ok routed) :
    ∃ p : DFBPoint,
      (routed.type = DFBWindowEventType.DWET_MOTION ∧ env.cursorVisible = true ∧
        ∃ a, s.__activeWindow = some a ∧
          (translateAxisMotion env s we event).1 =
            { s with
              __cursorOld := s.__cursorNew
              __cursorNew := p
              trace := s.trace ++
                [Call.update a { x := p.x, y := p.y, w := 32, h := 32 }
                  { x := s.__cursorNew.x, y := s.__cursorNew.y, w := 32, h := 32 } 10] }) ∨
      ((routed.type ≠ DFBWindowEventType.DWET_MOTION ∨ env.cursorVisible = false) ∧
        (translateAxisMotion env s we event).1 =
          { s with __cursorOld := s.__cursorNew, __cursorNew := p }) := by
  unfold translateAxisMotion at hrouted ⊢
  cases hm : moveCursor { s with __cursorOld := s.__cursorNew }
      { we with type := DFBWindowEventType.DWET_MOTION, step := 0 } event with
  | error f => simp [hm] at hrouted
  | ok r =>
    obtain ⟨s2, we2⟩ := r
    obtain ⟨⟨q, hq⟩, _⟩ := moveCursor_frame _ _ _ s2 we2 hm
    subst hq
    simp only [hm] at hrouted ⊢
    refine ⟨{ x := clampComponent q.x s.__screenSize.w, y := clampComponent q.y s.__screenSize.h }, ?_⟩
    by_cases hty : we2.type = DFBWindowEventType.DWET_MOTION
    · by_cases hvis : env.cursorVisible = true
      · by_cases ha : s.__activeWindow = none
        · simp [repaintCursor, hty, hvis, activeWindow, clampCursor, ha] at hrouted
        · obtain ⟨a, ha⟩ := Option.ne_none_iff_exists'.mp ha
          simp only [repaintCursor, hty, hvis, activeWindow, clampCursor, ha, decide_True,
            Bool.and_self, if_true, Application.emit] at hrouted ⊢
          have hr := Except.ok.inj hrouted
          subst hr
          exact Or.inl ⟨rfl, trivial, a, rfl, rfl⟩
      · have hv : env.cursorVisible = false := by simpa using hvis
        simp only [repaintCursor, hty, hv, decide_True, Bool.and_false, Bool.false_eq_true,
          if_false, clampCursor] at hrouted ⊢
        have hr := Except.ok.inj hrouted
        subst hr
        simp
    · simp only [repaintCursor, hty, decide_False, Bool.false_and, Bool.false_eq_true,
        if_false, clampCursor] at hrouted ⊢
      have hr := Except.ok.inj hrouted
      subst hr
      simp [hty]

/-- C26 as stated does not hold: for the relative X motion by 5 from `(10, 0)` with a
visible cursor, the repaint asked of the active window 1 is built from the rectangles
`(15, 0, 32, 32)` and `(10, 0, 32, 32)`, whose top-left corners are the new and the
previous cursor position; neither is centred at its position. -/
theorem C26_damage_region_counterexample :
    (handleAxisMotion decliningEnv
      { singleWindowApp with __cursorNew := { x := 10, y := 0 } } demoEvent
      (relativeMotion DFBInputDeviceAxisIdentifier.DIAI_X 5)).1.trace.head? =
        some (Call.update 1 { x := 15, y := 0, w := 32, h := 32 }
          { x := 10, y := 0, w := 32, h := 32 } 10) ∧
    ¬ Rectangle.centredAt { x := 15, y := 0, w := 32, h := 32 } { x := 15, y := 0 } ∧
    ¬ Rectangle.centredAt { x := 10, y := 0, w := 32, h := 32 } { x := 10, y := 0 } := by
  decide

/-- C26 (amended). When `handleAxisMotion` routes a true motion event, the cursor is
reported visible and there is an active window `a`, the one repaint scheduled is asked
of `a` before the routing and is built from two 32x32 rectangles whose top-left corners
are the new cursor position and the previous cursor position (the position at entry).
For a routed event of another type, or when the cursor is not visible, no repaint is
scheduled: the only calls are the handler calls of the routing. -/
theorem C26_damage_region (env : Env) (s : Application) (we : DFBWindowEvent)
    (event : DFBInputEvent) (routed : DFBWindowEvent)
    (hrouted : (translateAxisMotion env s we event).2 = Except.ok routed) :
    ∃ calls, (∀ c ∈ calls, ∃ w e d, c = Call.handleWindowEvent w e d) ∧
      (routed.type = DFBWindowEventType.DWET_MOTION → env.cursorVisible = true →
        ∃ a, s.__activeWindow = some a ∧
          (handleAxisMotion env s we event).1.trace =
            s.trace ++
              Call.update a
                { x := (handleAxisMotion env s we event).1.__cursorNew.x
                  y := (handleAxisMotion env s we event).1.__cursorNew.y
                  w := 32
                  h := 32 }
                { x := s.__cursorNew.x, y := s.__cursorNew.y, w := 32, h := 32 } 10 :: calls) ∧
      (routed.type ≠ DFBWindowEventType.DWET_MOTION ∨ env.cursorVisible = false →
        (handleAxisMotion env s we event).1.trace = s.trace ++ calls) := by
  have hmain := handleAxisMotion_of_ok env s we event routed hrouted
  have hcur := handleAxisMotion_cursorNew env s we event
  obtain ⟨calls, hc1, hc2⟩ :=
    handleWindowEvents_calls env (translateAxisMotion env s we event).1 routed
  have htrace : (handleAxisMotion env s we event).1.trace =
      (translateAxisMotion env s we event).1.trace ++ calls := by
    rw [hmain]
    simp only
    rw [hc1]
  obtain ⟨p, hcase⟩ := translateAxisMotion_ok_cases env s we event routed hrouted
  refine ⟨calls, fun c hc => ?_, ?_, ?_⟩
  · obtain ⟨w, d, h⟩ := hc2 c hc
    exact ⟨w, routed, d, h⟩
  · intro hty hvis
    rcases hcase with ⟨_, _, a, ha, heq⟩ | ⟨hcond, _⟩
    · refine ⟨a, ha, ?_⟩
      rw [htrace, hcur, heq]
      simp
    · rcases hcond with h | h
      · exact absurd hty h
      · rw [hvis] at h
        cases h
  · intro hcond
    rcases hcase with ⟨hty, hvis, _⟩ | ⟨_, heq⟩
    · rcases hcond with h | h
      · exact absurd hty h
      · rw [hvis] at h
        cases h
    · rw [htrace, heq]

/-- C26 (amended) at the relative X motion by 5 from `(10, 0)` on the stack `[1]` with a
visible cursor: the first call is the repaint of the rectangles at `(15, 0)` and
`(10, 0)`. -/
theorem C26_damage_region_witness :
    ∃ routed calls,
      (translateAxisMotion decliningEnv { singleWindowApp with __cursorNew := { x := 10, y := 0 } }
        demoEvent (relativeMotion DFBInputDeviceAxisIdentifier.DIAI_X 5)).2 = Except.ok routed ∧
      routed.type = DFBWindowEventType.DWET_MOTION ∧ decliningEnv.cursorVisible = true ∧
      (handleAxisMotion decliningEnv { singleWindowApp with __cursorNew := { x := 10, y := 0 } }
        demoEvent (relativeMotion DFBInputDeviceAxisIdentifier.DIAI_X 5)).1.trace =
          Call.update 1 { x := 15, y := 0, w := 32, h := 32 }
            { x := 10, y := 0, w := 32, h := 32 } 10 :: calls := by
  have hr : (translateAxisMotion decliningEnv
      { singleWindowApp with __cursorNew := { x := 10, y := 0 } } demoEvent
      (relativeMotion DFBInputDeviceAxisIdentifier.DIAI_X 5)).2 =
      Except.ok
        { demoEvent with
          type := DFBWindowEventType.DWET_MOTION
          step := 0
          x := 15
          y := 0
          cx := 15
          cy := 0
          button := 0
          buttons := 0 } := by
    rfl
  obtain ⟨calls, _, h2, _⟩ := C26_damage_region decliningEnv
    { singleWindowApp with __cursorNew := { x := 10, y := 0 } } demoEvent
    (relativeMotion DFBInputDeviceAxisIdentifier.DIAI_X 5) _ hr
  obtain ⟨a, ha, ht⟩ := h2 rfl rfl
  have ha1 : a = 1 := by
    have : some 1 = some a := ha
    exact (Option.some.inj this).symm
  subst ha1
  refine ⟨_, calls, hr, rfl, rfl, ?_⟩
  rw [ht]
  have hx : (handleAxisMotion decliningEnv
      { singleWindowApp with __cursorNew := { x := 10, y := 0 } } demoEvent
      (relativeMotion DFBInputDeviceAxisIdentifier.DIAI_X 5)).1.__cursorNew =
      { x := 15, y := 0 } := by decide
  rw [hx]
  rfl

/-! ### Claims on drag routing and on the dispatch loop -/

theorem routeDrag_eq_routeTopDown (env : Env) (event : DFBWindowEvent) (dragging : Bool)
    (l : List WindowId) (s : Application) :
    routeDrag env event dragging s l =
      routeTopDown env event dragging s (l.filter (fun w => !(env.widget w)._dragWindow)) := by
  induction l generalizing s with
  | nil => rfl
  | cons w rest ih =>
    unfold routeDrag
    by_cases hd : (env.widget w)._dragWindow = true
    · simp only [hd, if_true]
      rw [ih]
      simp [List.filter, hd]
    · have hf : (env.widget w)._dragWindow = false := by simpa using hd
      simp only [hf, Bool.false_eq_true, if_false]
      have hl : (w :: rest).filter (fun w => !(env.widget w)._dragWindow) =
          w :: rest.filter (fun w => !(env.widget w)._dragWindow) := by
        simp [List.filter, hf]
      rw [hl]
      unfold routeTopDown
      by_cases hh : env.handler w event (some dragging) = true
      · simp [hh]
      · simp only [hh, Bool.false_eq_true, if_false]
        exact ih _

/-- The trace that the top-down scan produces depends on the state only through its
trace. -/
theorem routeTopDown_trace_congr (env : Env) (event : DFBWindowEvent) (dragging : Bool)
    (l : List WindowId) (s s1 : Application) (h : s.trace = s1.trace) :
    (routeTopDown env event dragging s l).trace = (routeTopDown env event dragging s1 l).trace := by
  induction l generalizing s s1 with
  | nil => exact h
  | cons w rest ih =>
    unfold routeTopDown
    by_cases hh : env.handler w event (some dragging) = true
    · simp [hh, Application.emit, h]
    · simp only [hh, Bool.false_eq_true, if_false]
      apply ih
      simp [Application.emit, h]

/-- The top-down scan only hands the event to windows of the list it is given. -/
theorem routeTopDown_calls (env : Env) (event : DFBWindowEvent) (dragging : Bool)
    (l : List WindowId) (s : Application) :
    ∃ calls, (routeTopDown env event dragging s l).trace = s.trace ++ calls ∧
      ∀ w e d, Call.handleWindowEvent w e d ∈ calls → w ∈ l := by
  obtain ⟨invoked, below, h1, h2, _, _⟩ := routeTopDown_spec env event dragging l s
  refine ⟨_, by rw [h2], ?_⟩
  intro w e d hmem
  obtain ⟨v, hv, hc⟩ := List.mem_map.mp hmem
  cases hc
  rw [h1]
  exact List.mem_append.mpr (Or.inl hv)

/-- C23. `handleDragEvents` is the top-down first-consumer scan of `handleWindowEvents`
run on the window list from which every window flagged as drag source is removed: the
same windows are handed the event in the same order, with the same trace as the
non-modal `handleWindowEvents` on that list, and no flagged window is ever handed the
event. -/
theorem C23_drag_routing (env : Env) (s : Application) (event : DFBWindowEvent) :
    handleDragEvents env s event =
      routeTopDown env event s._dragging s
        (s.__windowList.filter (fun w => !(env.widget w)._dragWindow)).reverse ∧
    ((∀ a, s.__activeWindow = some a → (env.widget a).modal = false) →
      (handleDragEvents env s event).trace =
        (handleWindowEvents env
          { s with
            __windowList := s.__windowList.filter (fun w => !(env.widget w)._dragWindow) }
          event).trace) ∧
    ∃ calls, (handleDragEvents env s event).trace = s.trace ++ calls ∧
      ∀ w e d, Call.handleWindowEvent w e d ∈ calls →
        w ∈ s.__windowList ∧ (env.widget w)._dragWindow = false := by
  have heq : handleDragEvents env s event =
      routeTopDown env event s._dragging s
        (s.__windowList.filter (fun w => !(env.widget w)._dragWindow)).reverse := by
    unfold handleDragEvents
    rw [routeDrag_eq_routeTopDown, List.filter_reverse]
  refine ⟨heq, ?_, ?_⟩
  · intro hnm
    have hm : activeIsModal env
        { s with
          __windowList := s.__windowList.filter (fun w => !(env.widget w)._dragWindow) } =
        false := by
      unfold activeIsModal
      cases ha : s.__activeWindow with
      | none => simp [ha]
      | some a => simpa [ha] using hnm a ha
    rw [heq]
    simp only [handleWindowEvents, hm]
    exact routeTopDown_trace_congr env event s._dragging _ _ _ rfl
  · rw [heq]
    obtain ⟨calls, h1, h2⟩ := routeTopDown_calls env event s._dragging
      (s.__windowList.filter (fun w => !(env.widget w)._dragWindow)).reverse s
    refine ⟨calls, h1, ?_⟩
    intro w e d hmem
    have hw := List.mem_reverse.mp (h2 w e d hmem)
    have hf := List.mem_filter.mp hw
    exact ⟨hf.1, by simpa using hf.2⟩

/-- C23 at the stack `[1, 2, 3]` whose window 2 is the drag source and where every
window declines: the windows 3 and 1 are handed the event, window 2 is not. -/
theorem C23_drag_routing_witness :
    (∀ a, (demoStack none).__activeWindow = some a → (dragEnv.widget a).modal = false) ∧
    (handleDragEvents dragEnv (demoStack none) demoEvent).trace =
      [Call.handleWindowEvent 3 demoEvent (some false),
        Call.handleWindowEvent 1 demoEvent (some false)] ∧
    (handleDragEvents dragEnv (demoStack none) demoEvent).trace =
      (handleWindowEvents dragEnv { demoStack none with __windowList := [1, 3] } demoEvent).trace := by
  have hnm : ∀ a, (demoStack none).__activeWindow = some a → (dragEnv.widget a).modal = false :=
    fun _ _ => rfl
  exact ⟨hnm, by decide, (C23_drag_routing dragEnv (demoStack none) demoEvent).2.1 hnm⟩

theorem updateWindows_fold_eq (l : List WindowId) (s : Application) :
    l.foldl (fun acc w => acc.emit (Call.updateWindow w)) s =
      { s with trace := s.trace ++ l.map Call.updateWindow } := by
  induction l generalizing s with
  | nil => simp
  | cons w rest ih =>
    simp only [List.foldl_cons, List.map_cons]
    rw [ih]
    simp [Application.emit]

theorem updateWindows_trace (env : Env) (s : Application) (preCursor : Option DFBPoint) :
    ∃ extra,
      (updateWindows env s preCursor).1 =
        { s with
          trace := s.trace ++
            (if env.optNoUpdates then [] else s.__windowList.map Call.updateWindow) ++ extra } ∧
      (extra = [] ∨ ∃ p d, extra = [Call.renderCursor p d]) ∧
      (env.optExclusive = false → extra = []) := by
  have hs1 : (if !env.optNoUpdates then
        s.__windowList.foldl (fun acc w => acc.emit (Call.updateWindow w)) s
      else s) =
      { s with
        trace := s.trace ++
          (if env.optNoUpdates then [] else s.__windowList.map Call.updateWindow) } := by
    by_cases hn : env.optNoUpdates = true
    · simp [hn]
    · have hf : env.optNoUpdates = false := by simpa using hn
      simp [hf, updateWindows_fold_eq]
  unfold updateWindows
  simp only [hs1]
  by_cases hx : env.optExclusive = true
  · rw [if_pos hx]
    split
    · refine ⟨[Call.renderCursor s.__cursorNew s._dragging], ?_,
        Or.inr ⟨s.__cursorNew, s._dragging, rfl⟩, ?_⟩
      · simp [Application.emit, cursorPosition]
      · intro h
        rw [hx] at h
        cases h
    · refine ⟨[], ?_, Or.inl rfl, fun _ => rfl⟩
      simp
  · rw [if_neg hx]
    refine ⟨[], ?_, Or.inl rfl, fun _ => rfl⟩
    simp

/-- C25. When the NoUpdates option is not set, `updateWindows` calls `updateWindow`
exactly once on every window of the list, in list order; when it is set, on no window.
The only other call it may issue is the cursor rendering of exclusive mode, after the
updates. The window list and the active window are unchanged. -/
theorem C25_updateWindows (env : Env) (s : Application) (preCursor : Option DFBPoint) :
    (updateWindows env s preCursor).1.__windowList = s.__windowList ∧
    (updateWindows env s preCursor).1.__activeWindow = s.__activeWindow ∧
    ∃ extra, (∀ c ∈ extra, ∀ w, c ≠ Call.updateWindow w) ∧
      (env.optExclusive = false → extra = []) ∧
      (env.optNoUpdates = false →
        (updateWindows env s preCursor).1.trace =
          s.trace ++ s.__windowList.map Call.updateWindow ++ extra) ∧
      (env.optNoUpdates = true → (updateWindows env s preCursor).1.trace = s.trace ++ extra) := by
  obtain ⟨extra, h1, h2, h3⟩ := updateWindows_trace env s preCursor
  rw [h1]
  refine ⟨rfl, rfl, extra, ?_, h3, ?_, ?_⟩
  · intro c hc w
    rcases h2 with h | ⟨p, d, h⟩
    · rw [h] at hc
      cases hc
    · rw [h] at hc
      rw [List.mem_singleton.mp hc]
      exact fun e => (by cases e)
  · intro h
    simp [h]
  · intro h
    simp [h]

/-- C25 at the stack `[1, 2, 3]` in shared mode: the windows 1, 2, 3 are updated in
this order and nothing else is called. -/
theorem C25_updateWindows_witness :
    demoEnv.optNoUpdates = false ∧
    (updateWindows demoEnv (demoStack (some 1)) none).1.trace =
      [Call.updateWindow 1, Call.updateWindow 2, Call.updateWindow 3] := by
  obtain ⟨_, _, extra, _, h2, h3, _⟩ := C25_updateWindows demoEnv (demoStack (some 1)) none
  refine ⟨rfl, ?_⟩
  rw [h3 rfl, h2 rfl]
  decide

theorem drainSteps_refl (s : Application) : DrainSteps s s :=
  ⟨[], by simp, by simp⟩

theorem drainSteps_trans {s s1 s2 : Application} (h1 : DrainSteps s s1) (h2 : DrainSteps s1 s2) :
    DrainSteps s s2 := by
  obtain ⟨t1, a3, a4⟩ := h1
  obtain ⟨t2, b3, b4⟩ := h2
  refine ⟨t1 ++ t2, by rw [b3, a3, List.append_assoc], ?_⟩
  intro c hc
  rcases List.mem_append.mp hc with h | h
  · exact a4 c h
  · exact b4 c h

theorem drainSteps_emit (s : Application) (c : Call) (hc : c.isDrainWork = true) :
    DrainSteps s (s.emit c) :=
  ⟨[c], rfl, by intro d hd; rw [List.mem_singleton.mp hd]; exact hc⟩

theorem drainSteps_handleWindowEvents (env : Env) (s : Application) (event : DFBWindowEvent) :
    DrainSteps s (handleWindowEvents env s event) := by
  obtain ⟨t, ht, hc⟩ := handleWindowEvents_calls env s event
  rw [ht]
  refine ⟨t, rfl, ?_⟩
  intro c hmem
  obtain ⟨w, d, h⟩ := hc c hmem
  rw [h]
  rfl

theorem drainSteps_filterAndRoute (env : Env) (s : Application) (event : DFBWindowEvent) :
    DrainSteps s (filterAndRoute env s event) := by
  simp only [filterAndRoute, windowPreEventFilter]
  exact drainSteps_handleWindowEvents env s event

theorem drainSteps_translateAxisMotion (env : Env) (s : Application) (we : DFBWindowEvent)
    (event : DFBInputEvent) : DrainSteps s (translateAxisMotion env s we event).1 := by
  unfold translateAxisMotion
  cases hm : moveCursor { s with __cursorOld := s.__cursorNew }
      { we with type := DFBWindowEventType.DWET_MOTION, step := 0 } event with
  | error f =>
    simp only [hm]
    exact ⟨[], by simp, by simp⟩
  | ok r =>
    obtain ⟨s2, we2⟩ := r
    obtain ⟨⟨q, hq⟩, _⟩ := moveCursor_frame _ _ _ s2 we2 hm
    subst hq
    simp only [hm]
    unfold repaintCursor
    by_cases hc : (decide (we2.type = DFBWindowEventType.DWET_MOTION) && env.cursorVisible) = true
    · simp only [hc, if_true]
      by_cases ha : s.__activeWindow = none
      · simp only [activeWindow, clampCursor, ha]
        exact ⟨[], by simp, by simp⟩
      · obtain ⟨a, ha⟩ := Option.ne_none_iff_exists'.mp ha
        simp only [activeWindow, clampCursor, ha, Application.emit]
        exact ⟨[_], rfl, by intro c h; rw [List.mem_singleton.mp h]; rfl⟩
    · simp only [hc]
      exact ⟨[], by simp [clampCursor], by simp⟩

theorem drainSteps_handleAxisMotion (env : Env) (s : Application) (we : DFBWindowEvent)
    (event : DFBInputEvent) : DrainSteps s (handleAxisMotion env s we event).1 := by
  cases h : (translateAxisMotion env s we event).2 with
  | error f =>
    rw [handleAxisMotion_of_error env s we event f h]
    exact drainSteps_translateAxisMotion env s we event
  | ok routed =>
    rw [handleAxisMotion_of_ok env s we event routed h]
    exact drainSteps_trans (drainSteps_translateAxisMotion env s we event)
      (drainSteps_handleWindowEvents env _ routed)

theorem drainSteps_handleInputEvent (env : Env) (s : Application) (we : DFBWindowEvent)
    (event : DFBInputEvent) : DrainSteps s (handleInputEvent env s we event).1 := by
  unfold handleInputEvent
  cases event.type with
  | DIET_KEYPRESS =>
    simp only [handleKeyInputEvent, windowPreEventFilter]
    exact drainSteps_handleWindowEvents env s _
  | DIET_KEYRELEASE =>
    simp only [handleKeyInputEvent, windowPreEventFilter]
    exact drainSteps_handleWindowEvents env s _
  | DIET_BUTTONPRESS =>
    simp only [handleButtonInputEvent, windowPreEventFilter]
    exact drainSteps_handleWindowEvents env s _
  | DIET_BUTTONRELEASE =>
    simp only [handleButtonInputEvent, windowPreEventFilter]
    exact drainSteps_handleWindowEvents env s _
  | DIET_AXISMOTION => exact drainSteps_handleAxisMotion env s we event
  | DIET_UNKNOWN => exact drainSteps_refl s

theorem drainSteps_handleQueuedWindowEvent (cfg : BuildConfig) (env : Env) (s : Application)
    (lastMotion event : DFBWindowEvent) :
    DrainSteps s (handleQueuedWindowEvent cfg env s lastMotion event).1 := by
  unfold handleQueuedWindowEvent
  split
  · split
    · split
      · exact drainSteps_refl s
      · split
        · exact drainSteps_trans (drainSteps_filterAndRoute env s lastMotion)
            (drainSteps_filterAndRoute env _ event)
        · exact drainSteps_refl s
    · exact drainSteps_filterAndRoute env s event
  · exact drainSteps_refl s

theorem drainSteps_drainEvents (cfg : BuildConfig) (env : Env) (we : DFBWindowEvent)
    (batch : List DFBEvent) (s : Application) (lastMotion : DFBWindowEvent) :
    DrainSteps s (drainEvents cfg env we s lastMotion batch).1.1 := by
  induction batch generalizing s lastMotion with
  | nil => exact drainSteps_refl s
  | cons ev rest ih =>
    cases ev with
    | input event =>
      unfold drainEvents
      have h1 := drainSteps_handleInputEvent env s we event
      cases hr : handleInputEvent env s we event with
      | mk s1 fault =>
        rw [hr] at h1
        cases fault with
        | none => exact drainSteps_trans h1 (ih s1 lastMotion)
        | some f => exact h1
    | window event =>
      unfold drainEvents
      exact drainSteps_trans (drainSteps_handleQueuedWindowEvent cfg env s lastMotion event)
        (ih _ _)
    | user type =>
      unfold drainEvents
      exact ih s lastMotion
    | universal target =>
      cases target with
      | none =>
        unfold drainEvents
        exact ih s lastMotion
      | some t =>
        unfold drainEvents
        exact drainSteps_trans (drainSteps_emit s (Call.universalEvent t) rfl) (ih _ lastMotion)
    | surface surfaceId =>
      unfold drainEvents
      split
      · exact drainSteps_trans (drainSteps_emit s (Call.consumeSurfaceEvent surfaceId) rfl)
          (ih _ lastMotion)
      · exact ih s lastMotion
    | other =>
      unfold drainEvents
      exact ih s lastMotion


theorem handleEvents_eq (cfg : BuildConfig) (env : Env) (s : Application)
    (we lastMotion : DFBWindowEvent) (timeout : Int) (forceWait : Bool) (batch : List DFBEvent) :
    handleEvents cfg env s we lastMotion timeout forceWait batch =
      flushLastMotion cfg env
        (drainEvents cfg env we (waitStep env s timeout forceWait)
          { lastMotion with type := DFBWindowEventType.DWET_NONE } batch) := by
  unfold handleEvents flushLastMotion waitStep
  rfl

theorem drainSteps_flushLastMotion (cfg : BuildConfig) (env : Env)
    (r : (Application × DFBWindowEvent) × Option Fault) :
    DrainSteps r.1.1 (flushLastMotion cfg env r).1 := by
  obtain ⟨⟨s2, lm⟩, fault⟩ := r
  unfold flushLastMotion
  cases fault with
  | some f => exact drainSteps_refl s2
  | none =>
    simp only
    split
    · exact drainSteps_filterAndRoute env s2 lm
    · exact drainSteps_refl s2

theorem waitStep_of_no_pending (env : Env) (s : Application) (timeout : Int)
    (h : ∀ w ∈ s.__windowList, (env.widget w).updateQueueValid = false) :
    waitStep env s timeout false = s.emit (Call.waitForEvents timeout) := by
  have hany : (s.__windowList.any (fun w => (env.widget w).updateQueueValid)) = false := by
    rw [List.any_eq_false]
    intro w hw
    simp [h w hw]
  simp [waitStep, hany]

theorem waitStep_of_pending (env : Env) (s : Application) (timeout : Int)
    (h : ∃ w ∈ s.__windowList, (env.widget w).updateQueueValid = true) :
    waitStep env s timeout false = s := by
  have hany : (s.__windowList.any (fun w => (env.widget w).updateQueueValid)) = true := by
    rw [List.any_eq_true]
    exact h
  simp [waitStep, hany]

/-- The call `handleEvents(timeout, false)` is the wait step, then the `while` loop over
the whole batch that `getNextEvent` yields, then the flush of a pending motion. When no
listed window has a valid update queue, `waitForEvents(timeout)` is called exactly once,
as the first call; when some listed window has one, it is not called at all. -/
theorem handleEvents_wait_decision (cfg : BuildConfig) (env : Env) (s : Application)
    (we lastMotion : DFBWindowEvent) (timeout : Int) (batch : List DFBEvent) :
    handleEvents cfg env s we lastMotion timeout false batch =
      flushLastMotion cfg env
        (drainEvents cfg env we (waitStep env s timeout false)
          { lastMotion with type := DFBWindowEventType.DWET_NONE } batch) ∧
    ((∀ w ∈ s.__windowList, (env.widget w).updateQueueValid = false) →
      waitStep env s timeout false = s.emit (Call.waitForEvents timeout) ∧
      ∃ calls,
        (handleEvents cfg env s we lastMotion timeout false batch).1.trace =
          s.trace ++ Call.waitForEvents timeout :: calls ∧
        ∀ c ∈ calls, ∀ t, c ≠ Call.waitForEvents t) ∧
    ((∃ w ∈ s.__windowList, (env.widget w).updateQueueValid = true) →
      waitStep env s timeout false = s ∧
      ∃ calls,
        (handleEvents cfg env s we lastMotion timeout false batch).1.trace = s.trace ++ calls ∧
        ∀ c ∈ calls, ∀ t, c ≠ Call.waitForEvents t) := by
  have heq := handleEvents_eq cfg env s we lastMotion timeout false batch
  have hsteps : DrainSteps (waitStep env s timeout false)
      (handleEvents cfg env s we lastMotion timeout false batch).1 := by
    rw [heq]
    exact drainSteps_trans (drainSteps_drainEvents cfg env we batch _ _)
      (drainSteps_flushLastMotion cfg env _)
  have hnot : ∀ c : Call, c.isDrainWork = true → ∀ t, c ≠ Call.waitForEvents t := by
    intro c hc t e
    rw [e] at hc
    simp [Call.isDrainWork] at hc
  obtain ⟨calls, h1, h2⟩ := hsteps
  refine ⟨heq, ?_, ?_⟩
  · intro hno
    have hw := waitStep_of_no_pending env s timeout hno
    refine ⟨hw, calls, ?_, fun c hc => hnot c (h2 c hc)⟩
    rw [h1, hw]
    simp [Application.emit]
  · intro hsome
    have hw := waitStep_of_pending env s timeout hsome
    refine ⟨hw, calls, ?_, fun c hc => hnot c (h2 c hc)⟩
    rw [h1, hw]

/-- At the stack `[1, 2, 3]`: without a pending update the engine is asked to wait
once before the button press is handed to the windows; with a pending update of window 2
it is not asked to wait. -/
theorem handleEvents_wait_decision_example :
    (∀ w ∈ (demoStack none).__windowList, (decliningEnv.widget w).updateQueueValid = false) ∧
    (handleEvents plainConfig decliningEnv (demoStack none) demoEvent demoEvent 10 false
      [DFBEvent.window demoEvent]).1.trace.head? = some (Call.waitForEvents 10) ∧
    (∃ w ∈ (demoStack none).__windowList, (pendingEnv.widget w).updateQueueValid = true) ∧
    ∃ calls,
      (handleEvents plainConfig pendingEnv (demoStack none) demoEvent demoEvent 10 false
        [DFBEvent.window demoEvent]).1.trace = (demoStack none).trace ++ calls ∧
      ∀ c ∈ calls, ∀ t, c ≠ Call.waitForEvents t := by
  have h1 : ∀ w ∈ (demoStack none).__windowList,
      (decliningEnv.widget w).updateQueueValid = false := by decide
  have h2 : ∃ w ∈ (demoStack none).__windowList, (pendingEnv.widget w).updateQueueValid = true :=
    ⟨2, by decide, rfl⟩
  have hc := handleEvents_wait_decision plainConfig pendingEnv (demoStack none) demoEvent demoEvent 10
    [DFBEvent.window demoEvent]
  exact ⟨h1, by decide, h2, (hc.2.2 h2).2⟩

theorem handleQueuedWindowEvent_pureMotion (cfg : BuildConfig) (env : Env) (s : Application)
    (lastMotion event : DFBWindowEvent) (hcfg : cfg.motionCompression = true)
    (hshared : env.optExclusive = false) (hpure : isPureMotion event) :
    handleQueuedWindowEvent cfg env s lastMotion event = (s, event) := by
  obtain ⟨hty, hb⟩ := hpure
  simp [handleQueuedWindowEvent, hcfg, hshared, hty, hb]

theorem drainEvents_pureMotion (cfg : BuildConfig) (env : Env) (we : DFBWindowEvent)
    (hcfg : cfg.motionCompression = true) (hshared : env.optExclusive = false) :
    ∀ (ms : List DFBWindowEvent) (s : Application) (lastMotion : DFBWindowEvent),
      (∀ m ∈ ms, isPureMotion m) →
      drainEvents cfg env we s lastMotion (ms.map DFBEvent.window) =
        ((s, (ms.getLast?).getD lastMotion), none) := by
  intro ms
  induction ms with
  | nil =>
    intro s lastMotion _
    simp [drainEvents]
  | cons m rest ih =>
    intro s lastMotion hall
    have hm : isPureMotion m := hall m (List.mem_cons_self m rest)
    have hrest : ∀ x ∈ rest, isPureMotion x := fun x hx => hall x (List.mem_cons_of_mem m hx)
    rw [List.map_cons, drainEvents, handleQueuedWindowEvent_pureMotion cfg env s lastMotion m hcfg
      hshared hm]
    rw [ih s m hrest]
    cases rest with
    | nil => simp
    | cons r rs =>
      have hl : (m :: r :: rs).getLast? = (r :: rs).getLast? := List.getLast?_cons_cons
      rw [hl, List.getLast?_eq_getLast (r :: rs) (List.cons_ne_nil r rs)]
      rfl

/-- C27. With motion compression compiled in and in shared mode, `handleEvents` on a
non-empty batch of pure-motion window events waits as decided and then routes exactly
one event, the last of the batch, through the filter of line 488 to `handleWindowEvents`;
a call of `handleEvents` on an empty queue routes nothing, whatever the locals held. -/
theorem C27_pure_motion_batch (cfg : BuildConfig) (env : Env) (s : Application)
    (we lastMotion : DFBWindowEvent) (timeout : Int) (forceWait : Bool)
    (ms : List DFBWindowEvent) (hcfg : cfg.motionCompression = true)
    (hshared : env.optExclusive = false) (hne : ms ≠ [])
    (hpure : ∀ m ∈ ms, isPureMotion m) :
    handleEvents cfg env s we lastMotion timeout forceWait (ms.map DFBEvent.window) =
      (handleWindowEvents env (waitStep env s timeout forceWait) (ms.getLast hne), none) ∧
    ∀ (s1 : Application) (we1 lastMotion1 : DFBWindowEvent) (timeout1 : Int) (forceWait1 : Bool),
      handleEvents cfg env s1 we1 lastMotion1 timeout1 forceWait1 [] =
        (waitStep env s1 timeout1 forceWait1, none) := by
  constructor
  · rw [handleEvents_eq, drainEvents_pureMotion cfg env we hcfg hshared ms _ _ hpure]
    have hlast : ms.getLast? = some (ms.getLast hne) := List.getLast?_eq_getLast ms hne
    have hty : (ms.getLast hne).type = DFBWindowEventType.DWET_MOTION :=
      (hpure _ (List.getLast_mem hne)).1
    simp [flushLastMotion, hlast, hcfg, hty, filterAndRoute, windowPreEventFilter]
  · intro s1 we1 lastMotion1 timeout1 forceWait1
    rw [handleEvents_eq]
    simp [flushLastMotion, drainEvents]

/-- C27 at the stack `[1, 2, 3]` with three pure motions to x = 10, 20, 30: the call
routes the motion to 30 only, top-down to the three declining windows. -/
theorem C27_pure_motion_batch_witness :
    (∀ m ∈ [pureMotion 10, pureMotion 20, pureMotion 30], isPureMotion m) ∧
    (handleEvents compressionConfig decliningEnv (demoStack none) demoEvent demoEvent 10 false
      ([pureMotion 10, pureMotion 20, pureMotion 30].map DFBEvent.window)).1.trace =
      (demoStack none).trace ++
        [Call.waitForEvents 10,
          Call.handleWindowEvent 3 (pureMotion 30) false,
          Call.handleWindowEvent 2 (pureMotion 30) false,
          Call.handleWindowEvent 1 (pureMotion 30) false] := by
  have hpure : ∀ m ∈ [pureMotion 10, pureMotion 20, pureMotion 30], isPureMotion m := by
    intro m hm
    simp only [List.mem_cons, List.mem_singleton, List.not_mem_nil, or_false] at hm
    rcases hm with h | h | h <;> subst h <;> exact ⟨rfl, rfl⟩
  have h := (C27_pure_motion_batch compressionConfig decliningEnv (demoStack none) demoEvent
    demoEvent 10 false [pureMotion 10, pureMotion 20, pureMotion 30] rfl rfl (by simp) hpure).1
  refine ⟨hpure, ?_⟩
  rw [h]
  decide

/-! ### Claims on pointer injection -/

theorem waitStep_frame (env : Env) (s : Application) (timeout : Int) (forceWait : Bool) :
    ∃ t, waitStep env s timeout forceWait = { s with trace := s.trace ++ t } := by
  unfold waitStep
  simp only
  split_ifs
  all_goals first
    | exact ⟨[Call.waitForEvents timeout], rfl⟩
    | exact ⟨[], by simp⟩

theorem handleInputEvent_axisMotion (env : Env) (s : Application) (we : DFBWindowEvent)
    (event : DFBInputEvent) (h : event.type = DFBInputEventType.DIET_AXISMOTION) :
    handleInputEvent env s we event = handleAxisMotion env s we event := by
  unfold handleInputEvent
  rw [h]

/-- An absolute X-axis event without declared range sets the cursor to the clamped
`axisabs` and re-clamps the other coordinate. -/
theorem handleAxisMotion_absolute_x (env : Env) (s : Application) (we : DFBWindowEvent)
    (event : DFBInputEvent) (hrel : event.flags.DIEF_AXISREL = false)
    (habs : event.flags.DIEF_AXISABS = true) (hmin : event.flags.DIEF_MIN = false)
    (hax : event.axis = DFBInputDeviceAxisIdentifier.DIAI_X)
    (hact : s.__activeWindow ≠ none ∨ env.cursorVisible = false) :
    ∃ t, handleAxisMotion env s we event =
      ({ s with
          __cursorOld := s.__cursorNew
          __cursorNew :=
            { x := clampComponent event.axisabs s.__screenSize.w
              y := clampComponent s.__cursorNew.y s.__screenSize.h }
          trace := s.trace ++ t }, none) := by
  have hmove : moveCursor { s with __cursorOld := s.__cursorNew }
      { we with type := DFBWindowEventType.DWET_MOTION, step := 0 } event =
      Except.ok
        ({ s with
            __cursorOld := s.__cursorNew
            __cursorNew := { s.__cursorNew with x := event.axisabs } },
          { we with type := DFBWindowEventType.DWET_MOTION, step := 0 }) := by
    simp [moveCursor, absolutePosition, hrel, habs, hmin, hax]
  by_cases hvis : env.cursorVisible = true
  · have ha : s.__activeWindow ≠ none := by
      rcases hact with h | h
      · exact h
      · rw [h] at hvis; cases hvis
    obtain ⟨a, ha⟩ := Option.ne_none_iff_exists'.mp ha
    have htr : translateAxisMotion env s we event =
        ({ s with
            __cursorOld := s.__cursorNew
            __cursorNew :=
              { x := clampComponent event.axisabs s.__screenSize.w
                y := clampComponent s.__cursorNew.y s.__screenSize.h }
            trace := s.trace ++
              [Call.update a
                { x := clampComponent event.axisabs s.__screenSize.w
                  y := clampComponent s.__cursorNew.y s.__screenSize.h, w := 32, h := 32 }
                { x := s.__cursorNew.x, y := s.__cursorNew.y, w := 32, h := 32 } 10] },
          Except.ok
            { we with
              type := DFBWindowEventType.DWET_MOTION
              step := 0
              x := clampComponent event.axisabs s.__screenSize.w
              y := clampComponent s.__cursorNew.y s.__screenSize.h
              cx := clampComponent event.axisabs s.__screenSize.w
              cy := clampComponent s.__cursorNew.y s.__screenSize.h
              button := event.button
              buttons := event.buttons }) := by
      unfold translateAxisMotion
      simp only [hmove]
      simp [repaintCursor, clampCursor, hvis, activeWindow, ha, Application.emit]
    obtain ⟨t, ht⟩ := handleWindowEvents_frame env (translateAxisMotion env s we event).1
      { we with
        type := DFBWindowEventType.DWET_MOTION
        step := 0
        x := clampComponent event.axisabs s.__screenSize.w
        y := clampComponent s.__cursorNew.y s.__screenSize.h
        cx := clampComponent event.axisabs s.__screenSize.w
        cy := clampComponent s.__cursorNew.y s.__screenSize.h
        button := event.button
        buttons := event.buttons }
    rw [handleAxisMotion_of_ok env s we event _ (by rw [htr]), ht, htr]
    exact ⟨Call.update a
      { x := clampComponent event.axisabs s.__screenSize.w
        y := clampComponent s.__cursorNew.y s.__screenSize.h, w := 32, h := 32 }
      { x := s.__cursorNew.x, y := s.__cursorNew.y, w := 32, h := 32 } 10 :: t, by simp⟩
  · have hv : env.cursorVisible = false := by simpa using hvis
    have htr : translateAxisMotion env s we event =
        ({ s with
            __cursorOld := s.__cursorNew
            __cursorNew :=
              { x := clampComponent event.axisabs s.__screenSize.w
                y := clampComponent s.__cursorNew.y s.__screenSize.h } },
          Except.ok
            { we with
              type := DFBWindowEventType.DWET_MOTION
              step := 0
              x := clampComponent event.axisabs s.__screenSize.w
              y := clampComponent s.__cursorNew.y s.__screenSize.h
              cx := clampComponent event.axisabs s.__screenSize.w
              cy := clampComponent s.__cursorNew.y s.__screenSize.h
              button := event.button
              buttons := event.buttons }) := by
      unfold translateAxisMotion
      simp only [hmove]
      simp [repaintCursor, clampCursor, hv]
    obtain ⟨t, ht⟩ := handleWindowEvents_frame env (translateAxisMotion env s we event).1
      { we with
        type := DFBWindowEventType.DWET_MOTION
        step := 0
        x := clampComponent event.axisabs s.__screenSize.w
        y := clampComponent s.__cursorNew.y s.__screenSize.h
        cx := clampComponent event.axisabs s.__screenSize.w
        cy := clampComponent s.__cursorNew.y s.__screenSize.h
        button := event.button
        buttons := event.buttons }
    rw [handleAxisMotion_of_ok env s we event _ (by rw [htr]), ht, htr]
    exact ⟨t, rfl⟩

/-- An absolute Y-axis event without declared range sets the cursor to the clamped
`axisabs` and re-clamps the other coordinate. -/
theorem handleAxisMotion_absolute_y (env : Env) (s : Application) (we : DFBWindowEvent)
    (event : DFBInputEvent) (hrel : event.flags.DIEF_AXISREL = false)
    (habs : event.flags.DIEF_AXISABS = true) (hmin : event.flags.DIEF_MIN = false)
    (hax : event.axis = DFBInputDeviceAxisIdentifier.DIAI_Y)
    (hact : s.__activeWindow ≠ none ∨ env.cursorVisible = false) :
    ∃ t, handleAxisMotion env s we event =
      ({ s with
          __cursorOld := s.__cursorNew
          __cursorNew :=
            { x := clampComponent s.__cursorNew.x s.__screenSize.w
              y := clampComponent event.axisabs s.__screenSize.h }
          trace := s.trace ++ t }, none) := by
  have hmove : moveCursor { s with __cursorOld := s.__cursorNew }
      { we with type := DFBWindowEventType.DWET_MOTION, step := 0 } event =
      Except.ok
        ({ s with
            __cursorOld := s.__cursorNew
            __cursorNew := { s.__cursorNew with y := event.axisabs } },
          { we with type := DFBWindowEventType.DWET_MOTION, step := 0 }) := by
    simp [moveCursor, absolutePosition, hrel, habs, hmin, hax]
  by_cases hvis : env.cursorVisible = true
  · have ha : s.__activeWindow ≠ none := by
      rcases hact with h | h
      · exact h
      · rw [h] at hvis; cases hvis
    obtain ⟨a, ha⟩ := Option.ne_none_iff_exists'.mp ha
    have htr : translateAxisMotion env s we event =
        ({ s with
            __cursorOld := s.__cursorNew
            __cursorNew :=
              { x := clampComponent s.__cursorNew.x s.__screenSize.w
                y := clampComponent event.axisabs s.__screenSize.h }
            trace := s.trace ++
              [Call.update a
                { x := clampComponent s.__cursorNew.x s.__screenSize.w
                  y := clampComponent event.axisabs s.__screenSize.h, w := 32, h := 32 }
                { x := s.__cursorNew.x, y := s.__cursorNew.y, w := 32, h := 32 } 10] },
          Except.ok
            { we with
              type := DFBWindowEventType.DWET_MOTION
              step := 0
              x := clampComponent s.__cursorNew.x s.__screenSize.w
              y := clampComponent event.axisabs s.__screenSize.h
              cx := clampComponent s.__cursorNew.x s.__screenSize.w
              cy := clampComponent event.axisabs s.__screenSize.h
              button := event.button
              buttons := event.buttons }) := by
      unfold translateAxisMotion
      simp only [hmove]
      simp [repaintCursor, clampCursor, hvis, activeWindow, ha, Application.emit]
    obtain ⟨t, ht⟩ := handleWindowEvents_frame env (translateAxisMotion env s we event).1
      { we with
        type := DFBWindowEventType.DWET_MOTION
        step := 0
        x := clampComponent s.__cursorNew.x s.__screenSize.w
        y := clampComponent event.axisabs s.__screenSize.h
        cx := clampComponent s.__cursorNew.x s.__screenSize.w
        cy := clampComponent event.axisabs s.__screenSize.h
        button := event.button
        buttons := event.buttons }
    rw [handleAxisMotion_of_ok env s we event _ (by rw [htr]), ht, htr]
    exact ⟨Call.update a
      { x := clampComponent s.__cursorNew.x s.__screenSize.w
        y := clampComponent event.axisabs s.__screenSize.h, w := 32, h := 32 }
      { x := s.__cursorNew.x, y := s.__cursorNew.y, w := 32, h := 32 } 10 :: t, by simp⟩
  · have hv : env.cursorVisible = false := by simpa using hvis
    have htr : translateAxisMotion env s we event =
        ({ s with
            __cursorOld := s.__cursorNew
            __cursorNew :=
              { x := clampComponent s.__cursorNew.x s.__screenSize.w
                y := clampComponent event.axisabs s.__screenSize.h } },
          Except.ok
            { we with
              type := DFBWindowEventType.DWET_MOTION
              step := 0
              x := clampComponent s.__cursorNew.x s.__screenSize.w
              y := clampComponent event.axisabs s.__screenSize.h
              cx := clampComponent s.__cursorNew.x s.__screenSize.w
              cy := clampComponent event.axisabs s.__screenSize.h
              button := event.button
              buttons := event.buttons }) := by
      unfold translateAxisMotion
      simp only [hmove]
      simp [repaintCursor, clampCursor, hv]
    obtain ⟨t, ht⟩ := handleWindowEvents_frame env (translateAxisMotion env s we event).1
      { we with
        type := DFBWindowEventType.DWET_MOTION
        step := 0
        x := clampComponent s.__cursorNew.x s.__screenSize.w
        y := clampComponent event.axisabs s.__screenSize.h
        cx := clampComponent s.__cursorNew.x s.__screenSize.w
        cy := clampComponent event.axisabs s.__screenSize.h
        button := event.button
        buttons := event.buttons }
    rw [handleAxisMotion_of_ok env s we event _ (by rw [htr]), ht, htr]
    exact ⟨t, rfl⟩

theorem clampComponent_id (v W : Int) (h1 : 2 ≤ W) (h2 : W ≤ INT_MAX) (h3 : 0 ≤ v)
    (h4 : v ≤ W - 2) : clampComponent v (W - 1) = v := by
  unfold INT_MAX at h2
  unfold clampComponent wrap32
  split
  · omega
  · split <;> omega

/-- In exclusive mode `postPointerEvent` with type motion posts exactly two input
events, the absolute X-axis event carrying `x` and then the absolute Y-axis event
carrying `y`; with type button-down, button-up or wheel it posts exactly three input
events, those two and the event of the type; in shared mode with a non-null active
window it posts exactly one window event, addressed to the active window. On a screen of
at least 2x2 with `0 <= x <= screenWidth - 2` and `0 <= y <= screenHeight - 2`, when the
active window is not `NULL` or the cursor is not visible, `handleEvents` on the two
events of a motion ends without a fault and with `cursorPosition()` equal to `(x, y)`,
whatever the cursor was before. -/
theorem postPointerEvent_round_trip (cfg : BuildConfig) (env : Env) (s : Application)
    (inputEvent : DFBInputEvent) (windowEvent we lastMotion : DFBWindowEvent)
    (button buttonMask : Nat) (x y cx cy step timeout : Int) (forceWait : Bool) :
    (env.optExclusive = true →
      postPointerEvent env s inputEvent windowEvent PointerEventType.PointerMotion button
          buttonMask x y cx cy step =
        ({ s with
            trace := s.trace ++
              [Call.postEvent (DFBEvent.input (pointerEvent1 s inputEvent x)),
                Call.postEvent (DFBEvent.input (pointerEvent2 s inputEvent button buttonMask y))] },
          none) ∧
      (pointerEvent1 s inputEvent x).type = DFBInputEventType.DIET_AXISMOTION ∧
      (pointerEvent1 s inputEvent x).flags.DIEF_AXISABS = true ∧
      (pointerEvent1 s inputEvent x).axis = DFBInputDeviceAxisIdentifier.DIAI_X ∧
      (pointerEvent1 s inputEvent x).axisabs = x ∧
      (pointerEvent2 s inputEvent button buttonMask y).type = DFBInputEventType.DIET_AXISMOTION ∧
      (pointerEvent2 s inputEvent button buttonMask y).flags.DIEF_AXISABS = true ∧
      (pointerEvent2 s inputEvent button buttonMask y).axis = DFBInputDeviceAxisIdentifier.DIAI_Y ∧
      (pointerEvent2 s inputEvent button buttonMask y).axisabs = y) ∧
    (env.optExclusive = true → ∀ type : PointerEventType, type ≠ PointerEventType.PointerMotion →
      ∃ event3 : DFBInputEvent,
        pointerEvent3 s inputEvent type button buttonMask step = some event3 ∧
        postPointerEvent env s inputEvent windowEvent type button buttonMask x y cx cy step =
          ({ s with
              trace := s.trace ++
                [Call.postEvent (DFBEvent.input (pointerEvent1 s inputEvent x)),
                  Call.postEvent (DFBEvent.input (pointerEvent2 s inputEvent button buttonMask y)),
                  Call.postEvent (DFBEvent.input event3)] },
            none)) ∧
    (env.optExclusive = false → ∀ (type : PointerEventType) (a : WindowId),
      s.__activeWindow = some a →
      ∃ posted : DFBWindowEvent,
        postPointerEvent env s inputEvent windowEvent type button buttonMask x y cx cy step =
          ({ s with trace := s.trace ++ [Call.postEvent (DFBEvent.window posted)] }, none) ∧
        posted.window_id = (env.widget a).windowID ∧ posted.type = type.toWindowEventType ∧
        posted.x = x ∧ posted.y = y) ∧
    (env.optExclusive = true → env.screenSize.wellTyped →
      2 ≤ env.screenSize.width → 2 ≤ env.screenSize.height →
      s.__screenSize = (Application.new env).__screenSize →
      0 ≤ x → x ≤ env.screenSize.width - 2 → 0 ≤ y → y ≤ env.screenSize.height - 2 →
      (s.__activeWindow ≠ none ∨ env.cursorVisible = false) →
      (handleEvents cfg env
          (postPointerEvent env s inputEvent windowEvent PointerEventType.PointerMotion button
            buttonMask x y cx cy step).1
          we lastMotion timeout forceWait
          [DFBEvent.input (pointerEvent1 s inputEvent x),
            DFBEvent.input (pointerEvent2 s inputEvent button buttonMask y)]).2 = none ∧
      cursorPosition
        (handleEvents cfg env
          (postPointerEvent env s inputEvent windowEvent PointerEventType.PointerMotion button
            buttonMask x y cx cy step).1
          we lastMotion timeout forceWait
          [DFBEvent.input (pointerEvent1 s inputEvent x),
            DFBEvent.input (pointerEvent2 s inputEvent button buttonMask y)]).1 =
        { x := x, y := y }) := by
  have hpost : env.optExclusive = true →
      postPointerEvent env s inputEvent windowEvent PointerEventType.PointerMotion button
          buttonMask x y cx cy step =
        ({ s with
            trace := s.trace ++
              [Call.postEvent (DFBEvent.input (pointerEvent1 s inputEvent x)),
                Call.postEvent (DFBEvent.input (pointerEvent2 s inputEvent button buttonMask y))] },
          none) := by
    intro hx
    simp [postPointerEvent, hx, pointerEvent3, Application.emit]
  refine ⟨fun hx => ⟨hpost hx, rfl, rfl, rfl, rfl, rfl, rfl, rfl, rfl⟩, ?_, ?_, ?_⟩
  · intro hx type hty
    cases type with
    | PointerMotion => exact absurd rfl hty
    | PointerButtonDown =>
      refine ⟨_, rfl, ?_⟩
      simp [postPointerEvent, hx, pointerEvent3, Application.emit]
    | PointerButtonUp =>
      refine ⟨_, rfl, ?_⟩
      simp [postPointerEvent, hx, pointerEvent3, Application.emit]
    | PointerWheel =>
      refine ⟨_, rfl, ?_⟩
      simp [postPointerEvent, hx, pointerEvent3, Application.emit]
  · intro hx type a ha
    refine ⟨{ windowEvent with
      type := type.toWindowEventType
      window_id := (env.widget a).windowID
      flags := DFBWindowEventFlags.DWEF_NONE
      x := x
      y := y
      cx := cx
      cy := cy
      step := step
      button := button
      buttons := buttonMask }, ?_, rfl, rfl, rfl, rfl⟩
    simp [postPointerEvent, hx, activeWindow, ha, Application.emit]
  · intro hx hsize hW hH hscreen hx0 hx1 hy0 hy1 hact
    have hss := screenSize_new env hsize hW hH
    rw [hss] at hscreen
    have hWmax : env.screenSize.width ≤ INT_MAX := hsize.1.2
    have hHmax : env.screenSize.height ≤ INT_MAX := hsize.2.2
    rw [hpost hx, handleEvents_eq]
    obtain ⟨t0, h0⟩ := waitStep_frame env
      { s with
        trace := s.trace ++
          [Call.postEvent (DFBEvent.input (pointerEvent1 s inputEvent x)),
            Call.postEvent (DFBEvent.input (pointerEvent2 s inputEvent button buttonMask y))] }
      timeout forceWait
    rw [h0]
    obtain ⟨t1, h1⟩ := handleAxisMotion_absolute_x env
      { s with
        trace := s.trace ++
          [Call.postEvent (DFBEvent.input (pointerEvent1 s inputEvent x)),
            Call.postEvent (DFBEvent.input (pointerEvent2 s inputEvent button buttonMask y))] ++ t0 }
      we (pointerEvent1 s inputEvent x) rfl rfl rfl rfl hact
    obtain ⟨t2, h2⟩ := handleAxisMotion_absolute_y env
      { s with
        __cursorOld := s.__cursorNew
        __cursorNew :=
          { x := clampComponent (pointerEvent1 s inputEvent x).axisabs s.__screenSize.w
            y := clampComponent s.__cursorNew.y s.__screenSize.h }
        trace := s.trace ++
          [Call.postEvent (DFBEvent.input (pointerEvent1 s inputEvent x)),
            Call.postEvent (DFBEvent.input (pointerEvent2 s inputEvent button buttonMask y))] ++ t0
            ++ t1 }
      we (pointerEvent2 s inputEvent button buttonMask y) rfl rfl rfl rfl hact
    have e1 : (pointerEvent1 s inputEvent x).axisabs = x := rfl
    have e2 : (pointerEvent2 s inputEvent button buttonMask y).axisabs = y := rfl
    have c1 : clampComponent x (env.screenSize.width - 1) = x :=
      clampComponent_id x _ hW hWmax hx0 hx1
    have c2 : clampComponent y (env.screenSize.height - 1) = y :=
      clampComponent_id y _ hH hHmax hy0 hy1
    simp only [drainEvents, handleInputEvent_axisMotion env _ we (pointerEvent1 s inputEvent x) rfl,
      handleInputEvent_axisMotion env _ we (pointerEvent2 s inputEvent button buttonMask y) rfl,
      h1, h2, flushLastMotion]
    simp [cursorPosition, e1, e2, hscreen, c1, c2]

/-- On the 800x600 screen in exclusive mode, with the cursor at `(10, 599)` before:
the motion to `(100, 200)` is posted as two events, and `handleEvents` on them leaves
the cursor at `(100, 200)`; a button press is posted as three events. -/
theorem postPointerEvent_round_trip_example :
    (lastRowApp.__activeWindow ≠ none ∨ exclusiveDecliningEnv.cursorVisible = false) ∧
    cursorPosition lastRowApp = { x := 10, y := 599 } ∧
    cursorPosition
      (handleEvents plainConfig exclusiveDecliningEnv
        (postPointerEvent exclusiveDecliningEnv lastRowApp blankInput demoEvent
          PointerEventType.PointerMotion 0 0 100 200 0 0 0).1
        demoEvent demoEvent 10 false
        [DFBEvent.input (pointerEvent1 lastRowApp blankInput 100),
          DFBEvent.input (pointerEvent2 lastRowApp blankInput 0 0 200)]).1 =
      { x := 100, y := 200 } ∧
    ∃ event3 : DFBInputEvent,
      postPointerEvent exclusiveDecliningEnv lastRowApp blankInput demoEvent
          PointerEventType.PointerButtonDown 1 1 100 200 0 0 0 =
        ({ lastRowApp with
            trace := lastRowApp.trace ++
              [Call.postEvent (DFBEvent.input (pointerEvent1 lastRowApp blankInput 100)),
                Call.postEvent (DFBEvent.input (pointerEvent2 lastRowApp blankInput 1 1 200)),
                Call.postEvent (DFBEvent.input event3)] },
          none) := by
  have hact : lastRowApp.__activeWindow ≠ none ∨ exclusiveDecliningEnv.cursorVisible = false :=
    Or.inl (by decide)
  have h := (postPointerEvent_round_trip plainConfig exclusiveDecliningEnv lastRowApp blankInput
    demoEvent demoEvent demoEvent 0 0 100 200 0 0 0 10 false).2.2.2 rfl ⟨by decide, by decide⟩
    (by decide) (by decide) (by decide) (by decide) (by decide) (by decide) (by decide) hact
  obtain ⟨e3, _, h3⟩ := (postPointerEvent_round_trip plainConfig exclusiveDecliningEnv lastRowApp
    blankInput demoEvent demoEvent demoEvent 1 1 100 200 0 0 0 10 false).2.1 rfl
    PointerEventType.PointerButtonDown (by decide)
  exact ⟨hact, rfl, h.2, e3, h3⟩

theorem drainEvents_window_batch (cfg : BuildConfig) (env : Env) (we : DFBWindowEvent)
    (hcfg : cfg.motionCompression = false) (hshared : env.optExclusive = false) :
    ∀ (ws : List DFBWindowEvent) (s : Application) (lastMotion : DFBWindowEvent),
      (∀ e ∈ ws, e.type ≠ DFBWindowEventType.DWET_UPDATE) →
      drainEvents cfg env we s lastMotion (ws.map DFBEvent.window) =
        ((ws.foldl (fun acc e => handleWindowEvents env acc e) s, lastMotion), none) := by
  intro ws
  induction ws with
  | nil =>
    intro s lastMotion _
    simp [drainEvents]
  | cons e rest ih =>
    intro s lastMotion hall
    have he : e.type ≠ DFBWindowEventType.DWET_UPDATE := hall e (List.mem_cons_self e rest)
    have hrest : ∀ x ∈ rest, x.type ≠ DFBWindowEventType.DWET_UPDATE :=
      fun x hx => hall x (List.mem_cons_of_mem e hx)
    have hq : handleQueuedWindowEvent cfg env s lastMotion e =
        (handleWindowEvents env s e, lastMotion) := by
      simp [handleQueuedWindowEvent, hcfg, hshared, he, filterAndRoute, windowPreEventFilter]
    rw [List.map_cons, drainEvents, hq]
    simp only
    rw [ih (handleWindowEvents env s e) lastMotion hrest, List.foldl_cons]

/-- Without motion compression and in shared mode, `handleEvents` on a queue of window
events other than updates waits as decided and then hands every event of the queue, in
queue order, to `handleWindowEvents`. -/
theorem handleEvents_routes_window_batch (cfg : BuildConfig) (env : Env) (s : Application)
    (we lastMotion : DFBWindowEvent) (timeout : Int) (forceWait : Bool)
    (ws : List DFBWindowEvent) (hcfg : cfg.motionCompression = false)
    (hshared : env.optExclusive = false)
    (hno : ∀ e ∈ ws, e.type ≠ DFBWindowEventType.DWET_UPDATE) :
    handleEvents cfg env s we lastMotion timeout forceWait (ws.map DFBEvent.window) =
      (ws.foldl (fun acc e => handleWindowEvents env acc e) (waitStep env s timeout forceWait),
        none) := by
  rw [handleEvents_eq, drainEvents_window_batch cfg env we hcfg hshared ws _ _ hno]
  simp [flushLastMotion, hcfg]

/-! ### Claims that fail where a pass ends in a fault -/

/-- C7 (defect of the rescaling). On the 2x2 screen the absolute X-axis event with
`min = 0`, `max = -1` (so `max != min`) and `axisabs = INT_MIN` makes line 729 divide
`INT_MIN` by -1, after a subtraction and a multiplication that stay within `int`. The
division has no result: `handleAxisMotion` does not complete, the cursor is not clamped
and nothing is routed. -/
theorem C7_rescale_quotient_overflows :
    (2 ≤ tinyEnv.screenSize.width ∧ 2 ≤ tinyEnv.screenSize.height) ∧
    tinyApp.__screenSize = (Application.new tinyEnv).__screenSize ∧
    (absoluteMotion DFBInputDeviceAxisIdentifier.DIAI_X INT_MIN 0 (-1)).wellTyped ∧
    (absoluteMotion DFBInputDeviceAxisIdentifier.DIAI_X INT_MIN 0 (-1)).max ≠
      (absoluteMotion DFBInputDeviceAxisIdentifier.DIAI_X INT_MIN 0 (-1)).min ∧
    isInt32 (INT_MIN - 0) ∧ isInt32 ((INT_MIN - 0) * tinyApp.__screenSize.w) ∧
    ¬ isInt32 (Int.tdiv ((INT_MIN - 0) * tinyApp.__screenSize.w) (-1 - 0)) ∧
    handleAxisMotion tinyEnv tinyApp demoEvent
        (absoluteMotion DFBInputDeviceAxisIdentifier.DIAI_X INT_MIN 0 (-1)) =
      (tinyApp, some Fault.divisionOverflow) := by
  refine ⟨by decide, by decide, ⟨by decide, by decide, by decide, by decide⟩, by decide,
    by decide, by decide, by decide, by decide⟩

/-- C24 (fault inside the loop). On the stack `[1, 2, 3]` without an active window and
with a visible cursor, `handleEvents` on the queue that holds a relative X motion and
then a button press waits once and ends at the `NULL` dereference of line 759 while the
motion is handled: the button press is never taken from the queue, although the same
call on the queue that holds the button press alone hands it to the three windows. -/
theorem C24_fault_leaves_queue_undrained :
    (∀ w ∈ (demoStack none).__windowList, (decliningEnv.widget w).updateQueueValid = false) ∧
    (handleEvents plainConfig decliningEnv (demoStack none) demoEvent demoEvent 10 false
      [DFBEvent.input (relativeMotion DFBInputDeviceAxisIdentifier.DIAI_X 5),
        DFBEvent.window demoEvent]).2 = some Fault.nullDereference ∧
    (handleEvents plainConfig decliningEnv (demoStack none) demoEvent demoEvent 10 false
      [DFBEvent.input (relativeMotion DFBInputDeviceAxisIdentifier.DIAI_X 5),
        DFBEvent.window demoEvent]).1.trace = [Call.waitForEvents 10] ∧
    handleEvents plainConfig decliningEnv (demoStack none) demoEvent demoEvent 10 false
        [DFBEvent.window demoEvent] =
      ({ demoStack none with
          trace :=
            [Call.waitForEvents 10,
              Call.handleWindowEvent 3 demoEvent (some false),
              Call.handleWindowEvent 2 demoEvent (some false),
              Call.handleWindowEvent 1 demoEvent (some false)] },
        none) := by
  decide

/-- C30 (fault in the round trip). In exclusive mode with a visible cursor, on the
application as constructed (no active window), `postPointerEvent` with type motion to
`(100, 200)` posts its two events, but `handleEvents` on them ends at the `NULL`
dereference of line 759 while the first is handled: the cursor is left at `(100, 0)`,
not at `(100, 200)`. In shared mode on the application as constructed the call of
`postPointerEvent` itself ends at the `NULL` dereference of line 310 and posts no event. -/
theorem C30_round_trip_faults_without_active_window :
    (2 ≤ exclusiveEnv.screenSize.width ∧ 2 ≤ exclusiveEnv.screenSize.height ∧
      (0 : Int) ≤ 100 ∧ 100 ≤ exclusiveEnv.screenSize.width - 2 ∧
      (0 : Int) ≤ 200 ∧ 200 ≤ exclusiveEnv.screenSize.height - 2) ∧
    (postPointerEvent exclusiveEnv (Application.new exclusiveEnv) blankInput demoEvent
      PointerEventType.PointerMotion 0 0 100 200 0 0 0).1.trace =
      [Call.postEvent
          (DFBEvent.input (pointerEvent1 (Application.new exclusiveEnv) blankInput 100)),
        Call.postEvent
          (DFBEvent.input (pointerEvent2 (Application.new exclusiveEnv) blankInput 0 0 200))] ∧
    (handleEvents plainConfig exclusiveEnv
      (postPointerEvent exclusiveEnv (Application.new exclusiveEnv) blankInput demoEvent
        PointerEventType.PointerMotion 0 0 100 200 0 0 0).1
      demoEvent demoEvent 10 false
      [DFBEvent.input (pointerEvent1 (Application.new exclusiveEnv) blankInput 100),
        DFBEvent.input (pointerEvent2 (Application.new exclusiveEnv) blankInput 0 0 200)]).2 =
      some Fault.nullDereference ∧
    cursorPosition
      (handleEvents plainConfig exclusiveEnv
        (postPointerEvent exclusiveEnv (Application.new exclusiveEnv) blankInput demoEvent
          PointerEventType.PointerMotion 0 0 100 200 0 0 0).1
        demoEvent demoEvent 10 false
        [DFBEvent.input (pointerEvent1 (Application.new exclusiveEnv) blankInput 100),
          DFBEvent.input (pointerEvent2 (Application.new exclusiveEnv) blankInput 0 0 200)]).1 =
      { x := 100, y := 0 } ∧
    postPointerEvent demoEnv (Application.new demoEnv) blankInput demoEvent
        PointerEventType.PointerMotion 0 0 100 200 0 0 0 =
      (Application.new demoEnv, some Fault.nullDereference) := by
  decide

end ilixi
